import Mathlib

/-!
# Vision-guided date navigation (Pokémon LGPE date routines)

A shallow embedding of `PokemonLGPE_DateSpam.cpp`: the text and colour
classifiers, the recovery routine `retry_navigate_to_date_time_internal`, the
checkpoint sequence `navigate_to_date_change_with_ocr`, `home_to_settings_only`
and `verify_date_time_menu_selected`; of the main loop of
`PokemonLGPE_RareCandy.cpp`; and of the item-name helpers of
`PokemonLGPE_DailyItemFarmer.cpp`.

Modelling conventions

* The console is an environment `Console`: the `k`-th call of
  `console.video().snapshot()` returns `video k`, and `timing_variation` is the
  controller's timing variation in milliseconds.
* The running state is a `World`: the number of captures made so far and the
  ordered trace of every interaction with the outside world (controller
  commands, waits, captures, classifications).
* External collaborators (binarization, text recognition, image statistics)
  are not part of the program; their results are fields of the captured
  region.
* `console.log` and `overlays.add` influence neither the control flow nor the
  controller and are left out.
* A `std::string` is a `String` whose characters stand for the bytes.
* Mean channel values and the text ratio are `double` in the program; they
  are modelled as exact rationals.
-/

namespace PokemonLGPE

/-! ## Data model -/

/-- Durations in milliseconds. -/
abbrev Milliseconds := Nat

/-- The Joy-Con buttons pressed by the routines. -/
inductive Button where
  | A
  | B
  | X
  | ZL
  | HOME
  deriving DecidableEq, Repr

/-- A rectangle `ImageFloatBox(x, y, width, height)` in coordinates relative to
the frame; the four numbers are stored in hundredths of the frame size, so that
`ImageFloatBox(0.37, 0.19, 0.16, 0.09)` is `⟨37, 19, 16, 9⟩`. -/
structure ImageFloatBox where
  x : Nat
  y : Nat
  width : Nat
  height : Nat
  deriving DecidableEq, Repr

/-- Mean channel values of a region (`ImageStats::average`). -/
structure FloatPixel where
  r : ℚ
  g : ℚ
  b : ℚ
  deriving DecidableEq

/-- A pixel region together with what the external collaborators return on it:
`text_pixels lo hi` is the pixel count reported by
`to_blackwhite_rgb32_range(text_pixels, region, false, lo, hi)`,
`ocr_filtered lo hi` is `OCR::ocr_read` on that binarized image, `ocr_raw` is
`OCR::ocr_read` on the region itself and `average` is
`image_stats(region).average`. -/
structure ImageViewRGB32 where
  width : Nat
  height : Nat
  text_pixels : Nat → Nat → Nat
  ocr_filtered : Nat → Nat → String
  ocr_raw : String
  average : FloatPixel

/-- A captured frame; `extract_box_reference box` is the region of the frame
under `box`. -/
structure VideoSnapshot where
  extract_box_reference : ImageFloatBox → ImageViewRGB32

/-- Everything the routines do to the outside world, in execution order. -/
inductive Event where
  | press_button (button : Button) (hold release : Milliseconds)
  | move_joystick (x y : Nat) (hold release : Milliseconds)
  | wait_for_all_requests
  | wait_for (duration : Milliseconds)
  | pbf_wait (duration : Milliseconds)
  | snapshot (available : Bool)
  | ocr (box : ImageFloatBox) (text : String)
  | image_stats (box : ImageFloatBox) (average : FloatPixel)
  | mash_button (button : Button) (duration : Milliseconds)
  deriving DecidableEq

/-- The console as seen by the routines. -/
structure Console where
  video : Nat → Option VideoSnapshot
  timing_variation : Milliseconds

/-- The running state: captures consumed so far and the interaction trace. -/
structure World where
  next : Nat
  trace : List Event

/-- Controller actions are button presses and joystick moves. -/
def Event.is_action : Event → Bool
  | Event.press_button _ _ _ => true
  | Event.move_joystick _ _ _ _ => true
  | _ => false

/-- The controller actions of a trace, in order. -/
def actions (trace : List Event) : List Event :=
  trace.filter Event.is_action

/-! ## Text recognition helper (`read_box_text_ocr`, lines 35-92) -/

/-- Search of `needle` in `hay` from offset `pos`: the position of the first
occurrence, `none` for `std::string::npos`. -/
def find_from : List Char → List Char → Nat → Option Nat
  | [], needle, pos => if needle.isEmpty then some pos else none
  | h :: hs, needle, pos =>
    if needle.isPrefixOf (h :: hs) then some pos else find_from hs needle (pos + 1)

/-- The call `s.find(needle)` of `std::string`. -/
def string_find (s needle : String) : Option Nat :=
  find_from s.data needle.data 0

/-- The test `s.find(needle) != std::string::npos`. -/
def found (s needle : String) : Bool :=
  (string_find s needle).isSome

/-- The filter bank of `read_box_text_ocr` (lines 41-46). -/
def filters : List (Nat × Nat) :=
  [ (0xff000000, 0xff404040),
    (0xff000000, 0xff606060),
    (0xff808080, 0xffffffff),
    (0xffa0a0a0, 0xffffffff) ]

/-- The test `text_ratio < 0.02 || text_ratio > 0.50` of lines 60-61, where
`text_ratio = 1.0 - (double)text_pixels / (width * height)`. On an empty region
the division is by zero: a positive count gives `-inf` (skipped), a zero
count gives NaN, for which both comparisons are false (kept). -/
def filter_skipped (text_pixels width height : Nat) : Bool :=
  if width * height = 0 then
    decide (text_pixels ≠ 0)
  else
    let text_ratio : ℚ := 1 - (text_pixels : ℚ) / ((width * height : Nat) : ℚ)
    decide (text_ratio < 2 / 100) || decide (text_ratio > 50 / 100)

/-- One iteration of the filter loop (lines 51-72) on the loop state
`(best_text, best_text_length)`. -/
def filter_step (region : ImageViewRGB32) (best : String × Nat) (filter : Nat × Nat) :
    String × Nat :=
  let text_pixels := region.text_pixels filter.1 filter.2
  if filter_skipped text_pixels region.width region.height then
    best
  else
    let text := region.ocr_filtered filter.1 filter.2
    if text.length > best.2 then (text, text.length) else best

/-- The text kept after the filter loop and the raw fallback (lines 48-77). -/
def best_text (region : ImageViewRGB32) : String :=
  let best := filters.foldl (filter_step region) ("", 0)
  if best.1.isEmpty then region.ocr_raw else best.1

/-- Lines 79-91: drop every carriage return and line feed, then lowercase. -/
def normalize (s : String) : String :=
  String.mk ((s.data.filter (fun ch => ch != '\r' && ch != '\n')).map Char.toLower)

/-- The helper `read_box_text_ocr(snapshot, box)`. -/
def read_box_text_ocr (snapshot : VideoSnapshot) (box : ImageFloatBox) : String :=
  normalize (best_text (snapshot.extract_box_reference box))

/-! ## Colour rule -/

/-- The toggle rule of Check 3 in `navigate_to_date_change_with_ocr`
(lines 378-384). -/
def toggle_appears_on (average : FloatPixel) : Bool :=
  let is_cyan := decide (average.g > average.r + 5) && decide (average.b ≥ average.r)
  let is_white := decide (|average.r - average.g| < 10) &&
                  decide (|average.r - average.b| < 10) &&
                  decide (|average.g - average.b| < 10)
  is_cyan && !is_white

/-- The toggle rule of Step 1 in `verify_date_time_menu_selected`
(lines 562-568). -/
def sync_appears_on (average : FloatPixel) : Bool :=
  let is_cyan := decide (average.g > average.r + 5) && decide (average.b ≥ average.r)
  let is_white := decide (|average.r - average.g| < 10) &&
                  decide (|average.r - average.b| < 10) &&
                  decide (|average.g - average.b| < 10)
  is_cyan && !is_white

/-! ## Controller and video primitives -/

/-- Append one event to the trace. -/
def emit (e : Event) (w : World) : World :=
  { w with trace := w.trace ++ [e] }

/-- The command `pbf_press_button(context, button, hold, release)`. -/
def pbf_press_button (button : Button) (hold release : Milliseconds) (w : World) : World :=
  emit (Event.press_button button hold release) w

/-- The command `pbf_move_joystick(context, x, y, hold, release)`. -/
def pbf_move_joystick (x y : Nat) (hold release : Milliseconds) (w : World) : World :=
  emit (Event.move_joystick x y hold release) w

/-- The command `pbf_mash_button(context, button, duration)`. -/
def pbf_mash_button (button : Button) (duration : Milliseconds) (w : World) : World :=
  emit (Event.mash_button button duration) w

/-- The call `context.wait_for_all_requests()`. -/
def wait_for_all_requests (w : World) : World :=
  emit Event.wait_for_all_requests w

/-- The call `context.wait_for(duration)`. -/
def wait_for (duration : Milliseconds) (w : World) : World :=
  emit (Event.wait_for duration) w

/-- The command `pbf_wait(context, duration)`. -/
def pbf_wait (duration : Milliseconds) (w : World) : World :=
  emit (Event.pbf_wait duration) w

/-- The frame returned by `console.video().snapshot()` in state `w`. -/
def video_snapshot (console : Console) (w : World) : Option VideoSnapshot :=
  console.video w.next

/-- The state after `console.video().snapshot()`. -/
def after_snapshot (console : Console) (w : World) : World :=
  { next := w.next + 1,
    trace := w.trace ++ [Event.snapshot (console.video w.next).isSome] }

/-- The loop `for (int i = 0; i < n; i++) body`. -/
def repeat_n : Nat → (World → World) → World → World
  | 0, _, w => w
  | n + 1, body, w => repeat_n n body (body w)

/-! ## Regions read by the navigation -/

/-- The box `ImageFloatBox system_update_box(0.37, 0.19, 0.16, 0.09)`. -/
def system_update_box : ImageFloatBox := ⟨37, 19, 16, 9⟩

/-- The box `ImageFloatBox menu_title_box(0.05, 0.03, 0.20, 0.10)`. -/
def menu_title_box : ImageFloatBox := ⟨5, 3, 20, 10⟩

/-- The box `ImageFloatBox sync_text_box(0.17, 0.19, 0.45, 0.10)`. -/
def sync_text_box : ImageFloatBox := ⟨17, 19, 45, 10⟩

/-- The box `ImageFloatBox toggle_box(0.77, 0.20, 0.05, 0.05)`. -/
def toggle_box : ImageFloatBox := ⟨77, 20, 5, 5⟩

/-- The box `ImageFloatBox current_dt_box(0.01, 0.01, 0.32, 0.10)`. -/
def current_dt_box : ImageFloatBox := ⟨1, 1, 32, 10⟩

/-! ## Recovery (`retry_navigate_to_date_time_internal`, lines 95-151) -/

/-- Lines 137-149 of the recovery routine: scroll down to "Date and Time" and
press A. -/
def retry_forward (unit : Milliseconds) (w : World) : World :=
  let w := pbf_move_joystick 128 255 unit unit w
  let w := pbf_move_joystick 128 255 unit unit w
  let w := wait_for_all_requests w
  let w := pbf_move_joystick 128 255 525 unit w
  let w := pbf_move_joystick 128 255 unit unit w
  let w := wait_for_all_requests w
  let w := wait_for 500 w
  let w := pbf_press_button Button.A unit 500 w
  wait_for_all_requests w

/-- The routine `retry_navigate_to_date_time_internal`: back out, scroll to the
top, look for "System Update", navigate forward again. -/
def retry_navigate_to_date_time_internal (console : Console) (unit : Milliseconds)
    (w : World) : Bool × World :=
  let w := pbf_press_button Button.B unit 500 w
  let w := wait_for_all_requests w
  let w := wait_for 500 w
  let w := repeat_n 18 (pbf_move_joystick 128 0 unit unit) w
  let w := wait_for_all_requests w
  let w := wait_for 500 w
  let snapshot := video_snapshot console w
  let w := after_snapshot console w
  match snapshot with
  | none => (false, w)
  | some snapshot =>
    let top_lower := read_box_text_ocr snapshot system_update_box
    let w := emit (Event.ocr system_update_box top_lower) w
    let has_system_word := found top_lower "system"
    let has_update_word := found top_lower "update"
    -- both branches of the test on lines 130-135 only write to the log
    let w := if !has_system_word || !has_update_word then w else w
    (true, retry_forward unit w)

/-! ## Navigation (`navigate_to_date_change_with_ocr`, lines 221-479) -/

/-- Step 1 (lines 239-250): scroll down the left menu and enter "System". -/
def step1_enter_system (unit : Milliseconds) (w : World) : World :=
  let w := pbf_move_joystick 128 255 2500 unit w
  let w := wait_for_all_requests w
  let w := wait_for 500 w
  let w := pbf_press_button Button.A unit 500 w
  let w := wait_for_all_requests w
  wait_for 500 w

/-- Step 2 (lines 253-269): scroll to "Date and Time" and press A. -/
def step2_enter_date_time (unit : Milliseconds) (w : World) : World :=
  let w := pbf_move_joystick 128 255 unit unit w
  let w := pbf_move_joystick 128 255 unit unit w
  let w := wait_for_all_requests w
  let w := pbf_move_joystick 128 255 525 unit w
  let w := pbf_move_joystick 128 255 unit unit w
  let w := wait_for_all_requests w
  let w := wait_for 500 w
  let w := pbf_press_button Button.A unit 500 w
  let w := wait_for_all_requests w
  wait_for 500 w

/-- Check 1 (lines 276-317): the menu title reads "Date and Time". The result
is `false` where the program returns `false`, `true` where it goes on. -/
def check1_menu_title (console : Console) (unit : Milliseconds) (w : World) : Bool × World :=
  let w := wait_for_all_requests w
  let w := wait_for 500 w
  let snapshot := video_snapshot console w
  let w := after_snapshot console w
  match snapshot with
  | none => (false, w)
  | some snapshot =>
    let title_lower := read_box_text_ocr snapshot menu_title_box
    let w := emit (Event.ocr menu_title_box title_lower) w
    let has_date_title := found title_lower "date"
    let has_time_title := found title_lower "time"
    if !has_date_title || !has_time_title then
      let r := retry_navigate_to_date_time_internal console unit w
      if !r.1 then (false, r.2)
      else
        let w := wait_for_all_requests r.2
        let w := wait_for 500 w
        let snapshot := video_snapshot console w
        let w := after_snapshot console w
        match snapshot with
        | none => (false, w)
        | some snapshot =>
          let title_lower := read_box_text_ocr snapshot menu_title_box
          let w := emit (Event.ocr menu_title_box title_lower) w
          let has_date_title := found title_lower "date"
          let has_time_title := found title_lower "time"
          if !has_date_title || !has_time_title then (false, w) else (true, w)
    else (true, w)

/-- Check 2 (lines 320-361): the first entry reads "Sync Clock Using the
Internet". -/
def check2_sync_text (console : Console) (unit : Milliseconds) (w : World) : Bool × World :=
  let snapshot := video_snapshot console w
  let w := after_snapshot console w
  match snapshot with
  | none => (false, w)
  | some snapshot =>
    let sync_lower := read_box_text_ocr snapshot sync_text_box
    let w := emit (Event.ocr sync_text_box sync_lower) w
    let has_sync := found sync_lower "sync"
    let has_clock := found sync_lower "clock"
    let has_internet := found sync_lower "internet"
    if !has_sync || !has_clock || !has_internet then
      let r := retry_navigate_to_date_time_internal console unit w
      if !r.1 then (false, r.2)
      else
        let w := wait_for_all_requests r.2
        let w := wait_for 500 w
        let snapshot := video_snapshot console w
        let w := after_snapshot console w
        match snapshot with
        | none => (false, w)
        | some snapshot =>
          let sync_lower := read_box_text_ocr snapshot sync_text_box
          let w := emit (Event.ocr sync_text_box sync_lower) w
          let has_sync := found sync_lower "sync"
          let has_clock := found sync_lower "clock"
          let has_internet := found sync_lower "internet"
          if !has_sync || !has_clock || !has_internet then (false, w) else (true, w)
    else (true, w)

/-- Check 3 (lines 364-403): classify the toggle and press A when it appears
on. -/
def check3_toggle (console : Console) (unit : Milliseconds) (w : World) : Bool × World :=
  let snapshot := video_snapshot console w
  let w := after_snapshot console w
  match snapshot with
  | none => (false, w)
  | some snapshot =>
    let average := (snapshot.extract_box_reference toggle_box).average
    let w := emit (Event.image_stats toggle_box average) w
    if toggle_appears_on average then
      let w := pbf_press_button Button.A unit 600 w
      let w := wait_for_all_requests w
      let w := wait_for 500 w
      (true, w)
    else (true, w)

/-- Lines 408-416 and 448-456: scroll down twice and press A to enter the date
change menu. -/
def enter_date_change (unit : Milliseconds) (w : World) : World :=
  let w := pbf_move_joystick 128 255 unit unit w
  let w := wait_for_all_requests w
  let w := pbf_move_joystick 128 255 unit unit w
  let w := wait_for_all_requests w
  let w := pbf_press_button Button.A unit unit w
  let w := wait_for_all_requests w
  wait_for 200 w

/-- Check 4 (lines 406-475): enter the date change menu and verify its title;
the result is the return value of the program. -/
def check4_date_change (console : Console) (unit : Milliseconds) (w : World) : Bool × World :=
  let w := enter_date_change unit w
  let snapshot := video_snapshot console w
  let w := after_snapshot console w
  match snapshot with
  | none => (false, w)
  | some snapshot =>
    let current_dt_lower := read_box_text_ocr snapshot current_dt_box
    let w := emit (Event.ocr current_dt_box current_dt_lower) w
    let has_date_final := found current_dt_lower "date"
    let has_time_final := found current_dt_lower "time"
    let has_zone := found current_dt_lower "zone"
    if !has_date_final || !has_time_final || has_zone then
      let w := pbf_press_button Button.B unit 500 w
      let w := wait_for_all_requests w
      let r := retry_navigate_to_date_time_internal console unit w
      if !r.1 then (false, r.2)
      else
        let w := enter_date_change unit r.2
        let snapshot := video_snapshot console w
        let w := after_snapshot console w
        match snapshot with
        | some snapshot =>
          let current_dt_lower := read_box_text_ocr snapshot current_dt_box
          let w := emit (Event.ocr current_dt_box current_dt_lower) w
          let has_date_final := found current_dt_lower "date"
          let has_time_final := found current_dt_lower "time"
          let has_zone := found current_dt_lower "zone"
          if !has_date_final || !has_time_final || has_zone then (false, w) else (true, w)
        | none => (true, w)
    else (true, w)

/-- Checks 3 and 4 in sequence (lines 363-478). -/
def check34 (console : Console) (unit : Milliseconds) (w : World) : Bool × World :=
  let r := check3_toggle console unit w
  if !r.1 then (false, r.2) else check4_date_change console unit r.2

/-- The function `navigate_to_date_change_with_ocr`: the returned Boolean and
the final state. -/
def navigate_to_date_change_with_ocr (console : Console) (w : World) : Bool × World :=
  let w := wait_for_all_requests w
  let w := wait_for 400 w
  let tv := console.timing_variation
  let unit := 100 + tv
  let snapshot := video_snapshot console w
  let w := after_snapshot console w
  match snapshot with
  | none => (false, w)
  | some _ =>
    let w := step1_enter_system unit w
    let w := step2_enter_date_time unit w
    let r := check1_menu_title console unit w
    if !r.1 then (false, r.2)
    else
      let r := check2_sync_text console unit r.2
      if !r.1 then (false, r.2) else check34 console unit r.2

/-! ## Trace fragments and acceptance conditions used in the statements -/

/-- The events of Step 1. -/
def step1_events (unit : Milliseconds) : List Event :=
  [ Event.move_joystick 128 255 2500 unit, Event.wait_for_all_requests, Event.wait_for 500,
    Event.press_button Button.A unit 500, Event.wait_for_all_requests, Event.wait_for 500 ]

/-- The events of the forward navigation to "Date and Time": four scroll-downs,
the third held 525 ms, then A. -/
def forward_events (unit : Milliseconds) : List Event :=
  [ Event.move_joystick 128 255 unit unit, Event.move_joystick 128 255 unit unit,
    Event.wait_for_all_requests,
    Event.move_joystick 128 255 525 unit, Event.move_joystick 128 255 unit unit,
    Event.wait_for_all_requests, Event.wait_for 500,
    Event.press_button Button.A unit 500, Event.wait_for_all_requests ]

/-- The events of the recovery routine before its capture: B, then 18
scroll-ups. -/
def retry_head_events (unit : Milliseconds) : List Event :=
  [ Event.press_button Button.B unit 500, Event.wait_for_all_requests, Event.wait_for 500 ] ++
    List.replicate 18 (Event.move_joystick 128 0 unit unit) ++
    [ Event.wait_for_all_requests, Event.wait_for 500 ]

/-- The events of a recovery whose capture yields a frame reading `text` in the
sentinel region. -/
def retry_events (unit : Milliseconds) (text : String) : List Event :=
  retry_head_events unit ++
    [ Event.snapshot true, Event.ocr system_update_box text ] ++ forward_events unit

/-- The events that enter the date change menu. -/
def enter_date_change_events (unit : Milliseconds) : List Event :=
  [ Event.move_joystick 128 255 unit unit, Event.wait_for_all_requests,
    Event.move_joystick 128 255 unit unit, Event.wait_for_all_requests,
    Event.press_button Button.A unit unit, Event.wait_for_all_requests, Event.wait_for 200 ]

/-- Check 1 passes (negation of the test on lines 294 and 311). -/
def title_matches (text : String) : Bool :=
  found text "date" && found text "time"

/-- Check 2 passes (negation of the test on lines 337 and 355). -/
def sync_matches (text : String) : Bool :=
  found text "sync" && found text "clock" && found text "internet"

/-- Check 4 passes (negation of the test on lines 434 and 464). -/
def final_matches (text : String) : Bool :=
  found text "date" && found text "time" && !found text "zone"

/-- The sentinel "System Update" is recognised (negation of the test on
line 130). -/
def sentinel_matches (text : String) : Bool :=
  found text "system" && found text "update"

/-- The events of a first verification of Check 1 on a frame reading `text`. -/
def check1_events (text : String) : List Event :=
  [ Event.wait_for_all_requests, Event.wait_for 500, Event.snapshot true,
    Event.ocr menu_title_box text ]

/-- The events of a first verification of Check 2 on a frame reading `text`. -/
def check2_events (text : String) : List Event :=
  [ Event.snapshot true, Event.ocr sync_text_box text ]

/-- The events of the re-verification of Check 2 on a frame reading `text`. -/
def recheck2_events (text : String) : List Event :=
  [ Event.wait_for_all_requests, Event.wait_for 500, Event.snapshot true,
    Event.ocr sync_text_box text ]

/-- The events of Check 3 on a frame whose toggle region has mean `average`. -/
def check3_events (unit : Milliseconds) (average : FloatPixel) : List Event :=
  [ Event.snapshot true, Event.image_stats toggle_box average ] ++
    (if toggle_appears_on average then
      [ Event.press_button Button.A unit 600, Event.wait_for_all_requests, Event.wait_for 500 ]
    else [])

/-- The events of a verification of Check 4 on a frame reading `text`. -/
def check4_events (unit : Milliseconds) (text : String) : List Event :=
  enter_date_change_events unit ++ [ Event.snapshot true, Event.ocr current_dt_box text ]

/-- The events of the recovery of Check 4 up to its re-verification: B, the
recovery routine, and the entry into the date change menu. -/
def check4_recovery_events (unit : Milliseconds) (sentinel : String) : List Event :=
  [ Event.press_button Button.B unit 500, Event.wait_for_all_requests ] ++
    retry_events unit sentinel ++ enter_date_change_events unit

/-- The events before Check 1 when the first capture yields a frame. -/
def start_events (unit : Milliseconds) : List Event :=
  [ Event.wait_for_all_requests, Event.wait_for 400, Event.snapshot true ] ++
    step1_events unit ++ forward_events unit ++ [ Event.wait_for 500 ]

/-- The actions of Steps 1 and 2. -/
def step_actions (unit : Milliseconds) : List Event :=
  [ Event.move_joystick 128 255 2500 unit, Event.press_button Button.A unit 500,
    Event.move_joystick 128 255 unit unit, Event.move_joystick 128 255 unit unit,
    Event.move_joystick 128 255 525 unit, Event.move_joystick 128 255 unit unit,
    Event.press_button Button.A unit 500 ]

/-- The actions of the forward navigation to "Date and Time". -/
def forward_actions (unit : Milliseconds) : List Event :=
  [ Event.move_joystick 128 255 unit unit, Event.move_joystick 128 255 unit unit,
    Event.move_joystick 128 255 525 unit, Event.move_joystick 128 255 unit unit,
    Event.press_button Button.A unit 500 ]

/-- The actions of the recovery routine before its capture. -/
def retry_head_actions (unit : Milliseconds) : List Event :=
  Event.press_button Button.B unit 500 :: List.replicate 18 (Event.move_joystick 128 0 unit unit)

/-- The actions of a recovery whose capture yields a frame. -/
def retry_actions (unit : Milliseconds) : List Event :=
  retry_head_actions unit ++ forward_actions unit

/-- The actions that enter the date change menu. -/
def enter_date_change_actions (unit : Milliseconds) : List Event :=
  [ Event.move_joystick 128 255 unit unit, Event.move_joystick 128 255 unit unit,
    Event.press_button Button.A unit unit ]

/-! ## Concrete frames and consoles -/

/-- A frame on which no binarization isolates any text (every filter counts all
of the 100 x 100 pixels), on which raw recognition reads `text` in every
region, and whose regions all have mean colour `average`. -/
def frame_reading (text : String) (average : FloatPixel) : VideoSnapshot :=
  ⟨fun _ =>
    { width := 100, height := 100, text_pixels := fun _ _ => 10000,
      ocr_filtered := fun _ _ => "", ocr_raw := text, average := average }⟩

/-- A frame of the "Date and Time" menu with the sync toggle shown white: its
text passes the title and sync checks and has no "zone". -/
def menu_frame : VideoSnapshot :=
  frame_reading "Date and Time\nSync Clock Using the Internet" ⟨200, 200, 200⟩

/-- A frame on which the cursor sits on "Time Zone". -/
def zone_frame : VideoSnapshot :=
  frame_reading "Time Zone" ⟨200, 200, 200⟩

/-- A frame on which nothing is recognised. -/
def blank_frame : VideoSnapshot :=
  frame_reading "" ⟨200, 200, 200⟩

/-- The console whose successive captures are `frames`, with no frame
afterwards. -/
def console_of (frames : List (Option VideoSnapshot)) (tv : Milliseconds) : Console :=
  ⟨fun k => frames.getD k none, tv⟩

/-- Captures for a run in which Check 4 first sees "Time Zone", the recovery
routine finds a frame, and the re-verification of Check 4 gets no frame. -/
def missing_final_frame_console : Console :=
  console_of
    [some menu_frame, some menu_frame, some menu_frame, some menu_frame,
      some zone_frame, some blank_frame, none] 0

/-- Captures for a run in which the first verification of Check 1 gets no frame
and every other capture shows the "Date and Time" menu. -/
def missing_title_frame_console : Console :=
  console_of
    [some menu_frame, none, some menu_frame, some menu_frame, some menu_frame,
      some menu_frame, some menu_frame, some menu_frame] 0

/-- Captures for a run in which Check 1 first sees "Time Zone", the sentinel
region of the recovery shows nothing recognisable, and every later capture
shows the "Date and Time" menu. -/
def unverified_sentinel_console : Console :=
  console_of
    [some menu_frame, some zone_frame, some blank_frame, some menu_frame,
      some menu_frame, some menu_frame, some menu_frame] 0

/-! ## Shape of an aborted trace -/

/-- The trace ends with a verification: a capture that yielded no frame, or a
capture that yielded a frame followed by the classification of a text region.
No controller command and no wait follows it. -/
def ends_with_verification (trace : List Event) : Prop :=
  [Event.snapshot false] <:+ trace ∨
    ∃ box text, [Event.snapshot true, Event.ocr box text] <:+ trace

/-! ## Notions used in the statements on `read_box_text_ocr` -/

/-- The filter `flt` survives the plausibility window on `region`. -/
def survives (region : ImageViewRGB32) (flt : Nat × Nat) : Bool :=
  !filter_skipped (region.text_pixels flt.1 flt.2) region.width region.height

/-- The texts recognised under the filters of `bank` that survive the
plausibility window, in the order of the bank. -/
def surviving_texts (region : ImageViewRGB32) (bank : List (Nat × Nat)) : List String :=
  (bank.filter (survives region)).map (fun flt => region.ocr_filtered flt.1 flt.2)

/-- The update of lines 68-71 on the loop state. -/
def keep_longer (best : String × Nat) (text : String) : String × Nat :=
  if text.length > best.2 then (text, text.length) else best

/-- A region of 100 x 100 pixels on which the four filters survive (each
leaves 9000 pixels, a text ratio of 0.1) and read "Date", "Time", "Zone" and
"Date and Time" in the order of the bank; raw recognition reads "raw". -/
def four_readings_region : ImageViewRGB32 :=
  { width := 100, height := 100, text_pixels := fun _ _ => 9000,
    ocr_filtered := fun lo hi =>
      if lo = 0xff000000 then (if hi = 0xff404040 then "Date" else "Time")
      else if lo = 0xff808080 then "Zone" else "Date and Time",
    ocr_raw := "raw", average := ⟨0, 0, 0⟩ }

/-! ## Counting recoveries -/

/-- The joystick is pushed up: the move `pbf_move_joystick(context, 128, 0, ...)`
that only the recovery routine dispatches, 18 times per call. -/
def is_scroll_up : Event → Bool
  | Event.move_joystick x y _ _ => x == 128 && y == 0
  | _ => false

/-- The number of scroll-ups in a trace. -/
def scroll_ups (trace : List Event) : Nat :=
  (trace.filter is_scroll_up).length

/-! ## Home to System Settings (`home_to_settings_only`, lines 153-219) -/

/-- Modelled from the spec: the enumeration `ConsoleType` is declared in
`NintendoSwitch_ConsoleTypeDetector.h`, outside the sources at hand. It has the
six values named by `home_to_settings_only`; every other value is `other`. -/
inductive ConsoleType where
  | Switch1
  | Switch2_Unknown
  | Switch2_FW19_International
  | Switch2_FW19_JapanLocked
  | Switch2_FW20_International
  | Switch2_FW20_JapanLocked
  | other (code : Nat)
  deriving DecidableEq, Repr

/-- The exception `UserSetupError` thrown on line 212, with the console type
named in its message. -/
structure UserSetupError where
  console_type : ConsoleType
  deriving DecidableEq, Repr

/-- Lines 167-181 and 193-208: right three times, down twice, left once, A
three times, each with the given hold and release times. -/
def settings_moves (hold release : Milliseconds) (w : World) : World :=
  let w := pbf_move_joystick 255 128 hold release w
  let w := pbf_move_joystick 255 128 hold release w
  let w := pbf_move_joystick 255 128 hold release w
  let w := pbf_move_joystick 128 255 hold release w
  let w := pbf_move_joystick 128 255 hold release w
  let w := pbf_move_joystick 0 128 hold release w
  let w := pbf_press_button Button.A hold release w
  let w := pbf_press_button Button.A hold release w
  let w := pbf_press_button Button.A hold release w
  wait_for_all_requests w

/-- The function `home_to_settings_only`. The detector is outside the sources
at hand: `detect_only` is its answer on the captured frame. The result is the
exception thrown, if any, and the final state. -/
def home_to_settings_only (console : Console)
    (detect_only : Option VideoSnapshot → ConsoleType) (w : World) :
    Except UserSetupError Unit × World :=
  let snapshot := video_snapshot console w
  let w := after_snapshot console w
  let console_type := detect_only snapshot
  let tv := console.timing_variation
  let unit := 100 + tv
  match console_type with
  | ConsoleType.Switch1 => (Except.ok (), settings_moves unit unit w)
  | ConsoleType.Switch2_Unknown
  | ConsoleType.Switch2_FW19_International
  | ConsoleType.Switch2_FW19_JapanLocked
  | ConsoleType.Switch2_FW20_International
  | ConsoleType.Switch2_FW20_JapanLocked =>
    let unit2 := 24 + tv
    (Except.ok (), settings_moves (2 * unit2) unit2 w)
  | ConsoleType.other code => (Except.error ⟨ConsoleType.other code⟩, w)

/-! ## Menu verification (`verify_date_time_menu_selected`, lines 481-738) -/

/-- The box `ImageFloatBox system_label_box(0.09, 0.74, 0.08, 0.08)`. -/
def system_label_box : ImageFloatBox := ⟨9, 74, 8, 8⟩

/-- The box `ImageFloatBox sync_status_box1(0.78, 0.21, 0.05, 0.05)`. -/
def sync_status_box1 : ImageFloatBox := ⟨78, 21, 5, 5⟩

/-- The box `ImageFloatBox menu_label_box(0.38, 0.59, 0.14, 0.06)`. -/
def menu_label_box : ImageFloatBox := ⟨38, 59, 14, 6⟩

/-- The box `ImageFloatBox date_time_label_box(0.38, 0.59, 0.14, 0.06)`. -/
def date_time_label_box : ImageFloatBox := ⟨38, 59, 14, 6⟩

/-- The boxes `menu_check_box1` to `menu_check_box5` of lines 709-713. -/
def menu_check_boxes : List ImageFloatBox :=
  [⟨15, 15, 40, 5⟩, ⟨15, 25, 40, 5⟩, ⟨15, 35, 40, 5⟩, ⟨15, 45, 40, 5⟩, ⟨15, 55, 40, 5⟩]

/-- The test `looks_like_sync_option` of lines 617-620. -/
def looks_like_sync_option (lowered : String) : Bool :=
  found lowered "synchron" || found lowered "sync" || found lowered "internet"

/-- The body of the loop of lines 588-630 for one value of `step`: scroll up,
capture, read the menu label. The Boolean is `true` when the function returns
from inside the loop (line 627). -/
def scroll_up_step (console : Console) (unit : Milliseconds) (step : Nat) (w : World) :
    Bool × World :=
  let w := pbf_move_joystick 128 0 unit unit w
  let w := wait_for_all_requests w
  let w := wait_for 300 w
  let step_snapshot := video_snapshot console w
  let w := after_snapshot console w
  match step_snapshot with
  | none => (false, w)
  | some step_snapshot =>
    let lowered := normalize (step_snapshot.extract_box_reference menu_label_box).ocr_raw
    let w := emit (Event.ocr menu_label_box lowered) w
    if step = 1 then
      if !looks_like_sync_option lowered then (true, w) else (false, w)
    else (false, w)

/-- Lines 574-648, taken when the sync clock appears on: go to the bottom of
the menu, scroll up twice with the check of `scroll_up_step`, press A, go back
down. The Boolean is `true` when the function returns from inside the loop. -/
def disable_sync_clock (console : Console) (unit : Milliseconds) (w : World) : Bool × World :=
  let w := repeat_n 5
    (fun w => wait_for 100 (wait_for_all_requests (pbf_move_joystick 128 255 unit unit w))) w
  let r := scroll_up_step console unit 0 w
  if r.1 then (true, r.2)
  else
    let r := scroll_up_step console unit 1 r.2
    if r.1 then (true, r.2)
    else
      let w := pbf_press_button Button.A unit unit r.2
      let w := wait_for_all_requests w
      let w := wait_for 600 w
      let w := pbf_move_joystick 128 255 unit unit w
      let w := wait_for_all_requests w
      let w := wait_for 250 w
      let w := pbf_move_joystick 128 255 unit unit w
      let w := wait_for_all_requests w
      let w := wait_for 400 w
      (false, w)

/-- Lines 653-737: scroll to the bottom of the menu and read the highlighted
label. -/
def ensure_date_time_selected (console : Console) (unit : Milliseconds) (w : World) : World :=
  let w := repeat_n 5
    (fun w => wait_for 150 (wait_for_all_requests (pbf_move_joystick 128 255 unit unit w))) w
  let w := wait_for_all_requests w
  let w := wait_for 400 w
  let snapshot := video_snapshot console w
  let w := after_snapshot console w
  match snapshot with
  | none => w
  | some snapshot =>
    let dt_lower := normalize (snapshot.extract_box_reference date_time_label_box).ocr_raw
    let w := emit (Event.ocr date_time_label_box dt_lower) w
    let has_date := found dt_lower "date"
    let has_time := found dt_lower "time"
    if !has_date || !has_time then w
    else
      menu_check_boxes.foldl
        (fun w box => emit (Event.image_stats box (snapshot.extract_box_reference box).average) w)
        w

/-- The function `verify_date_time_menu_selected`. -/
def verify_date_time_menu_selected (console : Console) (w : World) : World :=
  let w := wait_for_all_requests w
  let w := wait_for 400 w
  let tv := console.timing_variation
  let unit := 100 + tv
  let snapshot := video_snapshot console w
  let w := after_snapshot console w
  match snapshot with
  | none => w
  | some snapshot =>
    let system_lower := normalize (snapshot.extract_box_reference system_label_box).ocr_raw
    let w := emit (Event.ocr system_label_box system_lower) w
    let has_system_word := found system_lower "system"
    if !has_system_word then w
    else
      let sync_status := (snapshot.extract_box_reference sync_status_box1).average
      let w := emit (Event.image_stats sync_status_box1 sync_status) w
      if sync_appears_on sync_status then
        let r := disable_sync_clock console unit w
        if r.1 then r.2 else ensure_date_time_selected console unit r.2
      else ensure_date_time_selected console unit w

/-- The event is a press of the A button. -/
def is_press_a : Event → Bool
  | Event.press_button Button.A _ _ => true
  | _ => false

/-- The number of A presses in a trace. -/
def a_presses (trace : List Event) : Nat :=
  (trace.filter is_press_a).length

/-- A frame of the System page on which the sync clock status is shown in
cyan: every region reads "System" and has the mean colour (43, 56, 53). -/
def sync_on_frame : VideoSnapshot :=
  frame_reading "System" ⟨43, 56, 53⟩

/-- Captures for a run of the menu verification in which the first frame shows
the sync clock on and the two captures after the scroll-ups yield no frame. -/
def blind_toggle_console : Console :=
  console_of [some sync_on_frame, none, none] 0

/-! ## Rare Candy (`RareCandy::program`, lines 46-69) -/

/-- One iteration of the main loop (lines 58-64): the inner loop of A presses
and the wait. -/
def rare_candy_iteration (w : World) : World :=
  let w := repeat_n 3 (pbf_press_button Button.A 300 300) w
  pbf_wait 300 w

/-- The function `RareCandy::program` for the configured `REPEAT_COUNT`;
`total_iterations` is a `uint32_t`. -/
def RareCandy_program (REPEAT_COUNT : Nat) (w : World) : World :=
  let total_iterations := (REPEAT_COUNT * 2) % 2 ^ 32
  repeat_n total_iterations rare_candy_iteration w

/-! ## Item names (`PokemonLGPE_DailyItemFarmer.cpp`, lines 61-113) -/

/-- The helper `read_item_text_ocr(snapshot, box)`: raw recognition on the
region, cleaned and lowercased; the empty text without a frame. -/
def read_item_text_ocr (snapshot : Option VideoSnapshot) (box : ImageFloatBox) : String :=
  match snapshot with
  | none => ""
  | some snapshot => normalize (snapshot.extract_box_reference box).ocr_raw

/-- The list `prefixes` of lines 93-96. -/
def prefixes : List String :=
  [ "you found a ", "you found ", "you got a ", "you got ",
    "found a ", "found ", "got a ", "got ", "received a ", "received " ]

/-- The loop of lines 98-104: at the first entry of the list that occurs in
`lower`, keep what follows its first occurrence and stop. -/
def drop_known_prefixes : List String → String → String
  | [], lower => lower
  | p :: rest, lower =>
    match string_find lower p with
    | some found_pos => ⟨lower.data.drop (found_pos + p.length)⟩
    | none => drop_known_prefixes rest lower

/-- The characters popped by the loop of lines 107-110. -/
def is_trailing (ch : Char) : Bool :=
  ch == '!' || ch == '.' || ch == '?' || ch == ' ' || ch == '\t'

/-- The helper `extract_item_name(ocr_text)`. -/
def extract_item_name (ocr_text : String) : String :=
  let lower := ocr_text
  let lower := drop_known_prefixes prefixes lower
  ⟨lower.data.rdropWhile is_trailing⟩

/-! ## Overlay Text Tester (`PokemonLGPE_OverlayTextTester.cpp`) -/

/-- The toggle rule of Check 3 in `OverlayTextTester::program` (lines 391-397). -/
def tester_toggle_appears_on (average : FloatPixel) : Bool :=
  let is_cyan := decide (average.g > average.r + 5) && decide (average.b ≥ average.r)
  let is_white := decide (|average.r - average.g| < 10) &&
                  decide (|average.r - average.b| < 10) &&
                  decide (|average.g - average.b| < 10)
  is_cyan && !is_white

/-- The final check of `OverlayTextTester::program` passes (negation of the test
on line 446). -/
def tester_final_matches (text : String) : Bool :=
  found text "current" && found text "date" && found text "time" && !found text "zone"

/-! ## The menu cursor -/

/-- The nine actions of `settings_moves`: right three times, down twice, left
once, A three times. -/
def settings_actions (hold release : Milliseconds) : List Event :=
  [ Event.move_joystick 255 128 hold release, Event.move_joystick 255 128 hold release,
    Event.move_joystick 255 128 hold release, Event.move_joystick 128 255 hold release,
    Event.move_joystick 128 255 hold release, Event.move_joystick 0 128 hold release,
    Event.press_button Button.A hold release, Event.press_button Button.A hold release,
    Event.press_button Button.A hold release ]

/-- The direction or button of an action, without its durations. -/
def action_shape : Event → Option (Nat × Nat ⊕ Button)
  | Event.move_joystick x y _ _ => some (Sum.inl (x, y))
  | Event.press_button button _ _ => some (Sum.inr button)
  | _ => none

/-- The test of line 75: the text kept by the loop is empty, so recognition is
run on the unfiltered region. -/
def raw_ocr_is_run (region : ImageViewRGB32) : Bool :=
  (filters.foldl (filter_step region) ("", 0)).1.isEmpty

/-- A region of 100 x 100 pixels on which the four filters survive and read
nothing; raw recognition reads "Date and Time". -/
def silent_filters_region : ImageViewRGB32 :=
  { width := 100, height := 100, text_pixels := fun _ _ => 9000,
    ocr_filtered := fun _ _ => "", ocr_raw := "Date and Time", average := ⟨0, 0, 0⟩ }

/-! ## Date rolls (`PokemonLGPE_DateSpam.cpp`, lines 740-783) -/

/-- The function `roll_date_forward_1`. -/
def roll_date_forward_1 (console : Console) (w : World) : World :=
  let tv := console.timing_variation
  let unit := 40 + tv
  let w := pbf_move_joystick 128 0 (2 * unit) unit w
  let w := pbf_press_button Button.A (2 * unit) unit w
  let w := pbf_move_joystick 255 128 (2 * unit) unit w
  let w := pbf_move_joystick 128 0 (2 * unit) unit w
  let w := pbf_move_joystick 255 128 (2 * unit) unit w
  let w := pbf_press_button Button.A (2 * unit) unit w
  let w := pbf_move_joystick 255 128 (2 * unit) unit w
  let w := pbf_move_joystick 255 128 (2 * unit) unit w
  pbf_press_button Button.A (2 * unit) unit w

/-- The loop `for (uint8_t c = 0; c < bound; c++) body`, entered with counter
`c`: the counter is kept modulo 256 and compared as an `int`. One unit of fuel
is spent per evaluation of the loop condition; the result is `none` when the
fuel runs out before the condition fails. -/
def for_uint8 (bound : Int) (body : World → World) : Nat → Nat → World → Option World
  | 0, _, _ => none
  | fuel + 1, c, w =>
    if (c : Int) < bound then for_uint8 bound body fuel ((c + 1) % 256) (body w)
    else some w

/-- The function `roll_date_backward_N(context, skips)`; `skips` is the value
of the `uint8_t` parameter and `fuel` bounds each of the two loops. -/
def roll_date_backward_N (console : Console) (skips : Nat) (fuel : Nat) (w : World) :
    Option World :=
  if skips = 0 then some w
  else
    let tv := console.timing_variation
    let unit := 40 + tv
    match for_uint8 ((skips : Int) - 1) (pbf_move_joystick 128 255 (2 * unit) unit) fuel 0 w with
    | none => none
    | some w =>
      let w := pbf_press_button Button.A (2 * unit) unit w
      let w := pbf_move_joystick 255 128 (2 * unit) unit w
      match for_uint8 ((skips : Int) - 1) (pbf_move_joystick 128 255 (2 * unit) unit)
          fuel 0 w with
      | none => none
      | some w =>
        let w := pbf_press_button Button.A (2 * unit) unit w
        let w := pbf_move_joystick 255 128 (2 * unit) unit w
        let w := pbf_move_joystick 255 128 (2 * unit) unit w
        let w := pbf_press_button Button.A (2 * unit) unit w
        some (pbf_press_button Button.A (2 * unit) unit w)

/-- The actions of one backward roll, as listed in the source. -/
def roll_backward_actions (unit : Milliseconds) (skips : Nat) : List Event :=
  List.replicate (skips - 1) (Event.move_joystick 128 255 (2 * unit) unit) ++
    [ Event.press_button Button.A (2 * unit) unit,
      Event.move_joystick 255 128 (2 * unit) unit ] ++
    List.replicate (skips - 1) (Event.move_joystick 128 255 (2 * unit) unit) ++
    [ Event.press_button Button.A (2 * unit) unit,
      Event.move_joystick 255 128 (2 * unit) unit,
      Event.move_joystick 255 128 (2 * unit) unit,
      Event.press_button Button.A (2 * unit) unit,
      Event.press_button Button.A (2 * unit) unit ]

/-! ## Daily item farmer (`PokemonLGPE_DailyItemFarmer.cpp`, lines 159-387) -/

/-- The enumeration `LinkCode`, with the ten values listed by the constructor
(lines 128-139); every other value is `other` and takes the `default` branch. -/
inductive LinkCode where
  | Pikachu
  | Eevee
  | Bulbasaur
  | Charmander
  | Squirtle
  | Pidgey
  | Caterpie
  | Rattata
  | Jigglypuff
  | Diglett
  | other (code : Nat)
  deriving DecidableEq, Repr

/-- The options of the program and what it uses from outside the sources at
hand: the constant `MAX_YEAR`, the delay `SETTINGS_TO_HOME_DELAY0`, the routine
`go_home` and the console type detector. -/
structure DailyItemFarmer where
  ATTEMPTS : Nat
  LINK_CODE : LinkCode
  MAX_YEAR : Nat
  SETTINGS_TO_HOME_DELAY0 : Milliseconds
  go_home : World → World
  detect_only : Option VideoSnapshot → ConsoleType

/-- The exceptions that leave `DailyItemFarmer::program`. -/
inductive ProgramException where
  | user_setup_error (e : UserSetupError)
  | operation_failed
  deriving DecidableEq, Repr

/-- The variables of `DailyItemFarmer::program`: the `uint8_t year`, the
statistic `stats.skips` (a `uint64_t`), the map `item_counts` and the outside
world. -/
structure FarmerState where
  year : Nat
  skips : Nat
  item_counts : List (String × Nat)
  world : World

/-- The statement `item_counts[item_name]++` on a map of `uint32_t`. -/
def count_item (item_name : String) : List (String × Nat) → List (String × Nat)
  | [] => [(item_name, 1)]
  | (name, n) :: rest =>
    if name = item_name then (name, (n + 1) % 2 ^ 32) :: rest
    else (name, n) :: count_item item_name rest

/-- The joystick moves of the `switch (LINK_CODE)` of lines 170-211. -/
def enter_link_code (code : LinkCode) (w : World) : World :=
  match code with
  | LinkCode.Pikachu => w
  | LinkCode.Eevee => pbf_move_joystick 255 128 100 100 w
  | LinkCode.Bulbasaur =>
    let w := pbf_move_joystick 255 128 100 100 w
    pbf_move_joystick 255 128 100 100 w
  | LinkCode.Charmander =>
    let w := pbf_move_joystick 0 128 100 100 w
    pbf_move_joystick 0 128 100 100 w
  | LinkCode.Squirtle => pbf_move_joystick 0 128 100 100 w
  | LinkCode.Pidgey => pbf_move_joystick 128 255 100 100 w
  | LinkCode.Caterpie =>
    let w := pbf_move_joystick 128 255 100 100 w
    pbf_move_joystick 255 128 100 100 w
  | LinkCode.Rattata =>
    let w := pbf_move_joystick 128 255 100 100 w
    let w := pbf_move_joystick 0 128 100 100 w
    pbf_move_joystick 0 128 100 100 w
  | LinkCode.Jigglypuff =>
    let w := pbf_move_joystick 128 255 100 100 w
    let w := pbf_move_joystick 0 128 100 100 w
    pbf_move_joystick 0 128 100 100 w
  | LinkCode.Diglett =>
    let w := pbf_move_joystick 128 255 100 100 w
    pbf_move_joystick 0 128 100 100 w
  | LinkCode.other _ => w

/-- The method `DailyItemFarmer::start_local_trade`. -/
def start_local_trade (self : DailyItemFarmer) (w : World) : World :=
  let w := pbf_press_button Button.X 200 1200 w
  let w := pbf_move_joystick 255 128 100 600 w
  let w := pbf_press_button Button.A 200 1500 w
  let w := pbf_press_button Button.A 200 2500 w
  let w := pbf_press_button Button.A 200 1500 w
  let w := pbf_press_button Button.A 200 1500 w
  let w := enter_link_code self.LINK_CODE w
  let w := pbf_press_button Button.A 200 300 w
  let w := pbf_press_button Button.A 200 300 w
  let w := pbf_press_button Button.A 200 300 w
  let w := pbf_wait 1500 w
  wait_for_all_requests w

/-- The box `ImageFloatBox item_text_box(0.19, 0.77, 0.62, 0.20)`. -/
def item_text_box : ImageFloatBox := ⟨19, 77, 62, 20⟩

/-- Lines 285-316 of the pickup loop: the capture and the reading of the item
text, which only feed the log and `item_counts`. -/
def read_picked_item (console : Console) (st : FarmerState) : FarmerState :=
  let w := wait_for 500 st.world
  let snapshot := video_snapshot console w
  let w := after_snapshot console w
  match snapshot with
  | some frame =>
    let ocr_text := read_item_text_ocr (some frame) item_text_box
    let w := emit (Event.ocr item_text_box ocr_text) w
    if !ocr_text.isEmpty then
      let item_name := extract_item_name ocr_text
      if !item_name.isEmpty then
        { st with item_counts := count_item item_name st.item_counts, world := w }
      else { st with world := w }
    else { st with world := w }
  | none => { st with world := w }

/-- The way from the game to the System Settings, lines 226-238 and again
lines 318-333: the local trade, `go_home`, three presses of ZL, the waits and
`home_to_settings_only`. -/
def trade_then_settings (self : DailyItemFarmer) (console : Console) (w : World) :
    Except UserSetupError Unit × World :=
  let w := start_local_trade self w
  let w := self.go_home w
  let w := pbf_press_button Button.ZL 160 1200 w
  let w := pbf_press_button Button.ZL 160 1200 w
  let w := pbf_press_button Button.ZL 160 1200 w
  let w := wait_for_all_requests w
  let w := wait_for 1500 w
  home_to_settings_only console self.detect_only w

/-- Lines 282-336 of one pickup iteration, up to the answer of
`navigate_to_date_change_with_ocr`: the exception thrown on the way, or the
answer and the state in which it is received. -/
def pickup_until_navigation (self : DailyItemFarmer) (console : Console) (st : FarmerState) :
    Except ProgramException (Bool × FarmerState) :=
  let w := pbf_mash_button Button.A 5000 st.world
  let w := wait_for_all_requests w
  let st := read_picked_item console { st with world := w }
  match trade_then_settings self console st.world with
  | (Except.error e, _) => Except.error (ProgramException.user_setup_error e)
  | (Except.ok (), w) =>
    let r := navigate_to_date_change_with_ocr console w
    Except.ok (r.1, { st with world := r.2 })

/-- The return to the game after a roll: two presses of HOME, one of B, the
mash of B and the wait (lines 254-261 with 1800 ms and 5000 ms, lines 357-366
with 2500 ms and 7000 ms). -/
def back_to_game (self : DailyItemFarmer) (release mash : Milliseconds) (w : World) : World :=
  let w := pbf_press_button Button.HOME 160 self.SETTINGS_TO_HOME_DELAY0 w
  let w := pbf_press_button Button.HOME 160 self.SETTINGS_TO_HOME_DELAY0 w
  let w := pbf_press_button Button.B 200 release w
  let w := pbf_mash_button Button.B mash w
  wait_for_all_requests w

/-- One iteration of the pickup loop (lines 279-370). The result is `none`
when a loop of the backward roll runs out of fuel, and otherwise the exception
thrown or the state at the end of the iteration. -/
def pickup_iteration (self : DailyItemFarmer) (console : Console) (st : FarmerState) :
    Option (Except ProgramException FarmerState) :=
  match pickup_until_navigation self console st with
  | Except.error e => some (Except.error e)
  | Except.ok (false, st) => some (Except.ok st)
  | Except.ok (true, st) =>
    if st.year ≥ self.MAX_YEAR then
      match roll_date_backward_N console (self.MAX_YEAR % 256) 256 st.world with
      | none => none
      | some w =>
        let w := back_to_game self 2500 7000 w
        some (Except.ok { st with year := 0, skips := (st.skips + 1) % 2 ^ 64, world := w })
    else
      let w := roll_date_forward_1 console st.world
      let w := back_to_game self 2500 7000 w
      some (Except.ok
        { st with year := (st.year + 1) % 256, skips := (st.skips + 1) % 2 ^ 64, world := w })

/-- The loop `for (uint32_t count = 0; count < ATTEMPTS; count++)` with
`remaining` iterations left. -/
def pickup_loop (self : DailyItemFarmer) (console : Console) :
    Nat → FarmerState → Option (Except ProgramException FarmerState)
  | 0, st => some (Except.ok st)
  | remaining + 1, st =>
    match pickup_iteration self console st with
    | none => none
    | some (Except.error e) => some (Except.error e)
    | some (Except.ok st) => pickup_loop self console remaining st

/-- The part of `DailyItemFarmer::program` before the pickup loop (lines
220-264), started with the statistic at `skips`. The variable `year` is only
read after line 253 has set it to 0. -/
def program_start (self : DailyItemFarmer) (console : Console) (skips : Nat) (w : World) :
    Option (Except ProgramException FarmerState) :=
  match trade_then_settings self console w with
  | (Except.error e, _) => some (Except.error (ProgramException.user_setup_error e))
  | (Except.ok (), w) =>
    let r := navigate_to_date_change_with_ocr console w
    if !r.1 then some (Except.error ProgramException.operation_failed)
    else
      match roll_date_backward_N console (self.MAX_YEAR % 256) 256 r.2 with
      | none => none
      | some w =>
        let w := back_to_game self 1800 5000 w
        some (Except.ok { year := 0, skips := skips, item_counts := [], world := w })

/-- The pickup loop of `DailyItemFarmer::program` after its start. -/
def program_loop (self : DailyItemFarmer) (console : Console) (skips : Nat) (w : World) :
    Option (Except ProgramException FarmerState) :=
  match program_start self console skips w with
  | none => none
  | some (Except.error e) => some (Except.error e)
  | some (Except.ok st) => pickup_loop self console (self.ATTEMPTS % 2 ^ 32) st

/-- Whether the iteration started in `st` receives `true` from
`navigate_to_date_change_with_ocr`. -/
def navigation_succeeds (self : DailyItemFarmer) (console : Console) (st : FarmerState) : Bool :=
  match pickup_until_navigation self console st with
  | Except.ok (true, _) => true
  | _ => false

/-- The states in which the iterations of the pickup loop start, in order. -/
def iteration_starts (self : DailyItemFarmer) (console : Console) :
    Nat → FarmerState → List FarmerState
  | 0, _ => []
  | remaining + 1, st =>
    st :: match pickup_iteration self console st with
      | some (Except.ok st) => iteration_starts self console remaining st
      | _ => []

/-- The number of iterations of the pickup loop whose navigation succeeded. -/
def successful_navigations (self : DailyItemFarmer) (console : Console)
    (remaining : Nat) (st : FarmerState) : Nat :=
  ((iteration_starts self console remaining st).filter (navigation_succeeds self console)).length

/-- A console on which every capture shows the "Date and Time" menu. -/
def steady_console : Console := ⟨fun _ => some menu_frame, 0⟩

/-- A farmer with three attempts and `MAX_YEAR = 1` on a first-generation
console, with a `go_home` that leaves no trace. -/
def sample_farmer : DailyItemFarmer :=
  { ATTEMPTS := 3, LINK_CODE := LinkCode.Pikachu, MAX_YEAR := 1,
    SETTINGS_TO_HOME_DELAY0 := 1000, go_home := fun w => w,
    detect_only := fun _ => ConsoleType.Switch1 }

/-! # Lemmas and theorems -/

/-! ## Basic facts about the primitives -/

theorem repeat_n_move (n : Nat) (x y h r : Nat) (k : Nat) (t : List Event) :
    repeat_n n (pbf_move_joystick x y h r) ⟨k, t⟩ =
      ⟨k, t ++ List.replicate n (Event.move_joystick x y h r)⟩ := by
  induction n generalizing t with
  | zero => simp [repeat_n]
  | succ n ih =>
    simp only [repeat_n, pbf_move_joystick, emit, ih, List.replicate_succ,
      List.append_assoc, List.cons_append, List.nil_append, List.singleton_append]

theorem step1_enter_system_eq (u k : Nat) (t : List Event) :
    step1_enter_system u ⟨k, t⟩ = ⟨k, t ++ step1_events u⟩ := by
  simp only [step1_enter_system, step1_events, pbf_move_joystick, pbf_press_button,
    wait_for_all_requests, wait_for, emit, List.append_assoc, List.cons_append, List.nil_append]

theorem retry_forward_eq (u k : Nat) (t : List Event) :
    retry_forward u ⟨k, t⟩ = ⟨k, t ++ forward_events u⟩ := by
  simp only [retry_forward, forward_events, pbf_move_joystick, pbf_press_button,
    wait_for_all_requests, wait_for, emit, List.append_assoc, List.cons_append, List.nil_append]

theorem step2_enter_date_time_eq (u k : Nat) (t : List Event) :
    step2_enter_date_time u ⟨k, t⟩ = ⟨k, t ++ (forward_events u ++ [Event.wait_for 500])⟩ := by
  simp only [step2_enter_date_time, forward_events, pbf_move_joystick, pbf_press_button,
    wait_for_all_requests, wait_for, emit, List.append_assoc,
    List.cons_append, List.nil_append]

theorem enter_date_change_eq (u k : Nat) (t : List Event) :
    enter_date_change u ⟨k, t⟩ = ⟨k, t ++ enter_date_change_events u⟩ := by
  simp only [enter_date_change, enter_date_change_events, pbf_move_joystick, pbf_press_button,
    wait_for_all_requests, wait_for, emit, List.append_assoc, List.cons_append, List.nil_append]

/-! ## The recovery routine, path by path -/

theorem retry_no_frame (c : Console) (u k : Nat) (t : List Event) (h : c.video k = none) :
    retry_navigate_to_date_time_internal c u ⟨k, t⟩ =
      (false, ⟨k + 1, t ++ (retry_head_events u ++ [Event.snapshot false])⟩) := by
  simp only [retry_navigate_to_date_time_internal, retry_head_events, pbf_press_button,
    wait_for_all_requests, wait_for, emit, repeat_n_move, video_snapshot, after_snapshot, h,
    Option.isSome_none, List.append_assoc, List.cons_append,
    List.nil_append]

theorem retry_frame (c : Console) (u k : Nat) (t : List Event) (g : VideoSnapshot)
    (h : c.video k = some g) :
    retry_navigate_to_date_time_internal c u ⟨k, t⟩ =
      (true, ⟨k + 1, t ++ retry_events u (read_box_text_ocr g system_update_box)⟩) := by
  simp only [retry_navigate_to_date_time_internal, retry_events, retry_head_events,
    pbf_press_button, wait_for_all_requests, wait_for, emit, repeat_n_move, video_snapshot,
    after_snapshot, h, Option.isSome_some, ite_self, retry_forward_eq, List.append_assoc,
    List.cons_append, List.nil_append]

/-! ## The tests of the program in terms of the acceptance conditions -/

theorem title_test (text : String) :
    (!found text "date" || !found text "time") = !title_matches text := by
  simp only [title_matches, Bool.not_and]

theorem sync_test (text : String) :
    (!found text "sync" || !found text "clock" || !found text "internet") =
      !sync_matches text := by
  simp only [sync_matches, Bool.not_and]

theorem final_test (text : String) :
    (!found text "date" || !found text "time" || found text "zone") =
      !final_matches text := by
  simp only [final_matches, Bool.not_and, Bool.not_not]

/-! ## Check 1, path by path -/

theorem check1_no_frame (c : Console) (u k : Nat) (t : List Event) (h : c.video k = none) :
    check1_menu_title c u ⟨k, t⟩ =
      (false, ⟨k + 1, t ++ [Event.wait_for_all_requests, Event.wait_for 500,
        Event.snapshot false]⟩) := by
  simp only [check1_menu_title, wait_for_all_requests, wait_for, emit, video_snapshot,
    after_snapshot, h, Option.isSome_none, List.append_assoc, List.cons_append,
    List.nil_append]

theorem check1_match (c : Console) (u k : Nat) (t : List Event) (f : VideoSnapshot)
    (h : c.video k = some f) (hm : title_matches (read_box_text_ocr f menu_title_box) = true) :
    check1_menu_title c u ⟨k, t⟩ =
      (true, ⟨k + 1, t ++ check1_events (read_box_text_ocr f menu_title_box)⟩) := by
  simp only [check1_menu_title, check1_events, wait_for_all_requests, wait_for, emit,
    video_snapshot, after_snapshot, h, Option.isSome_some, title_test, hm, Bool.not_true,
    Bool.false_eq_true, if_false, List.append_assoc, List.cons_append, List.nil_append]

theorem check1_retry_no_frame (c : Console) (u k : Nat) (t : List Event) (f : VideoSnapshot)
    (h : c.video k = some f) (hm : title_matches (read_box_text_ocr f menu_title_box) = false)
    (h1 : c.video (k + 1) = none) :
    check1_menu_title c u ⟨k, t⟩ =
      (false, ⟨k + 2, t ++ (check1_events (read_box_text_ocr f menu_title_box) ++
        (retry_head_events u ++ [Event.snapshot false]))⟩) := by
  simp only [check1_menu_title, check1_events, wait_for_all_requests, wait_for, emit,
    video_snapshot, after_snapshot, h, Option.isSome_some, title_test, hm, Bool.not_false,
    if_true, retry_no_frame c u (k + 1) _ h1, List.append_assoc, List.cons_append,
    List.nil_append]

theorem check1_recheck_no_frame (c : Console) (u k : Nat) (t : List Event)
    (f g : VideoSnapshot)
    (h : c.video k = some f) (hm : title_matches (read_box_text_ocr f menu_title_box) = false)
    (h1 : c.video (k + 1) = some g) (h2 : c.video (k + 2) = none) :
    check1_menu_title c u ⟨k, t⟩ =
      (false, ⟨k + 3, t ++ (check1_events (read_box_text_ocr f menu_title_box) ++
        (retry_events u (read_box_text_ocr g system_update_box) ++
          [Event.wait_for_all_requests, Event.wait_for 500, Event.snapshot false]))⟩) := by
  simp only [check1_menu_title, check1_events, wait_for_all_requests, wait_for, emit,
    video_snapshot, after_snapshot, h, Option.isSome_some, title_test, hm, Bool.not_false,
    if_true, retry_frame c u (k + 1) _ g h1, Bool.not_true, Bool.false_eq_true, if_false,
    h2, Option.isSome_none, List.append_assoc, List.cons_append, List.nil_append]

theorem check1_recheck (c : Console) (u k : Nat) (t : List Event)
    (f g f2 : VideoSnapshot)
    (h : c.video k = some f) (hm : title_matches (read_box_text_ocr f menu_title_box) = false)
    (h1 : c.video (k + 1) = some g) (h2 : c.video (k + 2) = some f2) :
    check1_menu_title c u ⟨k, t⟩ =
      (title_matches (read_box_text_ocr f2 menu_title_box),
        ⟨k + 3, t ++ (check1_events (read_box_text_ocr f menu_title_box) ++
          (retry_events u (read_box_text_ocr g system_update_box) ++
            check1_events (read_box_text_ocr f2 menu_title_box)))⟩) := by
  simp only [check1_menu_title, check1_events, wait_for_all_requests, wait_for, emit,
    video_snapshot, after_snapshot, h, Option.isSome_some, title_test, hm, Bool.not_false,
    if_true, retry_frame c u (k + 1) _ g h1, Bool.not_true, Bool.false_eq_true, if_false,
    h2, List.append_assoc, List.cons_append, List.nil_append]
  cases title_matches (read_box_text_ocr f2 menu_title_box) <;> rfl

/-! ## Check 2, path by path -/

theorem check2_no_frame (c : Console) (u k : Nat) (t : List Event) (h : c.video k = none) :
    check2_sync_text c u ⟨k, t⟩ = (false, ⟨k + 1, t ++ [Event.snapshot false]⟩) := by
  simp only [check2_sync_text, emit, video_snapshot, after_snapshot, h, Option.isSome_none]

theorem check2_match (c : Console) (u k : Nat) (t : List Event) (f : VideoSnapshot)
    (h : c.video k = some f) (hm : sync_matches (read_box_text_ocr f sync_text_box) = true) :
    check2_sync_text c u ⟨k, t⟩ =
      (true, ⟨k + 1, t ++ check2_events (read_box_text_ocr f sync_text_box)⟩) := by
  simp only [check2_sync_text, check2_events, emit, video_snapshot, after_snapshot, h,
    Option.isSome_some, sync_test, hm, Bool.not_true, Bool.false_eq_true, if_false,
    List.append_assoc, List.cons_append, List.nil_append]

theorem check2_retry_no_frame (c : Console) (u k : Nat) (t : List Event) (f : VideoSnapshot)
    (h : c.video k = some f) (hm : sync_matches (read_box_text_ocr f sync_text_box) = false)
    (h1 : c.video (k + 1) = none) :
    check2_sync_text c u ⟨k, t⟩ =
      (false, ⟨k + 2, t ++ (check2_events (read_box_text_ocr f sync_text_box) ++
        (retry_head_events u ++ [Event.snapshot false]))⟩) := by
  simp only [check2_sync_text, check2_events, emit, video_snapshot, after_snapshot, h,
    Option.isSome_some, sync_test, hm, Bool.not_false, if_true,
    retry_no_frame c u (k + 1) _ h1, List.append_assoc, List.cons_append, List.nil_append]

theorem check2_recheck_no_frame (c : Console) (u k : Nat) (t : List Event)
    (f g : VideoSnapshot)
    (h : c.video k = some f) (hm : sync_matches (read_box_text_ocr f sync_text_box) = false)
    (h1 : c.video (k + 1) = some g) (h2 : c.video (k + 2) = none) :
    check2_sync_text c u ⟨k, t⟩ =
      (false, ⟨k + 3, t ++ (check2_events (read_box_text_ocr f sync_text_box) ++
        (retry_events u (read_box_text_ocr g system_update_box) ++
          [Event.wait_for_all_requests, Event.wait_for 500, Event.snapshot false]))⟩) := by
  simp only [check2_sync_text, check2_events, wait_for_all_requests, wait_for, emit,
    video_snapshot, after_snapshot, h, Option.isSome_some, sync_test, hm, Bool.not_false,
    if_true, retry_frame c u (k + 1) _ g h1, Bool.not_true, Bool.false_eq_true, if_false,
    h2, Option.isSome_none, List.append_assoc, List.cons_append, List.nil_append]

theorem check2_recheck (c : Console) (u k : Nat) (t : List Event)
    (f g f2 : VideoSnapshot)
    (h : c.video k = some f) (hm : sync_matches (read_box_text_ocr f sync_text_box) = false)
    (h1 : c.video (k + 1) = some g) (h2 : c.video (k + 2) = some f2) :
    check2_sync_text c u ⟨k, t⟩ =
      (sync_matches (read_box_text_ocr f2 sync_text_box),
        ⟨k + 3, t ++ (check2_events (read_box_text_ocr f sync_text_box) ++
          (retry_events u (read_box_text_ocr g system_update_box) ++
            recheck2_events (read_box_text_ocr f2 sync_text_box)))⟩) := by
  simp only [check2_sync_text, check2_events, recheck2_events, wait_for_all_requests,
    wait_for, emit, video_snapshot, after_snapshot, h, Option.isSome_some, sync_test, hm,
    Bool.not_false, if_true, retry_frame c u (k + 1) _ g h1, Bool.not_true,
    Bool.false_eq_true, if_false, h2, List.append_assoc, List.cons_append, List.nil_append]
  cases sync_matches (read_box_text_ocr f2 sync_text_box) <;> rfl

/-! ## Check 3, path by path -/

theorem check3_no_frame (c : Console) (u k : Nat) (t : List Event) (h : c.video k = none) :
    check3_toggle c u ⟨k, t⟩ = (false, ⟨k + 1, t ++ [Event.snapshot false]⟩) := by
  simp only [check3_toggle, emit, video_snapshot, after_snapshot, h, Option.isSome_none]

theorem check3_frame (c : Console) (u k : Nat) (t : List Event) (f : VideoSnapshot)
    (h : c.video k = some f) :
    check3_toggle c u ⟨k, t⟩ =
      (true, ⟨k + 1, t ++ check3_events u (f.extract_box_reference toggle_box).average⟩) := by
  simp only [check3_toggle, check3_events, emit, video_snapshot, after_snapshot, h,
    Option.isSome_some, pbf_press_button, wait_for_all_requests, wait_for]
  cases toggle_appears_on (f.extract_box_reference toggle_box).average <;>
    simp only [Bool.false_eq_true, if_false, if_true, List.append_assoc, List.cons_append,
      List.nil_append, List.append_nil]

/-! ## Check 4, path by path -/

theorem check4_no_frame (c : Console) (u k : Nat) (t : List Event) (h : c.video k = none) :
    check4_date_change c u ⟨k, t⟩ =
      (false, ⟨k + 1, t ++ (enter_date_change_events u ++ [Event.snapshot false])⟩) := by
  simp only [check4_date_change, enter_date_change_eq, emit, video_snapshot, after_snapshot,
    h, Option.isSome_none, List.append_assoc]

theorem check4_match (c : Console) (u k : Nat) (t : List Event) (f : VideoSnapshot)
    (h : c.video k = some f) (hm : final_matches (read_box_text_ocr f current_dt_box) = true) :
    check4_date_change c u ⟨k, t⟩ =
      (true, ⟨k + 1, t ++ check4_events u (read_box_text_ocr f current_dt_box)⟩) := by
  simp only [check4_date_change, check4_events, enter_date_change_eq, emit, video_snapshot,
    after_snapshot, h, Option.isSome_some, final_test, hm, Bool.not_true, Bool.false_eq_true,
    if_false, List.append_assoc, List.cons_append, List.nil_append]

theorem check4_retry_no_frame (c : Console) (u k : Nat) (t : List Event) (f : VideoSnapshot)
    (h : c.video k = some f) (hm : final_matches (read_box_text_ocr f current_dt_box) = false)
    (h1 : c.video (k + 1) = none) :
    check4_date_change c u ⟨k, t⟩ =
      (false, ⟨k + 2, t ++ (check4_events u (read_box_text_ocr f current_dt_box) ++
        ([Event.press_button Button.B u 500, Event.wait_for_all_requests] ++
          (retry_head_events u ++ [Event.snapshot false])))⟩) := by
  simp only [check4_date_change, check4_events, enter_date_change_eq, emit, video_snapshot,
    after_snapshot, h, Option.isSome_some, final_test, hm, Bool.not_false, if_true,
    pbf_press_button, wait_for_all_requests, retry_no_frame c u (k + 1) _ h1,
    List.append_assoc, List.cons_append, List.nil_append]

theorem check4_recheck_no_frame (c : Console) (u k : Nat) (t : List Event)
    (f g : VideoSnapshot)
    (h : c.video k = some f) (hm : final_matches (read_box_text_ocr f current_dt_box) = false)
    (h1 : c.video (k + 1) = some g) (h2 : c.video (k + 2) = none) :
    check4_date_change c u ⟨k, t⟩ =
      (true, ⟨k + 3, t ++ (check4_events u (read_box_text_ocr f current_dt_box) ++
        (check4_recovery_events u (read_box_text_ocr g system_update_box) ++
          [Event.snapshot false]))⟩) := by
  simp only [check4_date_change, check4_events, check4_recovery_events, enter_date_change_eq,
    emit, video_snapshot, after_snapshot, h, Option.isSome_some, final_test, hm,
    Bool.not_false, if_true, pbf_press_button, wait_for_all_requests,
    retry_frame c u (k + 1) _ g h1, Bool.not_true, Bool.false_eq_true, if_false, h2,
    Option.isSome_none, List.append_assoc, List.cons_append, List.nil_append]

theorem check4_recheck (c : Console) (u k : Nat) (t : List Event)
    (f g f2 : VideoSnapshot)
    (h : c.video k = some f) (hm : final_matches (read_box_text_ocr f current_dt_box) = false)
    (h1 : c.video (k + 1) = some g) (h2 : c.video (k + 2) = some f2) :
    check4_date_change c u ⟨k, t⟩ =
      (final_matches (read_box_text_ocr f2 current_dt_box),
        ⟨k + 3, t ++ (check4_events u (read_box_text_ocr f current_dt_box) ++
          (check4_recovery_events u (read_box_text_ocr g system_update_box) ++
            [Event.snapshot true,
              Event.ocr current_dt_box (read_box_text_ocr f2 current_dt_box)]))⟩) := by
  simp only [check4_date_change, check4_events, check4_recovery_events, enter_date_change_eq,
    emit, video_snapshot, after_snapshot, h, Option.isSome_some, final_test, hm,
    Bool.not_false, if_true, pbf_press_button, wait_for_all_requests,
    retry_frame c u (k + 1) _ g h1, Bool.not_true, Bool.false_eq_true, if_false, h2,
    List.append_assoc, List.cons_append, List.nil_append]
  cases final_matches (read_box_text_ocr f2 current_dt_box) <;> rfl

/-! ## The whole navigation in terms of its checks -/

theorem navigate_no_frame (c : Console) (k : Nat) (t : List Event) (h : c.video k = none) :
    navigate_to_date_change_with_ocr c ⟨k, t⟩ =
      (false, ⟨k + 1, t ++ [Event.wait_for_all_requests, Event.wait_for 400,
        Event.snapshot false]⟩) := by
  simp only [navigate_to_date_change_with_ocr, wait_for_all_requests, wait_for, emit,
    video_snapshot, after_snapshot, h, Option.isSome_none, List.append_assoc,
    List.cons_append, List.nil_append]

theorem navigate_frame (c : Console) (k : Nat) (t : List Event) (f : VideoSnapshot)
    (h : c.video k = some f) :
    navigate_to_date_change_with_ocr c ⟨k, t⟩ =
      if (check1_menu_title c (100 + c.timing_variation)
            ⟨k + 1, t ++ start_events (100 + c.timing_variation)⟩).1 = true then
        if (check2_sync_text c (100 + c.timing_variation)
              (check1_menu_title c (100 + c.timing_variation)
                ⟨k + 1, t ++ start_events (100 + c.timing_variation)⟩).2).1 = true then
          check34 c (100 + c.timing_variation)
            (check2_sync_text c (100 + c.timing_variation)
              (check1_menu_title c (100 + c.timing_variation)
                ⟨k + 1, t ++ start_events (100 + c.timing_variation)⟩).2).2
        else
          (false, (check2_sync_text c (100 + c.timing_variation)
            (check1_menu_title c (100 + c.timing_variation)
              ⟨k + 1, t ++ start_events (100 + c.timing_variation)⟩).2).2)
      else
        (false, (check1_menu_title c (100 + c.timing_variation)
          ⟨k + 1, t ++ start_events (100 + c.timing_variation)⟩).2) := by
  have hw : step2_enter_date_time (100 + c.timing_variation)
      (step1_enter_system (100 + c.timing_variation)
        ⟨k + 1, t ++ [Event.wait_for_all_requests, Event.wait_for 400, Event.snapshot true]⟩) =
      ⟨k + 1, t ++ start_events (100 + c.timing_variation)⟩ := by
    simp only [step1_enter_system_eq, step2_enter_date_time_eq, start_events,
      List.append_assoc]
  simp only [navigate_to_date_change_with_ocr, wait_for_all_requests, wait_for, emit,
    video_snapshot, after_snapshot, h, Option.isSome_some, List.append_assoc,
    List.cons_append, List.nil_append, hw]
  cases (check1_menu_title c (100 + c.timing_variation)
      ⟨k + 1, t ++ start_events (100 + c.timing_variation)⟩).1
  · simp only [Bool.not_false, if_true, Bool.false_eq_true, if_false]
  · simp only [Bool.not_true, Bool.false_eq_true, if_false, if_true]
    cases (check2_sync_text c (100 + c.timing_variation)
      (check1_menu_title c (100 + c.timing_variation)
        ⟨k + 1, t ++ start_events (100 + c.timing_variation)⟩).2).1
    · simp only [Bool.not_false, if_true, Bool.false_eq_true, if_false]
    · simp only [Bool.not_true, Bool.false_eq_true, if_false, if_true]

theorem check34_no_frame (c : Console) (u k : Nat) (t : List Event) (h : c.video k = none) :
    check34 c u ⟨k, t⟩ = (false, ⟨k + 1, t ++ [Event.snapshot false]⟩) := by
  simp only [check34, check3_no_frame c u k t h, Bool.not_false, if_true]

theorem check34_frame (c : Console) (u k : Nat) (t : List Event) (f : VideoSnapshot)
    (h : c.video k = some f) :
    check34 c u ⟨k, t⟩ =
      check4_date_change c u
        ⟨k + 1, t ++ check3_events u (f.extract_box_reference toggle_box).average⟩ := by
  simp only [check34, check3_frame c u k t f h, Bool.not_true, Bool.false_eq_true, if_false]

/-! ## Controller actions of the trace fragments -/

theorem actions_append (a b : List Event) : actions (a ++ b) = actions a ++ actions b := by
  simp only [actions, List.filter_append]

theorem actions_forward_events (u : Nat) : actions (forward_events u) = forward_actions u := by
  simp [actions, forward_events, forward_actions, Event.is_action]

theorem actions_start_events (u : Nat) : actions (start_events u) = step_actions u := by
  simp [actions, start_events, step1_events, forward_events, step_actions, Event.is_action]

theorem actions_retry_head_events (u : Nat) :
    actions (retry_head_events u) = retry_head_actions u := by
  simp [actions, retry_head_events, retry_head_actions, Event.is_action, List.filter_append,
    List.filter_replicate]

theorem actions_retry_events (u : Nat) (text : String) :
    actions (retry_events u text) = retry_actions u := by
  simp only [retry_events, retry_actions, actions_append, actions_retry_head_events,
    actions_forward_events]
  simp [actions, Event.is_action]

theorem actions_enter_date_change_events (u : Nat) :
    actions (enter_date_change_events u) = enter_date_change_actions u := by
  simp [actions, enter_date_change_events, enter_date_change_actions, Event.is_action]

theorem actions_check1_events (text : String) : actions (check1_events text) = [] := by
  simp [actions, check1_events, Event.is_action]

theorem actions_check2_events (text : String) : actions (check2_events text) = [] := by
  simp [actions, check2_events, Event.is_action]

theorem actions_recheck2_events (text : String) : actions (recheck2_events text) = [] := by
  simp [actions, recheck2_events, Event.is_action]

theorem actions_check4_events (u : Nat) (text : String) :
    actions (check4_events u text) = enter_date_change_actions u := by
  simp only [check4_events, actions_append, actions_enter_date_change_events]
  simp [actions, Event.is_action]

/-! ## Text search -/

theorem find_from_isSome (hay needle : List Char) (pos : Nat) :
    (find_from hay needle pos).isSome = true ↔ needle <:+: hay := by
  induction hay generalizing pos with
  | nil =>
    cases needle with
    | nil => simp [find_from]
    | cons a l => simp [find_from]
  | cons h hs ih =>
    rw [find_from, List.infix_cons_iff]
    by_cases hp : needle.isPrefixOf (h :: hs) = true
    · rw [if_pos hp]
      simp only [Option.isSome_some, true_iff]
      exact Or.inl (List.isPrefixOf_iff_prefix.mp hp)
    · rw [if_neg hp, ih]
      have hn : ¬ needle <+: h :: hs := fun hx => hp (List.isPrefixOf_iff_prefix.mpr hx)
      constructor
      · intro hx
        exact Or.inr hx
      · intro hx
        rcases hx with hx | hx
        · exact absurd hx hn
        · exact hx

theorem found_iff (s needle : String) :
    found s needle = true ↔ needle.data <:+: s.data := by
  unfold found string_find
  exact find_from_isSome s.data needle.data 0

theorem filter_skipped_full : filter_skipped 10000 100 100 = true := by
  norm_num [filter_skipped]

theorem filter_step_frame_reading (text : String) (average : FloatPixel) (box : ImageFloatBox)
    (best : String × Nat) (flt : Nat × Nat) :
    filter_step ((frame_reading text average).extract_box_reference box) best flt = best := by
  simp only [filter_step, frame_reading, filter_skipped_full, if_true]

theorem foldl_frame_reading (text : String) (average : FloatPixel) (box : ImageFloatBox)
    (best : String × Nat) (l : List (Nat × Nat)) :
    l.foldl (filter_step ((frame_reading text average).extract_box_reference box)) best =
      best := by
  induction l with
  | nil => rfl
  | cons a l ih => rw [List.foldl_cons, filter_step_frame_reading, ih]

theorem best_text_frame_reading (text : String) (average : FloatPixel) (box : ImageFloatBox) :
    best_text ((frame_reading text average).extract_box_reference box) = text := by
  unfold best_text
  rw [foldl_frame_reading]
  rfl

theorem read_frame_reading (text : String) (average : FloatPixel) (box : ImageFloatBox) :
    read_box_text_ocr (frame_reading text average) box = normalize text := by
  simp only [read_box_text_ocr, best_text_frame_reading]

/-! ## Claims on the classifiers -/

/-- C3: a text check passes at its first verification exactly when every required
word occurs in the normalized text and no forbidden word does: Check 1 needs
"date" and "time", Check 2 needs "sync", "clock" and "internet", Check 4 needs
"date" and "time" and rejects "zone". A title reading "date and time" passes
Check 1; a final text reading "time zone" fails Check 4, which then presses B
and runs the recovery routine. -/
theorem text_checkpoint_match_iff (c : Console) (u k : Nat) (t : List Event)
    (f : VideoSnapshot) (h : c.video k = some f) :
    (check1_menu_title c u ⟨k, t⟩ =
        (true, ⟨k + 1, t ++ check1_events (read_box_text_ocr f menu_title_box)⟩) ↔
      "date".data <:+: (read_box_text_ocr f menu_title_box).data ∧
      "time".data <:+: (read_box_text_ocr f menu_title_box).data) ∧
    (check2_sync_text c u ⟨k, t⟩ =
        (true, ⟨k + 1, t ++ check2_events (read_box_text_ocr f sync_text_box)⟩) ↔
      "sync".data <:+: (read_box_text_ocr f sync_text_box).data ∧
      "clock".data <:+: (read_box_text_ocr f sync_text_box).data ∧
      "internet".data <:+: (read_box_text_ocr f sync_text_box).data) ∧
    (check4_date_change c u ⟨k, t⟩ =
        (true, ⟨k + 1, t ++ check4_events u (read_box_text_ocr f current_dt_box)⟩) ↔
      "date".data <:+: (read_box_text_ocr f current_dt_box).data ∧
      "time".data <:+: (read_box_text_ocr f current_dt_box).data ∧
      ¬ "zone".data <:+: (read_box_text_ocr f current_dt_box).data) ∧
    (read_box_text_ocr f menu_title_box = "date and time" →
      check1_menu_title c u ⟨k, t⟩ = (true, ⟨k + 1, t ++ check1_events "date and time"⟩)) ∧
    (read_box_text_ocr f current_dt_box = "time zone" →
      (t ++ (check4_events u "time zone" ++
        ([Event.press_button Button.B u 500, Event.wait_for_all_requests] ++
          retry_head_events u))) <+: (check4_date_change c u ⟨k, t⟩).2.trace) := by
  have hne : ∀ (b : Bool) (j : Nat) (e e2 : List Event), 2 ≤ j →
      ((b, (⟨k + j, e⟩ : World)) = (true, (⟨k + 1, e2⟩ : World))) → False := by
    intro b j e e2 hj heq
    have h1 := congrArg (fun p => p.2.next) heq
    simp only at h1
    omega
  refine ⟨?_, ?_, ?_, ?_, ?_⟩
  · rw [← found_iff, ← found_iff]
    constructor
    · intro heq
      cases hm : title_matches (read_box_text_ocr f menu_title_box) with
      | true => simpa [title_matches] using hm
      | false =>
        exfalso
        cases h1 : c.video (k + 1) with
        | none =>
          rw [check1_retry_no_frame c u k t f h hm h1] at heq
          exact hne _ 2 _ _ (by omega) heq
        | some g =>
          cases h2 : c.video (k + 2) with
          | none =>
            rw [check1_recheck_no_frame c u k t f g h hm h1 h2] at heq
            exact hne _ 3 _ _ (by omega) heq
          | some f2 =>
            rw [check1_recheck c u k t f g f2 h hm h1 h2] at heq
            exact hne _ 3 _ _ (by omega) heq
    · intro hm
      exact check1_match c u k t f h (by simpa [title_matches] using hm)
  · rw [← found_iff, ← found_iff, ← found_iff]
    constructor
    · intro heq
      cases hm : sync_matches (read_box_text_ocr f sync_text_box) with
      | true => simpa [sync_matches, and_assoc] using hm
      | false =>
        exfalso
        cases h1 : c.video (k + 1) with
        | none =>
          rw [check2_retry_no_frame c u k t f h hm h1] at heq
          exact hne _ 2 _ _ (by omega) heq
        | some g =>
          cases h2 : c.video (k + 2) with
          | none =>
            rw [check2_recheck_no_frame c u k t f g h hm h1 h2] at heq
            exact hne _ 3 _ _ (by omega) heq
          | some f2 =>
            rw [check2_recheck c u k t f g f2 h hm h1 h2] at heq
            exact hne _ 3 _ _ (by omega) heq
    · intro hm
      exact check2_match c u k t f h (by simpa [sync_matches, and_assoc] using hm)
  · rw [← found_iff, ← found_iff, ← found_iff]
    constructor
    · intro heq
      cases hm : final_matches (read_box_text_ocr f current_dt_box) with
      | true => simpa [final_matches, and_assoc] using hm
      | false =>
        exfalso
        cases h1 : c.video (k + 1) with
        | none =>
          rw [check4_retry_no_frame c u k t f h hm h1] at heq
          exact hne _ 2 _ _ (by omega) heq
        | some g =>
          cases h2 : c.video (k + 2) with
          | none =>
            rw [check4_recheck_no_frame c u k t f g h hm h1 h2] at heq
            exact hne _ 3 _ _ (by omega) heq
          | some f2 =>
            rw [check4_recheck c u k t f g f2 h hm h1 h2] at heq
            exact hne _ 3 _ _ (by omega) heq
    · intro hm
      exact check4_match c u k t f h (by simpa [final_matches, and_assoc] using hm)
  · intro htext
    have hm : title_matches (read_box_text_ocr f menu_title_box) = true := by
      rw [htext]; decide
    rw [check1_match c u k t f h hm, htext]
  · intro htext
    have hm : final_matches (read_box_text_ocr f current_dt_box) = false := by
      rw [htext]; decide
    cases h1 : c.video (k + 1) with
    | none =>
      rw [check4_retry_no_frame c u k t f h hm h1, htext]
      refine ⟨[Event.snapshot false], ?_⟩
      simp only [List.append_assoc]
    | some g =>
      cases h2 : c.video (k + 2) with
      | none =>
        rw [check4_recheck_no_frame c u k t f g h hm h1 h2, htext]
        refine ⟨[Event.snapshot true,
          Event.ocr system_update_box (read_box_text_ocr g system_update_box)] ++
          forward_events u ++ enter_date_change_events u ++ [Event.snapshot false], ?_⟩
        simp only [check4_recovery_events, retry_events, List.append_assoc]
      | some f2 =>
        rw [check4_recheck c u k t f g f2 h hm h1 h2, htext]
        refine ⟨[Event.snapshot true,
          Event.ocr system_update_box (read_box_text_ocr g system_update_box)] ++
          forward_events u ++ enter_date_change_events u ++ [Event.snapshot true,
            Event.ocr current_dt_box (read_box_text_ocr f2 current_dt_box)], ?_⟩
        simp only [check4_recovery_events, retry_events, List.append_assoc]

/-- C5: the colour rule answers "on" for the mean (43, 56, 53) and "off" for the
mean (200, 200, 200), in `verify_date_time_menu_selected` and in Check 3. -/
theorem colour_rule_examples :
    sync_appears_on ⟨43, 56, 53⟩ = true ∧ sync_appears_on ⟨200, 200, 200⟩ = false ∧
    toggle_appears_on ⟨43, 56, 53⟩ = true ∧ toggle_appears_on ⟨200, 200, 200⟩ = false := by
  refine ⟨?_, ?_, ?_, ?_⟩
  · norm_num [sync_appears_on, abs_lt]
  · norm_num [sync_appears_on]
  · norm_num [toggle_appears_on, abs_lt]
  · norm_num [toggle_appears_on]

/-- Witness for C3: on a console whose capture shows the "Date and Time" menu,
Check 1 passes at once exactly when both words occur. -/
theorem text_checkpoint_match_iff_witness :
    (console_of [some menu_frame] 0).video 0 = some menu_frame ∧
    (check1_menu_title (console_of [some menu_frame] 0) 100 ⟨0, []⟩ =
        (true, ⟨0 + 1, [] ++ check1_events (read_box_text_ocr menu_frame menu_title_box)⟩) ↔
      "date".data <:+: (read_box_text_ocr menu_frame menu_title_box).data ∧
      "time".data <:+: (read_box_text_ocr menu_frame menu_title_box).data) :=
  ⟨rfl, (text_checkpoint_match_iff (console_of [some menu_frame] 0) 100 0 [] menu_frame rfl).1⟩

/-! ## Claims on the recovery routine and the run without recovery -/

/-- C8: when the capture of the recovery routine yields a frame, the routine
returns `true` and its events are: B, 18 scroll-ups, the capture and the
classification of the "System Update" region, then four scroll-downs (the third
held 525 ms) and A. Its actions do not depend on the earlier trace nor on the
text that was read, and the part after the capture dispatches the same actions
as Step 2. -/
theorem retry_action_sequence (c : Console) (u k : Nat) (t : List Event) (g : VideoSnapshot)
    (h : c.video k = some g) :
    retry_navigate_to_date_time_internal c u ⟨k, t⟩ =
      (true, ⟨k + 1, t ++
        ([Event.press_button Button.B u 500, Event.wait_for_all_requests, Event.wait_for 500] ++
          List.replicate 18 (Event.move_joystick 128 0 u u) ++
          [Event.wait_for_all_requests, Event.wait_for 500] ++
          [Event.snapshot true,
            Event.ocr system_update_box (read_box_text_ocr g system_update_box)] ++
          [Event.move_joystick 128 255 u u, Event.move_joystick 128 255 u u,
            Event.wait_for_all_requests,
            Event.move_joystick 128 255 525 u, Event.move_joystick 128 255 u u,
            Event.wait_for_all_requests, Event.wait_for 500,
            Event.press_button Button.A u 500, Event.wait_for_all_requests])⟩) ∧
    actions (retry_navigate_to_date_time_internal c u ⟨k, t⟩).2.trace =
      actions t ++
        (Event.press_button Button.B u 500 ::
          List.replicate 18 (Event.move_joystick 128 0 u u) ++
          [Event.move_joystick 128 255 u u, Event.move_joystick 128 255 u u,
            Event.move_joystick 128 255 525 u, Event.move_joystick 128 255 u u,
            Event.press_button Button.A u 500]) ∧
    (∀ w : World, actions (retry_forward u w).trace = actions (step2_enter_date_time u w).trace) ∧
    (∀ w : World, actions (step2_enter_date_time u w).trace =
      actions w.trace ++
        [Event.move_joystick 128 255 u u, Event.move_joystick 128 255 u u,
          Event.move_joystick 128 255 525 u, Event.move_joystick 128 255 u u,
          Event.press_button Button.A u 500]) := by
  have hstep : ∀ w : World, actions (step2_enter_date_time u w).trace =
      actions w.trace ++ forward_actions u := by
    intro w
    cases w with
    | mk k2 t2 =>
      rw [step2_enter_date_time_eq]
      simp only [actions_append, actions_forward_events]
      simp [actions, Event.is_action]
  refine ⟨?_, ?_, ?_, ?_⟩
  · rw [retry_frame c u k t g h]
    simp only [retry_events, retry_head_events, forward_events]
  · rw [retry_frame c u k t g h]
    simp only [actions_append, actions_retry_events, retry_actions, retry_head_actions,
      forward_actions, List.cons_append]
  · intro w
    rw [hstep w]
    cases w with
    | mk k2 t2 =>
      rw [retry_forward_eq]
      simp only [actions_append, actions_forward_events]
  · intro w
    rw [hstep w]
    rfl

/-- Witness for C8: the recovery routine on a console whose capture shows
nothing recognisable. -/
theorem retry_action_sequence_witness :
    (console_of [some blank_frame] 0).video 0 = some blank_frame ∧
    actions (retry_navigate_to_date_time_internal (console_of [some blank_frame] 0) 100
        ⟨0, []⟩).2.trace =
      actions [] ++
        (Event.press_button Button.B 100 500 ::
          List.replicate 18 (Event.move_joystick 128 0 100 100) ++
          [Event.move_joystick 128 255 100 100, Event.move_joystick 128 255 100 100,
            Event.move_joystick 128 255 525 100, Event.move_joystick 128 255 100 100,
            Event.press_button Button.A 100 500]) :=
  ⟨rfl, (retry_action_sequence (console_of [some blank_frame] 0) 100 0 [] blank_frame rfl).2.1⟩

/-- C2: when the first five captures yield frames and the title, the sync text
and the final text match at their first verification, the navigation returns
`true` after exactly these five captures; its trace is that of the steps and
of the four checks, it contains no B press and no classification of the
"System Update" region, so the recovery routine is never entered. -/
theorem all_match_succeeds_without_recovery (c : Console) (n : Nat)
    (f0 f1 f2 f3 f4 : VideoSnapshot)
    (h0 : c.video n = some f0) (h1 : c.video (n + 1) = some f1)
    (h2 : c.video (n + 2) = some f2) (h3 : c.video (n + 3) = some f3)
    (h4 : c.video (n + 4) = some f4)
    (ht : found (read_box_text_ocr f1 menu_title_box) "date" = true ∧
          found (read_box_text_ocr f1 menu_title_box) "time" = true)
    (hs : found (read_box_text_ocr f2 sync_text_box) "sync" = true ∧
          found (read_box_text_ocr f2 sync_text_box) "clock" = true ∧
          found (read_box_text_ocr f2 sync_text_box) "internet" = true)
    (hf : found (read_box_text_ocr f4 current_dt_box) "date" = true ∧
          found (read_box_text_ocr f4 current_dt_box) "time" = true ∧
          found (read_box_text_ocr f4 current_dt_box) "zone" = false) :
    navigate_to_date_change_with_ocr c ⟨n, []⟩ =
      (true, ⟨n + 5,
        start_events (100 + c.timing_variation) ++
          (check1_events (read_box_text_ocr f1 menu_title_box) ++
            (check2_events (read_box_text_ocr f2 sync_text_box) ++
              (check3_events (100 + c.timing_variation)
                  (f3.extract_box_reference toggle_box).average ++
                check4_events (100 + c.timing_variation)
                  (read_box_text_ocr f4 current_dt_box))))⟩) ∧
    (∀ e ∈ (navigate_to_date_change_with_ocr c ⟨n, []⟩).2.trace,
      ∀ hold release, e ≠ Event.press_button Button.B hold release) ∧
    (∀ e ∈ (navigate_to_date_change_with_ocr c ⟨n, []⟩).2.trace,
      ∀ text, e ≠ Event.ocr system_update_box text) := by
  have htm : title_matches (read_box_text_ocr f1 menu_title_box) = true := by
    simp only [title_matches, ht.1, ht.2, Bool.and_self]
  have hsm : sync_matches (read_box_text_ocr f2 sync_text_box) = true := by
    simp only [sync_matches, hs.1, hs.2.1, hs.2.2, Bool.and_self]
  have hfm : final_matches (read_box_text_ocr f4 current_dt_box) = true := by
    simp only [final_matches, hf.1, hf.2.1, hf.2.2, Bool.not_false, Bool.and_self]
  have hrun : navigate_to_date_change_with_ocr c ⟨n, []⟩ =
      (true, ⟨n + 5,
        start_events (100 + c.timing_variation) ++
          (check1_events (read_box_text_ocr f1 menu_title_box) ++
            (check2_events (read_box_text_ocr f2 sync_text_box) ++
              (check3_events (100 + c.timing_variation)
                  (f3.extract_box_reference toggle_box).average ++
                check4_events (100 + c.timing_variation)
                  (read_box_text_ocr f4 current_dt_box))))⟩) := by
    rw [navigate_frame c n [] f0 h0]
    rw [check1_match c _ (n + 1) _ f1 h1 htm]
    simp only [if_true]
    rw [check2_match c _ (n + 1 + 1) _ f2 h2 hsm]
    simp only [if_true]
    rw [check34_frame c _ (n + 1 + 1 + 1) _ f3 h3]
    rw [check4_match c _ (n + 1 + 1 + 1 + 1) _ f4 h4 hfm]
    simp only [List.nil_append, List.append_assoc]
  refine ⟨hrun, ?_, ?_⟩
  · rw [hrun]
    intro e he hold release heq
    subst heq
    simp only [start_events, step1_events, forward_events, check1_events, check2_events,
      check3_events, check4_events, enter_date_change_events] at he
    cases htog : toggle_appears_on (f3.extract_box_reference toggle_box).average <;>
      simp [htog] at he
  · rw [hrun]
    intro e he text heq
    subst heq
    simp only [start_events, step1_events, forward_events, check1_events, check2_events,
      check3_events, check4_events, enter_date_change_events] at he
    cases htog : toggle_appears_on (f3.extract_box_reference toggle_box).average <;>
      simp [htog, menu_title_box, sync_text_box, system_update_box, current_dt_box] at he

/-! ## Concrete readings -/

theorem read_menu_frame (box : ImageFloatBox) :
    read_box_text_ocr menu_frame box = "date and timesync clock using the internet" := by
  rw [menu_frame, read_frame_reading]
  decide

theorem read_zone_frame (box : ImageFloatBox) :
    read_box_text_ocr zone_frame box = "time zone" := by
  rw [zone_frame, read_frame_reading]
  decide

theorem read_blank_frame (box : ImageFloatBox) :
    read_box_text_ocr blank_frame box = "" := by
  rw [blank_frame, read_frame_reading]
  decide

theorem toggle_white_off : toggle_appears_on ⟨200, 200, 200⟩ = false := by
  norm_num [toggle_appears_on]

theorem check3_events_menu_frame (u : Nat) :
    check3_events u (menu_frame.extract_box_reference toggle_box).average =
      [Event.snapshot true, Event.image_stats toggle_box ⟨200, 200, 200⟩] := by
  have ha : (menu_frame.extract_box_reference toggle_box).average = ⟨200, 200, 200⟩ := rfl
  rw [ha, check3_events, toggle_white_off]
  rfl

/-! ## Claims on missing frames and on the sentinel -/

/-- C1 (evaluation at the failing input): Check 4 reads "time zone", recovery
runs, the re-verification of Check 4 gets no frame, and the navigation
nevertheless returns `true`: its trace ends with the capture that yielded no
frame, and the only text ever read in the date-change region fails the final
check. -/
theorem final_recheck_without_frame_returns_true :
    navigate_to_date_change_with_ocr missing_final_frame_console ⟨0, []⟩ =
      (true, ⟨7,
        start_events 100 ++
          (check1_events "date and timesync clock using the internet" ++
            (check2_events "date and timesync clock using the internet" ++
              ([Event.snapshot true, Event.image_stats toggle_box ⟨200, 200, 200⟩] ++
                (check4_events 100 "time zone" ++
                  (check4_recovery_events 100 "" ++ [Event.snapshot false])))))⟩) ∧
    final_matches "time zone" = false ∧
    (∀ text, Event.ocr current_dt_box text ∈
        (navigate_to_date_change_with_ocr missing_final_frame_console ⟨0, []⟩).2.trace →
      text = "time zone") := by
  have hrun : navigate_to_date_change_with_ocr missing_final_frame_console ⟨0, []⟩ =
      (true, ⟨7,
        start_events 100 ++
          (check1_events "date and timesync clock using the internet" ++
            (check2_events "date and timesync clock using the internet" ++
              ([Event.snapshot true, Event.image_stats toggle_box ⟨200, 200, 200⟩] ++
                (check4_events 100 "time zone" ++
                  (check4_recovery_events 100 "" ++ [Event.snapshot false])))))⟩) := by
    rw [navigate_frame missing_final_frame_console 0 [] menu_frame rfl]
    have hu : 100 + missing_final_frame_console.timing_variation = 100 := rfl
    rw [hu]
    rw [check1_match missing_final_frame_console 100 1 _ menu_frame rfl
      (by rw [read_menu_frame]; decide)]
    simp only [if_true]
    rw [check2_match missing_final_frame_console 100 2 _ menu_frame rfl
      (by rw [read_menu_frame]; decide)]
    simp only [if_true]
    rw [check34_frame missing_final_frame_console 100 3 _ menu_frame rfl]
    rw [check4_recheck_no_frame missing_final_frame_console 100 4 _ zone_frame blank_frame rfl
      (by rw [read_zone_frame]; decide) rfl rfl]
    simp only [read_menu_frame, read_zone_frame, read_blank_frame, check3_events_menu_frame,
      List.nil_append, List.append_assoc]
  refine ⟨hrun, by decide, ?_⟩
  rw [hrun]
  intro text hmem
  simp only [start_events, step1_events, forward_events, check1_events, check2_events,
    check4_events, check4_recovery_events, retry_events, retry_head_events,
    enter_date_change_events] at hmem
  simp [menu_title_box, sync_text_box, system_update_box, current_dt_box] at hmem
  exact hmem

theorem missing_title_frame_run :
    navigate_to_date_change_with_ocr missing_title_frame_console ⟨0, []⟩ =
      (false, ⟨2, start_events 100 ++
        [Event.wait_for_all_requests, Event.wait_for 500, Event.snapshot false]⟩) := by
  rw [navigate_frame missing_title_frame_console 0 [] menu_frame rfl]
  have hu : 100 + missing_title_frame_console.timing_variation = 100 := rfl
  rw [hu, check1_no_frame missing_title_frame_console 100 1 _ rfl]
  simp only [Bool.false_eq_true, if_false, List.nil_append]

/-- C6 (counterexample): the first verification of Check 1 gets no frame and
the next capture would show a matching title; the navigation returns `false`
after two captures, without any recovery. -/
theorem missing_title_frame_aborts :
    missing_title_frame_console.video 1 = none ∧
    missing_title_frame_console.video 2 = some menu_frame ∧
    title_matches (read_box_text_ocr menu_frame menu_title_box) = true ∧
    navigate_to_date_change_with_ocr missing_title_frame_console ⟨0, []⟩ =
      (false, ⟨2, start_events 100 ++
        [Event.wait_for_all_requests, Event.wait_for 500, Event.snapshot false]⟩) :=
  ⟨rfl, rfl, by rw [read_menu_frame]; decide, missing_title_frame_run⟩

/-- C6 (amended): a capture that yields no frame is fatal at once. At the first
capture of the navigation, at the first verification of Check 1, 2, 3 or 4 and
at the re-verification of Check 1 or 2 the result is `false`, the capture is
the last event, and no recovery is started for it. -/
theorem missing_frame_aborts_at_once (c : Console) (u k : Nat) (t : List Event)
    (h : c.video k = none) :
    navigate_to_date_change_with_ocr c ⟨k, t⟩ =
      (false, ⟨k + 1, t ++ [Event.wait_for_all_requests, Event.wait_for 400,
        Event.snapshot false]⟩) ∧
    check1_menu_title c u ⟨k, t⟩ =
      (false, ⟨k + 1, t ++ [Event.wait_for_all_requests, Event.wait_for 500,
        Event.snapshot false]⟩) ∧
    check2_sync_text c u ⟨k, t⟩ = (false, ⟨k + 1, t ++ [Event.snapshot false]⟩) ∧
    check3_toggle c u ⟨k, t⟩ = (false, ⟨k + 1, t ++ [Event.snapshot false]⟩) ∧
    check4_date_change c u ⟨k, t⟩ =
      (false, ⟨k + 1, t ++ (enter_date_change_events u ++ [Event.snapshot false])⟩) ∧
    (∀ j f g, j + 2 = k → c.video j = some f →
      title_matches (read_box_text_ocr f menu_title_box) = false →
      c.video (j + 1) = some g →
      check1_menu_title c u ⟨j, t⟩ =
        (false, ⟨j + 3, t ++ (check1_events (read_box_text_ocr f menu_title_box) ++
          (retry_events u (read_box_text_ocr g system_update_box) ++
            [Event.wait_for_all_requests, Event.wait_for 500, Event.snapshot false]))⟩)) ∧
    (∀ j f g, j + 2 = k → c.video j = some f →
      sync_matches (read_box_text_ocr f sync_text_box) = false →
      c.video (j + 1) = some g →
      check2_sync_text c u ⟨j, t⟩ =
        (false, ⟨j + 3, t ++ (check2_events (read_box_text_ocr f sync_text_box) ++
          (retry_events u (read_box_text_ocr g system_update_box) ++
            [Event.wait_for_all_requests, Event.wait_for 500, Event.snapshot false]))⟩)) ∧
    (∀ j f0, j + 1 = k → c.video j = some f0 →
      navigate_to_date_change_with_ocr c ⟨j, []⟩ =
        (false, ⟨j + 2, start_events (100 + c.timing_variation) ++
          [Event.wait_for_all_requests, Event.wait_for 500, Event.snapshot false]⟩)) := by
  refine ⟨navigate_no_frame c k t h, check1_no_frame c u k t h, check2_no_frame c u k t h,
    check3_no_frame c u k t h, check4_no_frame c u k t h, ?_, ?_, ?_⟩
  · intro j f g hj hf hm hg
    subst hj
    exact check1_recheck_no_frame c u j t f g hf hm hg h
  · intro j f g hj hf hm hg
    subst hj
    exact check2_recheck_no_frame c u j t f g hf hm hg h
  · intro j f0 hj hf0
    subst hj
    rw [navigate_frame c j [] f0 hf0, check1_no_frame c _ (j + 1) _ h]
    simp only [Bool.false_eq_true, if_false, List.nil_append]

/-- Witness for C6 (amended): the console whose second capture yields no
frame. -/
theorem missing_frame_aborts_at_once_witness :
    missing_title_frame_console.video 1 = none ∧
    check1_menu_title missing_title_frame_console 100 ⟨1, []⟩ =
      (false, ⟨1 + 1, [] ++ [Event.wait_for_all_requests, Event.wait_for 500,
        Event.snapshot false]⟩) :=
  ⟨rfl, (missing_frame_aborts_at_once missing_title_frame_console 100 1 [] rfl).2.1⟩

/-- Witness for C2: five captures of the "Date and Time" menu. -/
theorem all_match_succeeds_without_recovery_witness :
    (console_of [some menu_frame, some menu_frame, some menu_frame, some menu_frame,
        some menu_frame] 0).video 0 = some menu_frame ∧
    (found (read_box_text_ocr menu_frame menu_title_box) "date" = true ∧
      found (read_box_text_ocr menu_frame menu_title_box) "time" = true) ∧
    (navigate_to_date_change_with_ocr
        (console_of [some menu_frame, some menu_frame, some menu_frame, some menu_frame,
          some menu_frame] 0) ⟨0, []⟩).1 = true :=
  ⟨rfl, by rw [read_menu_frame]; decide,
    congrArg Prod.fst
      (all_match_succeeds_without_recovery
        (console_of [some menu_frame, some menu_frame, some menu_frame, some menu_frame,
          some menu_frame] 0) 0 menu_frame menu_frame menu_frame menu_frame menu_frame
        rfl rfl rfl rfl rfl (by rw [read_menu_frame]; decide)
        (by rw [read_menu_frame]; decide) (by rw [read_menu_frame]; decide)).1⟩

/-- C7 (counterexample): Check 1 reads "time zone", the sentinel region of the
recovery reads nothing, so the sentinel is not recognised; the recovery
routine still navigates forward again and the navigation goes on through
Checks 1 to 4 and returns `true`. -/
theorem unverified_sentinel_continues :
    sentinel_matches (read_box_text_ocr blank_frame system_update_box) = false ∧
    retry_navigate_to_date_time_internal unverified_sentinel_console 100 ⟨2, []⟩ =
      (true, ⟨3, retry_head_events 100 ++
        ([Event.snapshot true, Event.ocr system_update_box ""] ++ forward_events 100)⟩) ∧
    navigate_to_date_change_with_ocr unverified_sentinel_console ⟨0, []⟩ =
      (true, ⟨7,
        start_events 100 ++
          (check1_events "time zone" ++
            (retry_events 100 "" ++
              (check1_events "date and timesync clock using the internet" ++
                (check2_events "date and timesync clock using the internet" ++
                  ([Event.snapshot true, Event.image_stats toggle_box ⟨200, 200, 200⟩] ++
                    check4_events 100 "date and timesync clock using the internet")))))⟩) := by
  refine ⟨by rw [read_blank_frame]; decide, ?_, ?_⟩
  · rw [retry_frame unverified_sentinel_console 100 2 [] blank_frame rfl, read_blank_frame]
    simp only [retry_events, List.nil_append, List.append_assoc]
  · rw [navigate_frame unverified_sentinel_console 0 [] menu_frame rfl]
    have hu : 100 + unverified_sentinel_console.timing_variation = 100 := rfl
    rw [hu]
    rw [check1_recheck unverified_sentinel_console 100 1 _ zone_frame blank_frame menu_frame
      rfl (by rw [read_zone_frame]; decide) rfl rfl]
    have hm : title_matches (read_box_text_ocr menu_frame menu_title_box) = true := by
      rw [read_menu_frame]; decide
    simp only [hm, if_true]
    rw [check2_match unverified_sentinel_console 100 4 _ menu_frame rfl
      (by rw [read_menu_frame]; decide)]
    simp only [if_true]
    rw [check34_frame unverified_sentinel_console 100 5 _ menu_frame rfl]
    rw [check4_match unverified_sentinel_console 100 6 _ menu_frame rfl
      (by rw [read_menu_frame]; decide)]
    simp only [read_menu_frame, read_zone_frame, read_blank_frame, check3_events_menu_frame,
      List.nil_append, List.append_assoc]

/-- C7 (amended): when the capture of the recovery routine yields no frame, the
routine returns `false` right after that capture, without the forward
navigation, and Checks 1, 2 and 4 then return `false` with that capture as the
last event, so that the navigation returns `false` without any later check.
When the capture yields a frame, the routine navigates forward again and
returns `true` whatever the sentinel region reads. -/
theorem sentinel_capture_decides_retry (c : Console) (u k : Nat) (t : List Event) :
    (c.video k = none →
      retry_navigate_to_date_time_internal c u ⟨k, t⟩ =
        (false, ⟨k + 1, t ++ (retry_head_events u ++ [Event.snapshot false])⟩)) ∧
    (∀ g, c.video k = some g →
      retry_navigate_to_date_time_internal c u ⟨k, t⟩ =
        (true, ⟨k + 1, t ++ (retry_head_events u ++
          ([Event.snapshot true,
              Event.ocr system_update_box (read_box_text_ocr g system_update_box)] ++
            forward_events u))⟩)) ∧
    (∀ j f, j + 1 = k → c.video k = none → c.video j = some f →
      title_matches (read_box_text_ocr f menu_title_box) = false →
      check1_menu_title c u ⟨j, t⟩ =
        (false, ⟨j + 2, t ++ (check1_events (read_box_text_ocr f menu_title_box) ++
          (retry_head_events u ++ [Event.snapshot false]))⟩)) ∧
    (∀ j f, j + 1 = k → c.video k = none → c.video j = some f →
      sync_matches (read_box_text_ocr f sync_text_box) = false →
      check2_sync_text c u ⟨j, t⟩ =
        (false, ⟨j + 2, t ++ (check2_events (read_box_text_ocr f sync_text_box) ++
          (retry_head_events u ++ [Event.snapshot false]))⟩)) ∧
    (∀ j f, j + 1 = k → c.video k = none → c.video j = some f →
      final_matches (read_box_text_ocr f current_dt_box) = false →
      check4_date_change c u ⟨j, t⟩ =
        (false, ⟨j + 2, t ++ (check4_events u (read_box_text_ocr f current_dt_box) ++
          ([Event.press_button Button.B u 500, Event.wait_for_all_requests] ++
            (retry_head_events u ++ [Event.snapshot false])))⟩)) ∧
    (∀ j f0 f1, j + 2 = k → c.video k = none → c.video j = some f0 →
      c.video (j + 1) = some f1 →
      title_matches (read_box_text_ocr f1 menu_title_box) = false →
      navigate_to_date_change_with_ocr c ⟨j, []⟩ =
        (false, ⟨j + 3, start_events (100 + c.timing_variation) ++
          (check1_events (read_box_text_ocr f1 menu_title_box) ++
            (retry_head_events (100 + c.timing_variation) ++ [Event.snapshot false]))⟩)) ∧
    (∀ j f0 f1 f2, j + 3 = k → c.video k = none → c.video j = some f0 →
      c.video (j + 1) = some f1 →
      title_matches (read_box_text_ocr f1 menu_title_box) = true →
      c.video (j + 2) = some f2 →
      sync_matches (read_box_text_ocr f2 sync_text_box) = false →
      navigate_to_date_change_with_ocr c ⟨j, []⟩ =
        (false, ⟨j + 4, start_events (100 + c.timing_variation) ++
          (check1_events (read_box_text_ocr f1 menu_title_box) ++
            (check2_events (read_box_text_ocr f2 sync_text_box) ++
              (retry_head_events (100 + c.timing_variation) ++ [Event.snapshot false])))⟩)) ∧
    (∀ j f0 f1 f2 f3 f4, j + 5 = k → c.video k = none → c.video j = some f0 →
      c.video (j + 1) = some f1 →
      title_matches (read_box_text_ocr f1 menu_title_box) = true →
      c.video (j + 2) = some f2 →
      sync_matches (read_box_text_ocr f2 sync_text_box) = true →
      c.video (j + 3) = some f3 →
      c.video (j + 4) = some f4 →
      final_matches (read_box_text_ocr f4 current_dt_box) = false →
      navigate_to_date_change_with_ocr c ⟨j, []⟩ =
        (false, ⟨j + 6, start_events (100 + c.timing_variation) ++
          (check1_events (read_box_text_ocr f1 menu_title_box) ++
            (check2_events (read_box_text_ocr f2 sync_text_box) ++
              (check3_events (100 + c.timing_variation)
                  (f3.extract_box_reference toggle_box).average ++
                (check4_events (100 + c.timing_variation)
                    (read_box_text_ocr f4 current_dt_box) ++
                  ([Event.press_button Button.B (100 + c.timing_variation) 500,
                      Event.wait_for_all_requests] ++
                    (retry_head_events (100 + c.timing_variation) ++
                      [Event.snapshot false]))))))⟩)) := by
  refine ⟨retry_no_frame c u k t, ?_, ?_, ?_, ?_, ?_, ?_, ?_⟩
  · intro g hg
    rw [retry_frame c u k t g hg]
    simp only [retry_events, List.append_assoc]
  · intro j f hj hk hf hm
    subst hj
    exact check1_retry_no_frame c u j t f hf hm hk
  · intro j f hj hk hf hm
    subst hj
    exact check2_retry_no_frame c u j t f hf hm hk
  · intro j f hj hk hf hm
    subst hj
    exact check4_retry_no_frame c u j t f hf hm hk
  · intro j f0 f1 hj hk h0 h1 hm
    subst hj
    rw [navigate_frame c j [] f0 h0, check1_retry_no_frame c _ (j + 1) _ f1 h1 hm hk]
    simp only [Bool.false_eq_true, if_false, List.nil_append]
  · intro j f0 f1 f2 hj hk h0 h1 hm1 h2 hm2
    subst hj
    rw [navigate_frame c j [] f0 h0, check1_match c _ (j + 1) _ f1 h1 hm1]
    simp only [if_true]
    rw [check2_retry_no_frame c _ (j + 1 + 1) _ f2 h2 hm2 hk]
    simp only [Bool.false_eq_true, if_false, List.nil_append, List.append_assoc]
  · intro j f0 f1 f2 f3 f4 hj hk h0 h1 hm1 h2 hm2 h3 h4 hm4
    subst hj
    rw [navigate_frame c j [] f0 h0, check1_match c _ (j + 1) _ f1 h1 hm1]
    simp only [if_true]
    rw [check2_match c _ (j + 1 + 1) _ f2 h2 hm2]
    simp only [if_true]
    rw [check34_frame c _ (j + 1 + 1 + 1) _ f3 h3]
    rw [check4_retry_no_frame c _ (j + 1 + 1 + 1 + 1) _ f4 h4 hm4 hk]
    simp only [List.nil_append, List.append_assoc]

/-- Witness for C7 (amended): a console whose third capture, the one of the
recovery routine, yields no frame after Check 1 read "time zone". -/
theorem sentinel_capture_decides_retry_witness :
    (console_of [some menu_frame, some zone_frame, none] 0).video 2 = none ∧
    (console_of [some menu_frame, some zone_frame, none] 0).video 0 = some menu_frame ∧
    (console_of [some menu_frame, some zone_frame, none] 0).video 1 = some zone_frame ∧
    title_matches (read_box_text_ocr zone_frame menu_title_box) = false ∧
    navigate_to_date_change_with_ocr (console_of [some menu_frame, some zone_frame, none] 0)
        ⟨0, []⟩ =
      (false, ⟨0 + 3, start_events (100 + 0) ++
        (check1_events (read_box_text_ocr zone_frame menu_title_box) ++
          (retry_head_events (100 + 0) ++ [Event.snapshot false]))⟩) :=
  ⟨rfl, rfl, rfl, by rw [read_zone_frame]; decide,
    (sentinel_capture_decides_retry (console_of [some menu_frame, some zone_frame, none] 0)
      100 2 []).2.2.2.2.2.1 0 menu_frame zone_frame rfl rfl rfl rfl
      (by rw [read_zone_frame]; decide)⟩

/-! ## Outcomes of the checks -/

theorem ends_of_suffix (p s : List Event) (h : ends_with_verification s) :
    ends_with_verification (p ++ s) := by
  rcases h with h | ⟨box, text, h⟩
  · exact Or.inl (h.trans (List.suffix_append p s))
  · exact Or.inr ⟨box, text, h.trans (List.suffix_append p s)⟩

theorem ends_no_frame : ends_with_verification [Event.snapshot false] :=
  Or.inl (List.suffix_refl _)

theorem ends_ocr (box : ImageFloatBox) (text : String) :
    ends_with_verification [Event.snapshot true, Event.ocr box text] :=
  Or.inr ⟨box, text, List.suffix_refl _⟩

theorem ends_check1_events (text : String) : ends_with_verification (check1_events text) :=
  ends_of_suffix [Event.wait_for_all_requests, Event.wait_for 500] _ (ends_ocr _ _)

theorem ends_recheck2_events (text : String) :
    ends_with_verification (recheck2_events text) :=
  ends_of_suffix [Event.wait_for_all_requests, Event.wait_for 500] _ (ends_ocr _ _)

theorem ends_wait_no_frame :
    ends_with_verification
      [Event.wait_for_all_requests, Event.wait_for 500, Event.snapshot false] :=
  ends_of_suffix [Event.wait_for_all_requests, Event.wait_for 500] _ ends_no_frame

theorem actions_wait_no_frame :
    actions [Event.wait_for_all_requests, Event.wait_for 500, Event.snapshot false] = [] := by
  simp [actions, Event.is_action]

theorem actions_no_frame : actions [Event.snapshot false] = [] := by
  simp [actions, Event.is_action]

/-- Every outcome of Check 1: an abort ends with a verification and has
dispatched nothing, the head of a recovery, or a whole recovery; a pass has
read a matching title and has dispatched nothing or a whole recovery. -/
theorem check1_outcome (c : Console) (u k : Nat) (t : List Event) :
    ∃ b j evs, check1_menu_title c u ⟨k, t⟩ = (b, ⟨k + j, t ++ evs⟩) ∧
      ((b = false ∧ ends_with_verification evs ∧
          (actions evs = [] ∨ actions evs = retry_head_actions u ∨
            actions evs = retry_actions u)) ∨
        (b = true ∧ (∃ text, Event.ocr menu_title_box text ∈ evs ∧ title_matches text = true) ∧
          (actions evs = [] ∨ actions evs = retry_actions u))) := by
  cases h : c.video k with
  | none =>
    exact ⟨false, 1, _, check1_no_frame c u k t h,
      Or.inl ⟨rfl, ends_wait_no_frame, Or.inl actions_wait_no_frame⟩⟩
  | some f =>
    cases hm : title_matches (read_box_text_ocr f menu_title_box) with
    | true =>
      refine ⟨true, 1, _, check1_match c u k t f h hm, Or.inr ⟨rfl, ⟨_, ?_, hm⟩,
        Or.inl (actions_check1_events _)⟩⟩
      simp [check1_events]
    | false =>
      cases h1 : c.video (k + 1) with
      | none =>
        refine ⟨false, 2, _, check1_retry_no_frame c u k t f h hm h1,
          Or.inl ⟨rfl, ends_of_suffix _ _ (ends_of_suffix _ _ ends_no_frame), Or.inr (Or.inl ?_)⟩⟩
        simp only [actions_append, actions_check1_events, actions_retry_head_events,
          actions_no_frame, List.nil_append, List.append_nil]
      | some g =>
        cases h2 : c.video (k + 2) with
        | none =>
          refine ⟨false, 3, _, check1_recheck_no_frame c u k t f g h hm h1 h2,
            Or.inl ⟨rfl, ends_of_suffix _ _ (ends_of_suffix _ _ ends_wait_no_frame),
              Or.inr (Or.inr ?_)⟩⟩
          simp only [actions_append, actions_check1_events, actions_retry_events,
            actions_wait_no_frame, List.nil_append, List.append_nil]
        | some f2 =>
          have hrun := check1_recheck c u k t f g f2 h hm h1 h2
          have hact : actions (check1_events (read_box_text_ocr f menu_title_box) ++
              (retry_events u (read_box_text_ocr g system_update_box) ++
                check1_events (read_box_text_ocr f2 menu_title_box))) = retry_actions u := by
            simp only [actions_append, actions_check1_events, actions_retry_events,
              List.nil_append, List.append_nil]
          cases hm2 : title_matches (read_box_text_ocr f2 menu_title_box) with
          | false =>
            rw [hm2] at hrun
            exact ⟨false, 3, _, hrun,
              Or.inl ⟨rfl, ends_of_suffix _ _ (ends_of_suffix _ _ (ends_check1_events _)),
                Or.inr (Or.inr hact)⟩⟩
          | true =>
            rw [hm2] at hrun
            refine ⟨true, 3, _, hrun, Or.inr ⟨rfl, ⟨_, ?_, hm2⟩, Or.inr hact⟩⟩
            simp [check1_events]

/-- Every outcome of Check 2, as for Check 1. -/
theorem check2_outcome (c : Console) (u k : Nat) (t : List Event) :
    ∃ b j evs, check2_sync_text c u ⟨k, t⟩ = (b, ⟨k + j, t ++ evs⟩) ∧
      ((b = false ∧ ends_with_verification evs ∧
          (actions evs = [] ∨ actions evs = retry_head_actions u ∨
            actions evs = retry_actions u)) ∨
        (b = true ∧ (∃ text, Event.ocr sync_text_box text ∈ evs ∧ sync_matches text = true) ∧
          (actions evs = [] ∨ actions evs = retry_actions u))) := by
  cases h : c.video k with
  | none =>
    exact ⟨false, 1, _, check2_no_frame c u k t h,
      Or.inl ⟨rfl, ends_no_frame, Or.inl actions_no_frame⟩⟩
  | some f =>
    cases hm : sync_matches (read_box_text_ocr f sync_text_box) with
    | true =>
      refine ⟨true, 1, _, check2_match c u k t f h hm, Or.inr ⟨rfl, ⟨_, ?_, hm⟩,
        Or.inl (actions_check2_events _)⟩⟩
      simp [check2_events]
    | false =>
      cases h1 : c.video (k + 1) with
      | none =>
        refine ⟨false, 2, _, check2_retry_no_frame c u k t f h hm h1,
          Or.inl ⟨rfl, ends_of_suffix _ _ (ends_of_suffix _ _ ends_no_frame), Or.inr (Or.inl ?_)⟩⟩
        simp only [actions_append, actions_check2_events, actions_retry_head_events,
          actions_no_frame, List.nil_append, List.append_nil]
      | some g =>
        cases h2 : c.video (k + 2) with
        | none =>
          refine ⟨false, 3, _, check2_recheck_no_frame c u k t f g h hm h1 h2,
            Or.inl ⟨rfl, ends_of_suffix _ _ (ends_of_suffix _ _ ends_wait_no_frame),
              Or.inr (Or.inr ?_)⟩⟩
          simp only [actions_append, actions_check2_events, actions_retry_events,
            actions_wait_no_frame, List.nil_append, List.append_nil]
        | some f2 =>
          have hrun := check2_recheck c u k t f g f2 h hm h1 h2
          have hact : actions (check2_events (read_box_text_ocr f sync_text_box) ++
              (retry_events u (read_box_text_ocr g system_update_box) ++
                recheck2_events (read_box_text_ocr f2 sync_text_box))) = retry_actions u := by
            simp only [actions_append, actions_check2_events, actions_retry_events,
              actions_recheck2_events, List.nil_append, List.append_nil]
          cases hm2 : sync_matches (read_box_text_ocr f2 sync_text_box) with
          | false =>
            rw [hm2] at hrun
            exact ⟨false, 3, _, hrun,
              Or.inl ⟨rfl, ends_of_suffix _ _ (ends_of_suffix _ _ (ends_recheck2_events _)),
                Or.inr (Or.inr hact)⟩⟩
          | true =>
            rw [hm2] at hrun
            refine ⟨true, 3, _, hrun, Or.inr ⟨rfl, ⟨_, ?_, hm2⟩, Or.inr hact⟩⟩
            simp [recheck2_events]

/-- Every abort of Check 4 ends with a verification. -/
theorem check4_abort (c : Console) (u k : Nat) (t : List Event)
    (hb : (check4_date_change c u ⟨k, t⟩).1 = false) :
    ∃ evs, (check4_date_change c u ⟨k, t⟩).2.trace = t ++ evs ∧
      ends_with_verification evs := by
  cases h : c.video k with
  | none =>
    rw [check4_no_frame c u k t h]
    exact ⟨_, rfl, ends_of_suffix _ _ ends_no_frame⟩
  | some f =>
    cases hm : final_matches (read_box_text_ocr f current_dt_box) with
    | true =>
      rw [check4_match c u k t f h hm] at hb
      exact absurd hb (by simp)
    | false =>
      cases h1 : c.video (k + 1) with
      | none =>
        rw [check4_retry_no_frame c u k t f h hm h1]
        exact ⟨_, rfl, ends_of_suffix _ _ (ends_of_suffix _ _ (ends_of_suffix _ _ ends_no_frame))⟩
      | some g =>
        cases h2 : c.video (k + 2) with
        | none =>
          rw [check4_recheck_no_frame c u k t f g h hm h1 h2] at hb
          exact absurd hb (by simp)
        | some f2 =>
          rw [check4_recheck c u k t f g f2 h hm h1 h2] at hb ⊢
          exact ⟨_, rfl, ends_of_suffix _ _ (ends_of_suffix _ _ (ends_ocr _ _))⟩

/-- Every abort of Checks 3 and 4 ends with a verification. -/
theorem check34_abort (c : Console) (u k : Nat) (t : List Event)
    (hb : (check34 c u ⟨k, t⟩).1 = false) :
    ∃ evs, (check34 c u ⟨k, t⟩).2.trace = t ++ evs ∧ ends_with_verification evs := by
  cases h : c.video k with
  | none =>
    rw [check34_no_frame c u k t h]
    exact ⟨_, rfl, ends_no_frame⟩
  | some f =>
    rw [check34_frame c u k t f h] at hb ⊢
    obtain ⟨evs, he, hv⟩ := check4_abort c u (k + 1) _ hb
    refine ⟨check3_events u (f.extract_box_reference toggle_box).average ++ evs, ?_,
      ends_of_suffix _ _ hv⟩
    rw [he, List.append_assoc]

theorem getLast_retry_actions (p : List Event) (u : Nat) :
    (p ++ retry_actions u).getLast? = some (Event.press_button Button.A u 500) := by
  simp [retry_actions, forward_actions]

theorem getLast_enter_date_change_actions (p : List Event) (u : Nat) :
    (p ++ enter_date_change_actions u).getLast? = some (Event.press_button Button.A u u) := by
  simp [enter_date_change_actions]

/-! ## Claims on the order of actions and verifications -/

/-- C9: when the navigation returns `false`, its trace ends with the
verification that caused the abort (a capture without a frame, or a capture
and the classification of its text), so nothing is dispatched after it. In
particular, when Check 1 or Check 2 fails again at the re-verification that
follows a recovery (no frame, or a text that does not match), the actions
dispatched end with those of the recovery routine, the last one being its A
press; when Check 4 fails again after its recovery, the actions end with the
second entry into the date change menu, the last one being its A press. -/
theorem abort_follows_verification (c : Console) (n : Nat) (t : List Event) :
    ((navigate_to_date_change_with_ocr c ⟨n, t⟩).1 = false →
      ends_with_verification (navigate_to_date_change_with_ocr c ⟨n, t⟩).2.trace) ∧
    (∀ u k f g, c.video k = some f →
      title_matches (read_box_text_ocr f menu_title_box) = false →
      c.video (k + 1) = some g →
      (c.video (k + 2) = none ∨ ∃ f2, c.video (k + 2) = some f2 ∧
        title_matches (read_box_text_ocr f2 menu_title_box) = false) →
      (check1_menu_title c u ⟨k, t⟩).1 = false ∧
      ends_with_verification (check1_menu_title c u ⟨k, t⟩).2.trace ∧
      actions (check1_menu_title c u ⟨k, t⟩).2.trace = actions t ++ retry_actions u ∧
      (actions (check1_menu_title c u ⟨k, t⟩).2.trace).getLast? =
        some (Event.press_button Button.A u 500)) ∧
    (∀ u k f g, c.video k = some f →
      sync_matches (read_box_text_ocr f sync_text_box) = false →
      c.video (k + 1) = some g →
      (c.video (k + 2) = none ∨ ∃ f2, c.video (k + 2) = some f2 ∧
        sync_matches (read_box_text_ocr f2 sync_text_box) = false) →
      (check2_sync_text c u ⟨k, t⟩).1 = false ∧
      ends_with_verification (check2_sync_text c u ⟨k, t⟩).2.trace ∧
      actions (check2_sync_text c u ⟨k, t⟩).2.trace = actions t ++ retry_actions u ∧
      (actions (check2_sync_text c u ⟨k, t⟩).2.trace).getLast? =
        some (Event.press_button Button.A u 500)) ∧
    (∀ u k f g f2, c.video k = some f →
      final_matches (read_box_text_ocr f current_dt_box) = false →
      c.video (k + 1) = some g → c.video (k + 2) = some f2 →
      final_matches (read_box_text_ocr f2 current_dt_box) = false →
      (check4_date_change c u ⟨k, t⟩).1 = false ∧
      ends_with_verification (check4_date_change c u ⟨k, t⟩).2.trace ∧
      actions (check4_date_change c u ⟨k, t⟩).2.trace =
        actions t ++ (enter_date_change_actions u ++
          (Event.press_button Button.B u 500 ::
            (retry_actions u ++ enter_date_change_actions u))) ∧
      (actions (check4_date_change c u ⟨k, t⟩).2.trace).getLast? =
        some (Event.press_button Button.A u u)) := by
  refine ⟨?_, ?_, ?_, ?_⟩
  · intro hb
    cases h0 : c.video n with
    | none =>
      rw [navigate_no_frame c n t h0]
      exact ends_of_suffix t _
        (ends_of_suffix [Event.wait_for_all_requests, Event.wait_for 400] _ ends_no_frame)
    | some f0 =>
      rw [navigate_frame c n t f0 h0] at hb ⊢
      obtain ⟨b1, j1, evs1, he1, hc1⟩ :=
        check1_outcome c (100 + c.timing_variation) (n + 1)
          (t ++ start_events (100 + c.timing_variation))
      rw [he1] at hb ⊢
      rcases hc1 with ⟨hb1, hv1, _⟩ | ⟨hb1, _, _⟩
      · subst hb1
        simp only [Bool.false_eq_true, if_false]
        exact ends_of_suffix _ _ hv1
      · subst hb1
        simp only [if_true] at hb ⊢
        obtain ⟨b2, j2, evs2, he2, hc2⟩ :=
          check2_outcome c (100 + c.timing_variation) (n + 1 + j1)
            (t ++ start_events (100 + c.timing_variation) ++ evs1)
        rw [he2] at hb ⊢
        rcases hc2 with ⟨hb2, hv2, _⟩ | ⟨hb2, _, _⟩
        · subst hb2
          simp only [Bool.false_eq_true, if_false]
          exact ends_of_suffix _ _ hv2
        · subst hb2
          simp only [if_true] at hb ⊢
          obtain ⟨evs, he, hv⟩ := check34_abort c _ _ _ hb
          rw [he]
          exact ends_of_suffix _ _ hv
  · intro u k f g hf hm hg h2
    rcases h2 with h2 | ⟨f2, h2, hm2⟩
    · rw [check1_recheck_no_frame c u k t f g hf hm hg h2]
      have hact : actions (t ++ (check1_events (read_box_text_ocr f menu_title_box) ++
          (retry_events u (read_box_text_ocr g system_update_box) ++
            [Event.wait_for_all_requests, Event.wait_for 500, Event.snapshot false]))) =
          actions t ++ retry_actions u := by
        simp only [actions_append, actions_check1_events, actions_retry_events,
          actions_wait_no_frame, List.nil_append, List.append_nil]
      refine ⟨rfl, ends_of_suffix _ _ (ends_of_suffix _ _ (ends_of_suffix _ _
        ends_wait_no_frame)), hact, ?_⟩
      simp only [hact, getLast_retry_actions]
    · rw [check1_recheck c u k t f g f2 hf hm hg h2, hm2]
      have hact : actions (t ++ (check1_events (read_box_text_ocr f menu_title_box) ++
          (retry_events u (read_box_text_ocr g system_update_box) ++
            check1_events (read_box_text_ocr f2 menu_title_box)))) =
          actions t ++ retry_actions u := by
        simp only [actions_append, actions_check1_events, actions_retry_events,
          List.nil_append, List.append_nil]
      refine ⟨rfl, ends_of_suffix _ _ (ends_of_suffix _ _ (ends_of_suffix _ _
        (ends_check1_events _))), hact, ?_⟩
      simp only [hact, getLast_retry_actions]
  · intro u k f g hf hm hg h2
    rcases h2 with h2 | ⟨f2, h2, hm2⟩
    · rw [check2_recheck_no_frame c u k t f g hf hm hg h2]
      have hact : actions (t ++ (check2_events (read_box_text_ocr f sync_text_box) ++
          (retry_events u (read_box_text_ocr g system_update_box) ++
            [Event.wait_for_all_requests, Event.wait_for 500, Event.snapshot false]))) =
          actions t ++ retry_actions u := by
        simp only [actions_append, actions_check2_events, actions_retry_events,
          actions_wait_no_frame, List.nil_append, List.append_nil]
      refine ⟨rfl, ends_of_suffix _ _ (ends_of_suffix _ _ (ends_of_suffix _ _
        ends_wait_no_frame)), hact, ?_⟩
      simp only [hact, getLast_retry_actions]
    · rw [check2_recheck c u k t f g f2 hf hm hg h2, hm2]
      have hact : actions (t ++ (check2_events (read_box_text_ocr f sync_text_box) ++
          (retry_events u (read_box_text_ocr g system_update_box) ++
            recheck2_events (read_box_text_ocr f2 sync_text_box)))) =
          actions t ++ retry_actions u := by
        simp only [actions_append, actions_check2_events, actions_retry_events,
          actions_recheck2_events, List.nil_append, List.append_nil]
      refine ⟨rfl, ends_of_suffix _ _ (ends_of_suffix _ _ (ends_of_suffix _ _
        (ends_recheck2_events _))), hact, ?_⟩
      simp only [hact, getLast_retry_actions]
  · intro u k f g f2 hf hm hg h2 hm2
    rw [check4_recheck c u k t f g f2 hf hm hg h2, hm2]
    have hact : actions (t ++ (check4_events u (read_box_text_ocr f current_dt_box) ++
        (check4_recovery_events u (read_box_text_ocr g system_update_box) ++
          [Event.snapshot true,
            Event.ocr current_dt_box (read_box_text_ocr f2 current_dt_box)]))) =
        actions t ++ (enter_date_change_actions u ++
          (Event.press_button Button.B u 500 ::
            (retry_actions u ++ enter_date_change_actions u))) := by
      simp only [check4_recovery_events, actions_append, actions_check4_events,
        actions_retry_events, actions_enter_date_change_events]
      simp [actions, Event.is_action]
    refine ⟨rfl, ends_of_suffix _ _ (ends_of_suffix _ _ (ends_of_suffix _ _ (ends_ocr _ _))),
      hact, ?_⟩
    rw [hact]
    have hre : actions t ++ (enter_date_change_actions u ++
        (Event.press_button Button.B u 500 ::
          (retry_actions u ++ enter_date_change_actions u))) =
        (actions t ++ (enter_date_change_actions u ++
          (Event.press_button Button.B u 500 :: retry_actions u))) ++
          enter_date_change_actions u := by
      simp only [List.append_assoc, List.cons_append]
    rw [hre, getLast_enter_date_change_actions]

/-- Witness for C9: the run that aborts at the first verification of Check 1. -/
theorem abort_follows_verification_witness :
    (navigate_to_date_change_with_ocr missing_title_frame_console ⟨0, []⟩).1 = false ∧
    ends_with_verification
      (navigate_to_date_change_with_ocr missing_title_frame_console ⟨0, []⟩).2.trace :=
  ⟨congrArg Prod.fst missing_title_frame_run,
    (abort_follows_verification missing_title_frame_console 0 []).1
      (congrArg Prod.fst missing_title_frame_run)⟩

/-- C10: Checks 3 and 4 are the only code that dispatches the toggle A press and
the two scroll-downs and the A press that enter the date change menu. In every
run, either the navigation returns `false` having dispatched only the actions
of Steps 1 and 2 and of at most two recoveries, or it continues with Checks 3
and 4 from a state whose trace holds a title reading that passes Check 1 and a
sync text reading that passes Check 2. -/
theorem later_checks_follow_matches (c : Console) (n : Nat) :
    ((navigate_to_date_change_with_ocr c ⟨n, []⟩).1 = false ∧
      (actions (navigate_to_date_change_with_ocr c ⟨n, []⟩).2.trace = [] ∨
        actions (navigate_to_date_change_with_ocr c ⟨n, []⟩).2.trace =
          step_actions (100 + c.timing_variation) ∨
        actions (navigate_to_date_change_with_ocr c ⟨n, []⟩).2.trace =
          step_actions (100 + c.timing_variation) ++
            retry_head_actions (100 + c.timing_variation) ∨
        actions (navigate_to_date_change_with_ocr c ⟨n, []⟩).2.trace =
          step_actions (100 + c.timing_variation) ++
            retry_actions (100 + c.timing_variation) ∨
        actions (navigate_to_date_change_with_ocr c ⟨n, []⟩).2.trace =
          step_actions (100 + c.timing_variation) ++
            (retry_actions (100 + c.timing_variation) ++
              retry_head_actions (100 + c.timing_variation)) ∨
        actions (navigate_to_date_change_with_ocr c ⟨n, []⟩).2.trace =
          step_actions (100 + c.timing_variation) ++
            (retry_actions (100 + c.timing_variation) ++
              retry_actions (100 + c.timing_variation)))) ∨
    (∃ w : World,
      (∃ text, Event.ocr menu_title_box text ∈ w.trace ∧ title_matches text = true) ∧
      (∃ text, Event.ocr sync_text_box text ∈ w.trace ∧ sync_matches text = true) ∧
      (actions w.trace = step_actions (100 + c.timing_variation) ∨
        actions w.trace =
          step_actions (100 + c.timing_variation) ++
            retry_actions (100 + c.timing_variation) ∨
        actions w.trace =
          step_actions (100 + c.timing_variation) ++
            (retry_actions (100 + c.timing_variation) ++
              retry_actions (100 + c.timing_variation))) ∧
      navigate_to_date_change_with_ocr c ⟨n, []⟩ = check34 c (100 + c.timing_variation) w) := by
  cases h0 : c.video n with
  | none =>
    left
    rw [navigate_no_frame c n [] h0]
    refine ⟨rfl, Or.inl ?_⟩
    simp [actions, Event.is_action]
  | some f0 =>
    rw [navigate_frame c n [] f0 h0]
    obtain ⟨b1, j1, evs1, he1, hc1⟩ :=
      check1_outcome c (100 + c.timing_variation) (n + 1)
        ([] ++ start_events (100 + c.timing_variation))
    rw [he1]
    rcases hc1 with ⟨hb1, _, ha1⟩ | ⟨hb1, ⟨text1, hmem1, hm1⟩, ha1⟩
    · subst hb1
      left
      simp only [Bool.false_eq_true, if_false, List.nil_append, actions_append,
        actions_start_events, true_and]
      rcases ha1 with ha1 | ha1 | ha1
      · right; left; rw [ha1, List.append_nil]
      · right; right; left; rw [ha1]
      · right; right; right; left; rw [ha1]
    · subst hb1
      simp only [if_true]
      obtain ⟨b2, j2, evs2, he2, hc2⟩ :=
        check2_outcome c (100 + c.timing_variation) (n + 1 + j1)
          ([] ++ start_events (100 + c.timing_variation) ++ evs1)
      rw [he2]
      rcases hc2 with ⟨hb2, _, ha2⟩ | ⟨hb2, ⟨text2, hmem2, hm2⟩, ha2⟩
      · subst hb2
        left
        simp only [Bool.false_eq_true, if_false, List.nil_append, actions_append,
          actions_start_events, true_and]
        rcases ha1 with ha1 | ha1 <;> rcases ha2 with ha2 | ha2 | ha2 <;>
          simp only [ha1, ha2, List.append_nil, List.nil_append, List.append_assoc, true_or, or_true]
      · subst hb2
        right
        simp only [if_true]
        refine ⟨_, ⟨text1, ?_, hm1⟩, ⟨text2, ?_, hm2⟩, ?_, rfl⟩
        · simp only [List.mem_append]
          exact Or.inl (Or.inr hmem1)
        · simp only [List.mem_append]
          exact Or.inr hmem2
        · simp only [List.nil_append, actions_append, actions_start_events]
          rcases ha1 with ha1 | ha1 <;> rcases ha2 with ha2 | ha2 <;>
            simp only [ha1, ha2, List.append_nil, List.nil_append, List.append_assoc, true_or, or_true]

/-! ## Characters and normalization -/

theorem upper_char_cases (c : Char) (h : 65 ≤ c.toNat ∧ c.toNat ≤ 90) :
    c ∈ ['A', 'B', 'C', 'D', 'E', 'F', 'G', 'H', 'I', 'J', 'K', 'L', 'M', 'N', 'O', 'P', 'Q',
      'R', 'S', 'T', 'U', 'V', 'W', 'X', 'Y', 'Z'] := by
  have hc : c = Char.ofNat c.toNat := (Char.ofNat_toNat c).symm
  generalize c.toNat = n at h hc
  subst hc
  obtain ⟨h1, h2⟩ := h
  interval_cases n <;> decide

theorem lower_char_cases (c : Char) (h : 97 ≤ c.toNat ∧ c.toNat ≤ 122) :
    c ∈ ['a', 'b', 'c', 'd', 'e', 'f', 'g', 'h', 'i', 'j', 'k', 'l', 'm', 'n', 'o', 'p', 'q',
      'r', 's', 't', 'u', 'v', 'w', 'x', 'y', 'z'] := by
  have hc : c = Char.ofNat c.toNat := (Char.ofNat_toNat c).symm
  generalize c.toNat = n at h hc
  subst hc
  obtain ⟨h1, h2⟩ := h
  interval_cases n <;> decide

theorem toLower_of_not_upper (c : Char) (h : ¬ (65 ≤ c.toNat ∧ c.toNat ≤ 90)) :
    c.toLower = c := by
  simp only [Char.toLower, ge_iff_le, h, if_false]

theorem toUpper_of_not_lower (c : Char) (h : ¬ (97 ≤ c.toNat ∧ c.toNat ≤ 122)) :
    c.toUpper = c := by
  simp only [Char.toUpper, ge_iff_le, h, if_false]

theorem toLower_not_upper (c : Char) : ¬ (65 ≤ c.toLower.toNat ∧ c.toLower.toNat ≤ 90) := by
  by_cases h : 65 ≤ c.toNat ∧ c.toNat ≤ 90
  · have hm := upper_char_cases c h
    simp only [List.mem_cons, List.mem_singleton, List.not_mem_nil, or_false] at hm
    rcases hm with h | h | h | h | h | h | h | h | h | h | h | h | h | h | h | h | h | h | h |
      h | h | h | h | h | h | h <;> subst h <;> decide
  · rw [toLower_of_not_upper c h]
    exact h

theorem toLower_toLower (c : Char) : c.toLower.toLower = c.toLower :=
  toLower_of_not_upper _ (toLower_not_upper c)

theorem toLower_toUpper (c : Char) : c.toUpper.toLower = c.toLower := by
  by_cases h : 97 ≤ c.toNat ∧ c.toNat ≤ 122
  · have hm := lower_char_cases c h
    simp only [List.mem_cons, List.mem_singleton, List.not_mem_nil, or_false] at hm
    rcases hm with h | h | h | h | h | h | h | h | h | h | h | h | h | h | h | h | h | h | h |
      h | h | h | h | h | h | h <;> subst h <;> decide
  · rw [toUpper_of_not_lower c h]

theorem keep_toLower (c : Char) :
    (c.toLower != '\r' && c.toLower != '\n') = (c != '\r' && c != '\n') := by
  by_cases h : 65 ≤ c.toNat ∧ c.toNat ≤ 90
  · have hm := upper_char_cases c h
    simp only [List.mem_cons, List.mem_singleton, List.not_mem_nil, or_false] at hm
    rcases hm with h | h | h | h | h | h | h | h | h | h | h | h | h | h | h | h | h | h | h |
      h | h | h | h | h | h | h <;> subst h <;> decide
  · rw [toLower_of_not_upper c h]

theorem keep_toUpper (c : Char) :
    (c.toUpper != '\r' && c.toUpper != '\n') = (c != '\r' && c != '\n') := by
  by_cases h : 97 ≤ c.toNat ∧ c.toNat ≤ 122
  · have hm := lower_char_cases c h
    simp only [List.mem_cons, List.mem_singleton, List.not_mem_nil, or_false] at hm
    rcases hm with h | h | h | h | h | h | h | h | h | h | h | h | h | h | h | h | h | h | h |
      h | h | h | h | h | h | h <;> subst h <;> decide
  · rw [toUpper_of_not_lower c h]

theorem normalize_data (s : String) :
    (normalize s).data =
      (s.data.filter (fun ch => ch != '\r' && ch != '\n')).map Char.toLower := rfl

theorem filter_map_toLower (l : List Char) :
    (l.map Char.toLower).filter (fun ch => ch != '\r' && ch != '\n') =
      (l.filter (fun ch => ch != '\r' && ch != '\n')).map Char.toLower := by
  induction l with
  | nil => rfl
  | cons a l ih =>
    simp only [List.map_cons, List.filter_cons, keep_toLower]
    by_cases h : (a != '\r' && a != '\n') = true
    · simp only [h, if_true, List.map_cons, ih]
    · simp only [h, if_false, ih]
      rfl

theorem filter_map_toUpper (l : List Char) :
    (l.map Char.toUpper).filter (fun ch => ch != '\r' && ch != '\n') =
      (l.filter (fun ch => ch != '\r' && ch != '\n')).map Char.toUpper := by
  induction l with
  | nil => rfl
  | cons a l ih =>
    simp only [List.map_cons, List.filter_cons, keep_toUpper]
    by_cases h : (a != '\r' && a != '\n') = true
    · simp only [h, if_true, List.map_cons, ih]
    · simp only [h, if_false, ih]
      rfl

/-- C13: text normalization (drop every carriage return and line feed, then
lowercase every character) is idempotent. -/
theorem normalize_idempotent (s : String) : normalize (normalize s) = normalize s := by
  apply String.ext
  rw [normalize_data, normalize_data, filter_map_toLower, List.filter_filter, List.map_map]
  have hf : (s.data.filter (fun a =>
      (a != '\r' && a != '\n') && (a != '\r' && a != '\n'))) =
      s.data.filter (fun ch => ch != '\r' && ch != '\n') := by
    congr 1
    funext a
    exact Bool.and_self _
  rw [hf]
  apply List.map_congr_left
  intro a _
  exact toLower_toLower a

theorem normalize_eq_of_data (x y : String)
    (h : (x.data.filter (fun ch => ch != '\r' && ch != '\n')).map Char.toLower =
      (y.data.filter (fun ch => ch != '\r' && ch != '\n')).map Char.toLower) :
    normalize x = normalize y := by
  apply String.ext
  rw [normalize_data, normalize_data, h]

theorem normalize_map_toUpper (s : String) :
    normalize ⟨s.data.map Char.toUpper⟩ = normalize s := by
  apply normalize_eq_of_data
  simp only [filter_map_toUpper, List.map_map]
  apply List.map_congr_left
  intro a _
  exact toLower_toUpper a

theorem normalize_map_toLower (s : String) :
    normalize ⟨s.data.map Char.toLower⟩ = normalize s := by
  apply normalize_eq_of_data
  simp only [filter_map_toLower, List.map_map]
  apply List.map_congr_left
  intro a _
  exact toLower_toLower a

theorem normalize_insert_break (a b : List Char) (c : Char) (h : c = '\r' ∨ c = '\n') :
    normalize ⟨a ++ c :: b⟩ = normalize ⟨a ++ b⟩ := by
  apply normalize_eq_of_data
  rcases h with h | h <;> subst h <;>
    simp [List.filter_append, List.filter_cons]

theorem normalize_change_case (a b : List Char) (c d : Char) (h : d.toLower = c.toLower) :
    normalize ⟨a ++ d :: b⟩ = normalize ⟨a ++ c :: b⟩ := by
  apply normalize_eq_of_data
  have hk : (d != '\r' && d != '\n') = (c != '\r' && c != '\n') := by
    rw [← keep_toLower d, ← keep_toLower c, h]
  simp only [List.filter_append, List.filter_cons, List.map_append, hk]
  by_cases hc : (c != '\r' && c != '\n') = true
  · simp only [hc, if_true, List.map_cons, h]
  · simp only [hc, Bool.false_eq_true, if_false]

/-- C14: the words of the text checks are matched case-insensitively and after
stripping line breaks. The normalized text holds no carriage return, no line
feed and no upper-case ASCII letter; inserting or removing a line break
anywhere in the raw text, changing the case of any one character, or putting
the whole raw text in upper or lower case leaves the normalized text, hence
the outcome of every text check, unchanged. -/
theorem normalization_ignores_case_and_breaks (s : String) (a b : List Char) (c : Char) :
    ('\r' ∉ (normalize s).data ∧ '\n' ∉ (normalize s).data ∧
      ∀ ch ∈ (normalize s).data, ¬ (65 ≤ ch.toNat ∧ ch.toNat ≤ 90)) ∧
    (normalize ⟨a ++ '\r' :: b⟩ = normalize ⟨a ++ b⟩ ∧
      normalize ⟨a ++ '\n' :: b⟩ = normalize ⟨a ++ b⟩ ∧
      normalize ⟨a ++ c.toUpper :: b⟩ = normalize ⟨a ++ c :: b⟩ ∧
      normalize ⟨a ++ c.toLower :: b⟩ = normalize ⟨a ++ c :: b⟩ ∧
      normalize ⟨s.data.map Char.toUpper⟩ = normalize s ∧
      normalize ⟨s.data.map Char.toLower⟩ = normalize s) ∧
    (∀ check ∈ [title_matches, sync_matches, final_matches, sentinel_matches],
      check (normalize ⟨a ++ '\r' :: b⟩) = check (normalize ⟨a ++ b⟩) ∧
      check (normalize ⟨a ++ '\n' :: b⟩) = check (normalize ⟨a ++ b⟩) ∧
      check (normalize ⟨a ++ c.toUpper :: b⟩) = check (normalize ⟨a ++ c :: b⟩) ∧
      check (normalize ⟨a ++ c.toLower :: b⟩) = check (normalize ⟨a ++ c :: b⟩) ∧
      check (normalize ⟨s.data.map Char.toUpper⟩) = check (normalize s) ∧
      check (normalize ⟨s.data.map Char.toLower⟩) = check (normalize s)) ∧
    title_matches (normalize "DATE and\r\nTiMe") = true ∧
    final_matches (normalize "Current Date and Time\nTime ZONE") = false := by
  have h1 := normalize_insert_break a b '\r' (Or.inl rfl)
  have h2 := normalize_insert_break a b '\n' (Or.inr rfl)
  have h3 := normalize_change_case a b c c.toUpper (toLower_toUpper c)
  have h4 := normalize_change_case a b c c.toLower (toLower_toLower c)
  have h5 := normalize_map_toUpper s
  have h6 := normalize_map_toLower s
  refine ⟨⟨?_, ?_, ?_⟩, ⟨h1, h2, h3, h4, h5, h6⟩, ?_, by decide, by decide⟩
  · intro hmem
    rw [normalize_data, ← filter_map_toLower] at hmem
    have := (List.mem_filter.mp hmem).2
    simp at this
  · intro hmem
    rw [normalize_data, ← filter_map_toLower] at hmem
    have := (List.mem_filter.mp hmem).2
    simp at this
  · intro ch hmem
    rw [normalize_data] at hmem
    obtain ⟨x, _, hx⟩ := List.mem_map.mp hmem
    rw [← hx]
    exact toLower_not_upper x
  · intro check _
    rw [h1, h2, h3, h4, h5, h6]
    exact ⟨rfl, rfl, rfl, rfl, rfl, rfl⟩

/-! ## The filter loop of `read_box_text_ocr` -/

theorem foldl_filter_step (region : ImageViewRGB32) (bank : List (Nat × Nat))
    (acc : String × Nat) :
    bank.foldl (filter_step region) acc =
      (surviving_texts region bank).foldl keep_longer acc := by
  induction bank generalizing acc with
  | nil => rfl
  | cons flt bank ih =>
    rw [List.foldl_cons, ih]
    by_cases hs : filter_skipped (region.text_pixels flt.1 flt.2) region.width
        region.height = true
    · have hstep : filter_step region acc flt = acc := by
        simp only [filter_step, hs, if_true]
      have htexts : surviving_texts region (flt :: bank) = surviving_texts region bank := by
        simp only [surviving_texts, survives, List.filter_cons, hs, Bool.not_true,
          Bool.false_eq_true, if_false]
      rw [hstep, htexts]
    · have hs2 : filter_skipped (region.text_pixels flt.1 flt.2) region.width
          region.height = false := by
        simpa using hs
      have hstep : filter_step region acc flt =
          keep_longer acc (region.ocr_filtered flt.1 flt.2) := by
        simp only [filter_step, keep_longer, hs2, Bool.false_eq_true, if_false]
      have htexts : surviving_texts region (flt :: bank) =
          region.ocr_filtered flt.1 flt.2 :: surviving_texts region bank := by
        simp only [surviving_texts, survives, List.filter_cons, hs2, Bool.not_false, if_true,
          List.map_cons]
      rw [hstep, htexts, List.foldl_cons]

/-- The result of the loop on a list of texts: either nothing was longer than
the initial state, or the result is the first text of maximal length. -/
theorem foldl_keep_longer (texts : List String) (acc : String × Nat) :
    (texts.foldl keep_longer acc = acc ∧ ∀ x ∈ texts, x.length ≤ acc.2) ∨
    (∃ pre post, texts = pre ++ (texts.foldl keep_longer acc).1 :: post ∧
      (texts.foldl keep_longer acc).2 = (texts.foldl keep_longer acc).1.length ∧
      acc.2 < (texts.foldl keep_longer acc).1.length ∧
      (∀ x ∈ pre, x.length < (texts.foldl keep_longer acc).1.length) ∧
      (∀ x ∈ post, x.length ≤ (texts.foldl keep_longer acc).1.length)) := by
  induction texts generalizing acc with
  | nil => exact Or.inl ⟨rfl, fun x hx => absurd hx (List.not_mem_nil x)⟩
  | cons x xs ih =>
    rw [List.foldl_cons]
    by_cases hx : x.length > acc.2
    · have hk : keep_longer acc x = (x, x.length) := by
        simp only [keep_longer, hx, if_true]
      rw [hk]
      rcases ih (x, x.length) with ⟨he, hall⟩ | ⟨pre, post, he, hlen, hlt, hpre, hpost⟩
      · right
        rw [he]
        exact ⟨[], xs, rfl, rfl, hx, fun y hy => absurd hy (List.not_mem_nil y), hall⟩
      · right
        refine ⟨x :: pre, post, ?_, hlen, lt_trans hx hlt, ?_, hpost⟩
        · rw [List.cons_append, ← he]
        · intro y hy
          rcases List.mem_cons.mp hy with hy | hy
          · rw [hy]; exact hlt
          · exact hpre y hy
    · have hk : keep_longer acc x = acc := by
        simp only [keep_longer, hx, if_false]
      rw [hk]
      have hx2 : x.length ≤ acc.2 := Nat.le_of_not_gt hx
      rcases ih acc with ⟨he, hall⟩ | ⟨pre, post, he, hlen, hlt, hpre, hpost⟩
      · left
        refine ⟨he, ?_⟩
        intro y hy
        rcases List.mem_cons.mp hy with hy | hy
        · rw [hy]; exact hx2
        · exact hall y hy
      · right
        refine ⟨x :: pre, post, ?_, hlen, hlt, ?_, hpost⟩
        · rw [List.cons_append, ← he]
        · intro y hy
          rcases List.mem_cons.mp hy with hy | hy
          · rw [hy]; exact lt_of_le_of_lt hx2 hlt
          · exact hpre y hy

theorem string_eq_empty_of_length (s : String) (h : s.length ≤ 0) : s = "" := by
  apply String.ext
  have : s.data.length = 0 := Nat.le_zero.mp h
  exact List.length_eq_zero.mp this

theorem isEmpty_iff_length (s : String) : s.isEmpty = true ↔ s.length = 0 := by
  constructor
  · intro h
    have : s = "" := (String.isEmpty_iff s).mp h
    rw [this]
    rfl
  · intro h
    have : s = "" := string_eq_empty_of_length s (Nat.le_of_eq h)
    rw [this]
    rfl

/-- The loop on a bank keeps the first text of maximal length among the
surviving ones. -/
theorem loop_keeps_first_longest (region : ImageViewRGB32) (bank : List (Nat × Nat))
    (h : surviving_texts region bank ≠ []) :
    ∃ pre post,
      surviving_texts region bank =
        pre ++ (bank.foldl (filter_step region) ("", 0)).1 :: post ∧
      (∀ x ∈ pre, x.length < (bank.foldl (filter_step region) ("", 0)).1.length) ∧
      (∀ x ∈ post, x.length ≤ (bank.foldl (filter_step region) ("", 0)).1.length) := by
  rw [foldl_filter_step]
  rcases foldl_keep_longer (surviving_texts region bank) ("", 0) with
    ⟨he, hall⟩ | ⟨pre, post, he, _, _, hpre, hpost⟩
  · rw [he]
    cases hts : surviving_texts region bank with
    | nil => exact absurd hts h
    | cons x xs =>
      rw [hts] at hall
      have hx : x = "" := string_eq_empty_of_length x (hall x (List.mem_cons_self x xs))
      refine ⟨[], xs, by rw [hx]; rfl, fun y hy => absurd hy (List.not_mem_nil y), ?_⟩
      intro y hy
      exact hall y (List.mem_cons_of_mem x hy)
  · exact ⟨pre, post, he, hpre, hpost⟩

theorem surviving_texts_eq_nil (region : ImageViewRGB32) (bank : List (Nat × Nat))
    (h : ∀ flt ∈ bank,
      filter_skipped (region.text_pixels flt.1 flt.2) region.width region.height = true) :
    surviving_texts region bank = [] := by
  unfold surviving_texts
  rw [List.map_eq_nil_iff, List.filter_eq_nil_iff]
  intro flt hmem
  simp only [survives, h flt hmem, Bool.not_true, Bool.false_eq_true, not_false_eq_true]

theorem best_text_of_no_survivor (region : ImageViewRGB32)
    (h : ∀ flt ∈ filters,
      filter_skipped (region.text_pixels flt.1 flt.2) region.width region.height = true) :
    best_text region = region.ocr_raw := by
  unfold best_text
  rw [foldl_filter_step, surviving_texts_eq_nil region filters h]
  rfl

theorem best_text_of_nonempty (region : ImageViewRGB32)
    (h : ∃ x ∈ surviving_texts region filters, x ≠ "") :
    best_text region = (filters.foldl (filter_step region) ("", 0)).1 := by
  obtain ⟨x, hx, hne⟩ := h
  have hnil : surviving_texts region filters ≠ [] := List.ne_nil_of_mem hx
  obtain ⟨pre, post, he, hpre, hpost⟩ := loop_keeps_first_longest region filters hnil
  have hxlen : 0 < x.length := by
    rcases Nat.eq_zero_or_pos x.length with h0 | h0
    · exact absurd (string_eq_empty_of_length x (Nat.le_of_eq h0)) hne
    · exact h0
  have hlen : 0 < (filters.foldl (filter_step region) ("", 0)).1.length := by
    rw [he] at hx
    rcases List.mem_append.mp hx with hx | hx
    · exact lt_trans hxlen (hpre x hx)
    · rcases List.mem_cons.mp hx with hx | hx
      · rw [← hx]; exact hxlen
      · exact lt_of_lt_of_le hxlen (hpost x hx)
  have hemp : (filters.foldl (filter_step region) ("", 0)).1.isEmpty = false := by
    cases hb : (filters.foldl (filter_step region) ("", 0)).1.isEmpty with
    | false => rfl
    | true =>
      have := (isEmpty_iff_length _).mp hb
      omega
  unfold best_text
  simp only [hemp, Bool.false_eq_true, if_false]

/-! ## Claims on `read_box_text_ocr` -/

/-- C15: when some filter survives the plausibility window, the text kept by
the loop is a text of a surviving filter, no surviving text is longer, and
every surviving text that comes before it in the bank is strictly shorter, so
that among texts of the same maximal length the first one is kept. When some
surviving text is not empty, the kept text is the one that goes on to
normalization. -/
theorem kept_text_is_first_longest (region : ImageViewRGB32)
    (h : surviving_texts region filters ≠ []) :
    (∃ pre post,
      surviving_texts region filters =
        pre ++ (filters.foldl (filter_step region) ("", 0)).1 :: post ∧
      (∀ x ∈ pre, x.length < (filters.foldl (filter_step region) ("", 0)).1.length) ∧
      (∀ x ∈ post, x.length ≤ (filters.foldl (filter_step region) ("", 0)).1.length)) ∧
    ((∃ x ∈ surviving_texts region filters, x ≠ "") →
      best_text region = (filters.foldl (filter_step region) ("", 0)).1) :=
  ⟨loop_keeps_first_longest region filters h, best_text_of_nonempty region⟩

/-- C16: when every filter of the bank is discarded by the plausibility window,
the text returned is the normalization of the text recognised on the
unfiltered region. -/
theorem no_survivor_falls_back_to_raw (snapshot : VideoSnapshot) (box : ImageFloatBox)
    (h : ∀ flt ∈ filters,
      filter_skipped ((snapshot.extract_box_reference box).text_pixels flt.1 flt.2)
        (snapshot.extract_box_reference box).width
        (snapshot.extract_box_reference box).height = true) :
    read_box_text_ocr snapshot box =
      normalize (snapshot.extract_box_reference box).ocr_raw := by
  unfold read_box_text_ocr
  rw [best_text_of_no_survivor _ h]

/-- Witness for C16: a frame on which every filter counts all the pixels. -/
theorem no_survivor_falls_back_to_raw_witness :
    (∀ flt ∈ filters,
      filter_skipped ((zone_frame.extract_box_reference menu_title_box).text_pixels flt.1 flt.2)
        (zone_frame.extract_box_reference menu_title_box).width
        (zone_frame.extract_box_reference menu_title_box).height = true) ∧
    read_box_text_ocr zone_frame menu_title_box =
      normalize (zone_frame.extract_box_reference menu_title_box).ocr_raw :=
  ⟨fun _ _ => filter_skipped_full,
    no_survivor_falls_back_to_raw zone_frame menu_title_box (fun _ _ => filter_skipped_full)⟩

theorem filter_kept_tenth : filter_skipped 9000 100 100 = false := by
  norm_num [filter_skipped]

theorem surviving_texts_four_readings :
    surviving_texts four_readings_region filters = ["Date", "Time", "Zone", "Date and Time"] := by
  have hall : filters.filter (survives four_readings_region) = filters := by
    rw [List.filter_eq_self]
    intro flt _
    simp only [survives, four_readings_region, filter_kept_tenth, Bool.not_false]
  unfold surviving_texts
  rw [hall]
  decide

/-- Witness for C15: four surviving filters reading "Date", "Time", "Zone" and
"Date and Time". -/
theorem kept_text_is_first_longest_witness :
    surviving_texts four_readings_region filters ≠ [] ∧
    ((∃ x ∈ surviving_texts four_readings_region filters, x ≠ "") →
      best_text four_readings_region =
        (filters.foldl (filter_step four_readings_region) ("", 0)).1) :=
  ⟨by rw [surviving_texts_four_readings]; decide,
    (kept_text_is_first_longest four_readings_region
      (by rw [surviving_texts_four_readings]; decide)).2⟩

theorem best_text_four_readings : best_text four_readings_region = "Date and Time" := by
  have h := foldl_filter_step four_readings_region filters ("", 0)
  rw [surviving_texts_four_readings] at h
  unfold best_text
  rw [h]
  decide

theorem surviving_texts_congr (r r2 : ImageViewRGB32) (bank : List (Nat × Nat))
    (hw : r.width = r2.width) (hh : r.height = r2.height)
    (hp : r.text_pixels = r2.text_pixels)
    (ht : ∀ flt ∈ bank, survives r flt = true →
      r.ocr_filtered flt.1 flt.2 = r2.ocr_filtered flt.1 flt.2) :
    surviving_texts r bank = surviving_texts r2 bank := by
  have hs : survives r2 = survives r := by
    funext flt
    simp only [survives, hw, hh, hp]
  unfold surviving_texts
  rw [hs]
  apply List.map_congr_left
  intro flt hmem
  obtain ⟨hb, hsurv⟩ := List.mem_filter.mp hmem
  exact ht flt hb hsurv

theorem best_text_mem (region : ImageViewRGB32) :
    best_text region = region.ocr_raw ∨ best_text region ∈ surviving_texts region filters := by
  by_cases hnil : surviving_texts region filters = []
  · left
    unfold best_text
    rw [foldl_filter_step, hnil]
    rfl
  · obtain ⟨pre, post, he, _, _⟩ := loop_keeps_first_longest region filters hnil
    unfold best_text
    by_cases hemp : (filters.foldl (filter_step region) ("", 0)).1.isEmpty = true
    · left
      simp only [hemp, if_true]
    · right
      simp only [hemp, if_false]
      have hm : (filters.foldl (filter_step region) ("", 0)).1 ∈
          pre ++ (filters.foldl (filter_step region) ("", 0)).1 :: post := by
        simp
      rw [← he] at hm
      exact hm

/-- C20: on a region of `w * h > 0` pixels, a filter that leaves `p` pixels is
discarded exactly when the ratio `1 - p / (w * h)` is below 0.02 or above
0.50, that is, it is kept exactly when `w * h ≤ 2 * p` and
`50 * p ≤ 49 * (w * h)`; a ratio of exactly 0.02 or exactly 0.50 is kept. The
text of a discarded filter has no influence on the text kept: the result is
the raw text or a surviving text, and two regions that differ only in the
texts of discarded filters give the same result. -/
theorem plausibility_window (p w h : Nat) (hwh : 0 < w * h) :
    (filter_skipped p w h = true ↔
      (1 - (p : ℚ) / ((w * h : Nat) : ℚ) < 2 / 100 ∨
        1 - (p : ℚ) / ((w * h : Nat) : ℚ) > 50 / 100)) ∧
    (filter_skipped p w h = false ↔ w * h ≤ 2 * p ∧ 50 * p ≤ 49 * (w * h)) ∧
    (1 - (p : ℚ) / ((w * h : Nat) : ℚ) = 2 / 100 → filter_skipped p w h = false) ∧
    (1 - (p : ℚ) / ((w * h : Nat) : ℚ) = 50 / 100 → filter_skipped p w h = false) ∧
    (∀ region : ImageViewRGB32,
      best_text region = region.ocr_raw ∨
        best_text region ∈ surviving_texts region filters) ∧
    (∀ r r2 : ImageViewRGB32, r.width = r2.width → r.height = r2.height →
      r.text_pixels = r2.text_pixels → r.ocr_raw = r2.ocr_raw →
      (∀ flt ∈ filters,
        filter_skipped (r.text_pixels flt.1 flt.2) r.width r.height = false →
        r.ocr_filtered flt.1 flt.2 = r2.ocr_filtered flt.1 flt.2) →
      best_text r = best_text r2) := by
  have hne : w * h ≠ 0 := Nat.pos_iff_ne_zero.mp hwh
  have hq : (0 : ℚ) < ((w * h : Nat) : ℚ) := by exact_mod_cast hwh
  have hdef : filter_skipped p w h = true ↔
      (1 - (p : ℚ) / ((w * h : Nat) : ℚ) < 2 / 100 ∨
        1 - (p : ℚ) / ((w * h : Nat) : ℚ) > 50 / 100) := by
    simp only [filter_skipped, hne, if_false, Bool.or_eq_true, decide_eq_true_eq]
  have hlow : (1 - (p : ℚ) / ((w * h : Nat) : ℚ) < 2 / 100) ↔ 49 * (w * h) < 50 * p := by
    rw [sub_lt_comm, lt_div_iff₀ hq]
    constructor
    · intro hx
      have : (49 : ℚ) * ((w * h : Nat) : ℚ) < 50 * (p : ℚ) := by linarith
      exact_mod_cast this
    · intro hx
      have : (49 : ℚ) * ((w * h : Nat) : ℚ) < 50 * (p : ℚ) := by exact_mod_cast hx
      linarith
  have hhigh : (1 - (p : ℚ) / ((w * h : Nat) : ℚ) > 50 / 100) ↔ 2 * p < w * h := by
    rw [gt_iff_lt, lt_sub_comm, div_lt_iff₀ hq]
    constructor
    · intro hx
      have : (2 : ℚ) * (p : ℚ) < ((w * h : Nat) : ℚ) := by linarith
      exact_mod_cast this
    · intro hx
      have : (2 : ℚ) * (p : ℚ) < ((w * h : Nat) : ℚ) := by exact_mod_cast hx
      linarith
  have hkept : filter_skipped p w h = false ↔ w * h ≤ 2 * p ∧ 50 * p ≤ 49 * (w * h) := by
    rw [← Bool.not_eq_true, hdef, hlow, hhigh]
    omega
  refine ⟨hdef, hkept, ?_, ?_, best_text_mem, ?_⟩
  · intro he
    rw [← Bool.not_eq_true, hdef, he]
    norm_num
  · intro he
    rw [← Bool.not_eq_true, hdef, he]
    norm_num
  · intro r r2 hw hh hp hraw ht
    have hts : surviving_texts r filters = surviving_texts r2 filters := by
      apply surviving_texts_congr r r2 filters hw hh hp
      intro flt hmem hs
      apply ht flt hmem
      simpa [survives] using hs
    unfold best_text
    rw [foldl_filter_step, foldl_filter_step, hts, hraw]

/-- Witness for C20: 98 of 100 pixels give a ratio of exactly 0.02, which is
kept; 99 of 100 give 0.01, which is discarded. -/
theorem plausibility_window_witness :
    0 < 10 * 10 ∧ filter_skipped 98 10 10 = false ∧ filter_skipped 50 10 10 = false ∧
    filter_skipped 99 10 10 = true ∧ filter_skipped 49 10 10 = true :=
  ⟨by decide,
    (plausibility_window 98 10 10 (by decide)).2.1.mpr (by decide),
    (plausibility_window 50 10 10 (by decide)).2.1.mpr (by decide),
    by
      have h := (plausibility_window 99 10 10 (by decide)).2.1
      cases hb : filter_skipped 99 10 10 with
      | true => rfl
      | false => exact absurd (h.mp hb) (by decide),
    by
      have h := (plausibility_window 49 10 10 (by decide)).2.1
      cases hb : filter_skipped 49 10 10 with
      | true => rfl
      | false => exact absurd (h.mp hb) (by decide)⟩

/-! ## Recoveries per check -/

theorem scroll_ups_append (a b : List Event) :
    scroll_ups (a ++ b) = scroll_ups a + scroll_ups b := by
  simp only [scroll_ups, List.filter_append, List.length_append]

theorem scroll_ups_retry_head_events (u : Nat) : scroll_ups (retry_head_events u) = 18 := by
  simp [scroll_ups, retry_head_events, is_scroll_up, List.filter_append, List.filter_replicate]

theorem scroll_ups_forward_events (u : Nat) : scroll_ups (forward_events u) = 0 := by
  simp [scroll_ups, forward_events, is_scroll_up]

theorem scroll_ups_retry_events (u : Nat) (text : String) :
    scroll_ups (retry_events u text) = 18 := by
  simp only [retry_events, scroll_ups_append, scroll_ups_retry_head_events,
    scroll_ups_forward_events]
  simp [scroll_ups, is_scroll_up]

theorem scroll_ups_enter_date_change_events (u : Nat) :
    scroll_ups (enter_date_change_events u) = 0 := by
  simp [scroll_ups, enter_date_change_events, is_scroll_up]

theorem scroll_ups_start_events (u : Nat) : scroll_ups (start_events u) = 0 := by
  simp [scroll_ups, start_events, step1_events, forward_events, is_scroll_up]

theorem scroll_ups_check1_events (text : String) : scroll_ups (check1_events text) = 0 := by
  simp [scroll_ups, check1_events, is_scroll_up]

theorem scroll_ups_check2_events (text : String) : scroll_ups (check2_events text) = 0 := by
  simp [scroll_ups, check2_events, is_scroll_up]

theorem scroll_ups_recheck2_events (text : String) :
    scroll_ups (recheck2_events text) = 0 := by
  simp [scroll_ups, recheck2_events, is_scroll_up]

theorem scroll_ups_check3_events (u : Nat) (average : FloatPixel) :
    scroll_ups (check3_events u average) = 0 := by
  cases h : toggle_appears_on average <;>
    simp [scroll_ups, check3_events, is_scroll_up, h]

theorem scroll_ups_check4_events (u : Nat) (text : String) :
    scroll_ups (check4_events u text) = 0 := by
  simp only [check4_events, scroll_ups_append, scroll_ups_enter_date_change_events]
  simp [scroll_ups, is_scroll_up]

theorem scroll_ups_check4_recovery_events (u : Nat) (text : String) :
    scroll_ups (check4_recovery_events u text) = 18 := by
  simp only [check4_recovery_events, scroll_ups_append, scroll_ups_retry_events,
    scroll_ups_enter_date_change_events]
  simp [scroll_ups, is_scroll_up]

theorem scroll_ups_wait_no_frame :
    scroll_ups [Event.wait_for_all_requests, Event.wait_for 500, Event.snapshot false] = 0 := by
  simp [scroll_ups, is_scroll_up]

theorem scroll_ups_no_frame : scroll_ups [Event.snapshot false] = 0 := by
  simp [scroll_ups, is_scroll_up]

theorem scroll_ups_ocr (box : ImageFloatBox) (text : String) :
    scroll_ups [Event.snapshot true, Event.ocr box text] = 0 := by
  simp [scroll_ups, is_scroll_up]

theorem scroll_ups_back (u : Nat) :
    scroll_ups [Event.press_button Button.B u 500, Event.wait_for_all_requests] = 0 := by
  simp [scroll_ups, is_scroll_up]

/-- Check 1 enters the recovery routine at most once, and after a recovery its
trace ends with a verification. -/
theorem check1_recoveries (c : Console) (u k : Nat) (t : List Event) :
    ∃ b j evs r, check1_menu_title c u ⟨k, t⟩ = (b, ⟨k + j, t ++ evs⟩) ∧ r ≤ 1 ∧ scroll_ups evs = 18 * r ∧
      (r = 1 → ends_with_verification evs) := by
  cases h : c.video k with
  | none =>
    rw [check1_no_frame c u k t h]
    exact ⟨_, 1, _, 0, rfl, by omega, scroll_ups_wait_no_frame, fun h => absurd h (by omega)⟩
  | some f =>
    cases hm : title_matches (read_box_text_ocr f menu_title_box) with
    | true =>
      rw [check1_match c u k t f h hm]
      exact ⟨_, 1, _, 0, rfl, by omega, scroll_ups_check1_events _, fun h => absurd h (by omega)⟩
    | false =>
      cases h1 : c.video (k + 1) with
      | none =>
        rw [check1_retry_no_frame c u k t f h hm h1]
        refine ⟨_, 2, _, 1, rfl, le_refl _, ?_, fun _ =>
          ends_of_suffix _ _ (ends_of_suffix _ _ ends_no_frame)⟩
        simp only [scroll_ups_append, scroll_ups_check1_events, scroll_ups_retry_head_events,
          scroll_ups_no_frame]
      | some g =>
        cases h2 : c.video (k + 2) with
        | none =>
          rw [check1_recheck_no_frame c u k t f g h hm h1 h2]
          refine ⟨_, 3, _, 1, rfl, le_refl _, ?_, fun _ =>
            ends_of_suffix _ _ (ends_of_suffix _ _ ends_wait_no_frame)⟩
          simp only [scroll_ups_append, scroll_ups_check1_events, scroll_ups_retry_events,
            scroll_ups_wait_no_frame]
        | some f2 =>
          rw [check1_recheck c u k t f g f2 h hm h1 h2]
          refine ⟨_, 3, _, 1, rfl, le_refl _, ?_, fun _ =>
            ends_of_suffix _ _ (ends_of_suffix _ _ (ends_check1_events _))⟩
          simp only [scroll_ups_append, scroll_ups_check1_events, scroll_ups_retry_events]

/-- Check 2 enters the recovery routine at most once, and after a recovery its
trace ends with a verification. -/
theorem check2_recoveries (c : Console) (u k : Nat) (t : List Event) :
    ∃ b j evs r, check2_sync_text c u ⟨k, t⟩ = (b, ⟨k + j, t ++ evs⟩) ∧ r ≤ 1 ∧ scroll_ups evs = 18 * r ∧
      (r = 1 → ends_with_verification evs) := by
  cases h : c.video k with
  | none =>
    rw [check2_no_frame c u k t h]
    exact ⟨_, 1, _, 0, rfl, by omega, scroll_ups_no_frame, fun h => absurd h (by omega)⟩
  | some f =>
    cases hm : sync_matches (read_box_text_ocr f sync_text_box) with
    | true =>
      rw [check2_match c u k t f h hm]
      exact ⟨_, 1, _, 0, rfl, by omega, scroll_ups_check2_events _, fun h => absurd h (by omega)⟩
    | false =>
      cases h1 : c.video (k + 1) with
      | none =>
        rw [check2_retry_no_frame c u k t f h hm h1]
        refine ⟨_, 2, _, 1, rfl, le_refl _, ?_, fun _ =>
          ends_of_suffix _ _ (ends_of_suffix _ _ ends_no_frame)⟩
        simp only [scroll_ups_append, scroll_ups_check2_events, scroll_ups_retry_head_events,
          scroll_ups_no_frame]
      | some g =>
        cases h2 : c.video (k + 2) with
        | none =>
          rw [check2_recheck_no_frame c u k t f g h hm h1 h2]
          refine ⟨_, 3, _, 1, rfl, le_refl _, ?_, fun _ =>
            ends_of_suffix _ _ (ends_of_suffix _ _ ends_wait_no_frame)⟩
          simp only [scroll_ups_append, scroll_ups_check2_events, scroll_ups_retry_events,
            scroll_ups_wait_no_frame]
        | some f2 =>
          rw [check2_recheck c u k t f g f2 h hm h1 h2]
          refine ⟨_, 3, _, 1, rfl, le_refl _, ?_, fun _ =>
            ends_of_suffix _ _ (ends_of_suffix _ _ (ends_recheck2_events _))⟩
          simp only [scroll_ups_append, scroll_ups_check2_events, scroll_ups_retry_events,
            scroll_ups_recheck2_events]

/-- Check 4 enters the recovery routine at most once, and after a recovery its
trace ends with a verification. -/
theorem check4_recoveries (c : Console) (u k : Nat) (t : List Event) :
    ∃ b j evs r, check4_date_change c u ⟨k, t⟩ = (b, ⟨k + j, t ++ evs⟩) ∧ r ≤ 1 ∧ scroll_ups evs = 18 * r ∧
      (r = 1 → ends_with_verification evs) := by
  cases h : c.video k with
  | none =>
    rw [check4_no_frame c u k t h]
    refine ⟨_, 1, _, 0, rfl, by omega, ?_, fun h => absurd h (by omega)⟩
    simp only [scroll_ups_append, scroll_ups_enter_date_change_events, scroll_ups_no_frame]
  | some f =>
    cases hm : final_matches (read_box_text_ocr f current_dt_box) with
    | true =>
      rw [check4_match c u k t f h hm]
      exact ⟨_, 1, _, 0, rfl, by omega, scroll_ups_check4_events _ _,
        fun h => absurd h (by omega)⟩
    | false =>
      cases h1 : c.video (k + 1) with
      | none =>
        rw [check4_retry_no_frame c u k t f h hm h1]
        refine ⟨_, 2, _, 1, rfl, le_refl _, ?_, fun _ =>
          ends_of_suffix _ _ (ends_of_suffix _ _ (ends_of_suffix _ _ ends_no_frame))⟩
        simp only [scroll_ups_append, scroll_ups_check4_events, scroll_ups_retry_head_events,
          scroll_ups_no_frame, scroll_ups_back]
      | some g =>
        cases h2 : c.video (k + 2) with
        | none =>
          rw [check4_recheck_no_frame c u k t f g h hm h1 h2]
          refine ⟨_, 3, _, 1, rfl, le_refl _, ?_, fun _ =>
            ends_of_suffix _ _ (ends_of_suffix _ _ ends_no_frame)⟩
          simp only [scroll_ups_append, scroll_ups_check4_events,
            scroll_ups_check4_recovery_events, scroll_ups_no_frame]
        | some f2 =>
          rw [check4_recheck c u k t f g f2 h hm h1 h2]
          refine ⟨_, 3, _, 1, rfl, le_refl _, ?_, fun _ =>
            ends_of_suffix _ _ (ends_of_suffix _ _ (ends_ocr _ _))⟩
          simp only [scroll_ups_append, scroll_ups_check4_events,
            scroll_ups_check4_recovery_events, scroll_ups_ocr]

/-- The whole navigation enters the recovery routine at most three times. -/
theorem navigate_recoveries (c : Console) (k : Nat) (t : List Event) :
    ∃ r, r ≤ 3 ∧
      scroll_ups (navigate_to_date_change_with_ocr c ⟨k, t⟩).2.trace =
        scroll_ups t + 18 * r := by
  cases h0 : c.video k with
  | none =>
    rw [navigate_no_frame c k t h0]
    refine ⟨0, by omega, ?_⟩
    simp [scroll_ups_append, scroll_ups, is_scroll_up]
  | some f0 =>
    rw [navigate_frame c k t f0 h0]
    obtain ⟨b1, j1, evs1, r1, he1, hr1, hs1, _⟩ :=
      check1_recoveries c (100 + c.timing_variation) (k + 1)
        (t ++ start_events (100 + c.timing_variation))
    rw [he1]
    cases b1 with
    | false =>
      refine ⟨r1, by omega, ?_⟩
      simp only [Bool.false_eq_true, if_false, scroll_ups_append, scroll_ups_start_events, hs1]
      omega
    | true =>
      simp only [if_true]
      obtain ⟨b2, j2, evs2, r2, he2, hr2, hs2, _⟩ :=
        check2_recoveries c (100 + c.timing_variation) (k + 1 + j1)
          (t ++ start_events (100 + c.timing_variation) ++ evs1)
      rw [he2]
      cases b2 with
      | false =>
        refine ⟨r1 + r2, by omega, ?_⟩
        simp only [Bool.false_eq_true, if_false, scroll_ups_append, scroll_ups_start_events,
          hs1, hs2]
        omega
      | true =>
        simp only [if_true]
        cases h3 : c.video (k + 1 + j1 + j2) with
        | none =>
          rw [check34_no_frame c _ _ _ h3]
          refine ⟨r1 + r2, by omega, ?_⟩
          simp only [scroll_ups_append, scroll_ups_start_events, hs1, hs2, scroll_ups_no_frame]
          omega
        | some f3 =>
          rw [check34_frame c _ _ _ f3 h3]
          obtain ⟨b4, j4, evs4, r4, he4, hr4, hs4, _⟩ :=
            check4_recoveries c (100 + c.timing_variation) (k + 1 + j1 + j2 + 1)
              (t ++ start_events (100 + c.timing_variation) ++ evs1 ++ evs2 ++
                check3_events (100 + c.timing_variation)
                  (f3.extract_box_reference toggle_box).average)
          rw [he4]
          refine ⟨r1 + r2 + r4, by omega, ?_⟩
          simp only [scroll_ups_append, scroll_ups_start_events, hs1, hs2, hs4,
            scroll_ups_check3_events]
          omega

/-! ## Claim on the retry budget -/

/-- C11: each call of the recovery routine dispatches exactly 18 scroll-ups and
nothing else dispatches any, so the scroll-ups count the recoveries. Each of
Checks 1, 2 and 4 runs `r ≤ 1` recoveries, so its budget of one recovery only
decreases and never goes below zero; after a recovery the trace of the check
ends with a verification, so nothing else is started; Check 3 runs none and
the whole navigation at most three. When the verification that follows the
recovery fails again, the check has run exactly one recovery, and Checks 1 and
2 (and Check 4 when the text does not match) return `false`. -/
theorem retry_budget_is_one (c : Console) (u k : Nat) (t : List Event) :
    scroll_ups (retry_navigate_to_date_time_internal c u ⟨k, t⟩).2.trace =
      scroll_ups t + 18 ∧
    (∃ r, r ≤ 1 ∧ scroll_ups (check1_menu_title c u ⟨k, t⟩).2.trace = scroll_ups t + 18 * r ∧
      (r = 1 → ends_with_verification (check1_menu_title c u ⟨k, t⟩).2.trace)) ∧
    (∃ r, r ≤ 1 ∧ scroll_ups (check2_sync_text c u ⟨k, t⟩).2.trace = scroll_ups t + 18 * r ∧
      (r = 1 → ends_with_verification (check2_sync_text c u ⟨k, t⟩).2.trace)) ∧
    (∃ r, r ≤ 1 ∧ scroll_ups (check4_date_change c u ⟨k, t⟩).2.trace = scroll_ups t + 18 * r ∧
      (r = 1 → ends_with_verification (check4_date_change c u ⟨k, t⟩).2.trace)) ∧
    scroll_ups (check3_toggle c u ⟨k, t⟩).2.trace = scroll_ups t ∧
    (∃ r, r ≤ 3 ∧
      scroll_ups (navigate_to_date_change_with_ocr c ⟨k, t⟩).2.trace =
        scroll_ups t + 18 * r) ∧
    (∀ f g, c.video k = some f →
      title_matches (read_box_text_ocr f menu_title_box) = false →
      c.video (k + 1) = some g →
      (c.video (k + 2) = none ∨ ∃ f2, c.video (k + 2) = some f2 ∧
        title_matches (read_box_text_ocr f2 menu_title_box) = false) →
      (check1_menu_title c u ⟨k, t⟩).1 = false ∧
      scroll_ups (check1_menu_title c u ⟨k, t⟩).2.trace = scroll_ups t + 18) ∧
    (∀ f g, c.video k = some f →
      sync_matches (read_box_text_ocr f sync_text_box) = false →
      c.video (k + 1) = some g →
      (c.video (k + 2) = none ∨ ∃ f2, c.video (k + 2) = some f2 ∧
        sync_matches (read_box_text_ocr f2 sync_text_box) = false) →
      (check2_sync_text c u ⟨k, t⟩).1 = false ∧
      scroll_ups (check2_sync_text c u ⟨k, t⟩).2.trace = scroll_ups t + 18) ∧
    (∀ f g f2, c.video k = some f →
      final_matches (read_box_text_ocr f current_dt_box) = false →
      c.video (k + 1) = some g → c.video (k + 2) = some f2 →
      final_matches (read_box_text_ocr f2 current_dt_box) = false →
      (check4_date_change c u ⟨k, t⟩).1 = false ∧
      scroll_ups (check4_date_change c u ⟨k, t⟩).2.trace = scroll_ups t + 18) := by
  refine ⟨?_, ?_, ?_, ?_, ?_, navigate_recoveries c k t, ?_, ?_, ?_⟩
  · cases h : c.video k with
    | none =>
      rw [retry_no_frame c u k t h]
      simp only [scroll_ups_append, scroll_ups_retry_head_events, scroll_ups_no_frame]
    | some g =>
      rw [retry_frame c u k t g h]
      simp only [scroll_ups_append, scroll_ups_retry_events]
  · obtain ⟨b, j, evs, r, he, hr, hs, hv⟩ := check1_recoveries c u k t
    rw [he]
    exact ⟨r, hr, by simp only [scroll_ups_append, hs], fun h1 => ends_of_suffix _ _ (hv h1)⟩
  · obtain ⟨b, j, evs, r, he, hr, hs, hv⟩ := check2_recoveries c u k t
    rw [he]
    exact ⟨r, hr, by simp only [scroll_ups_append, hs], fun h1 => ends_of_suffix _ _ (hv h1)⟩
  · obtain ⟨b, j, evs, r, he, hr, hs, hv⟩ := check4_recoveries c u k t
    rw [he]
    exact ⟨r, hr, by simp only [scroll_ups_append, hs], fun h1 => ends_of_suffix _ _ (hv h1)⟩
  · cases h : c.video k with
    | none =>
      rw [check3_no_frame c u k t h]
      simp only [scroll_ups_append, scroll_ups_no_frame, Nat.add_zero]
    | some f =>
      rw [check3_frame c u k t f h]
      simp only [scroll_ups_append, scroll_ups_check3_events, Nat.add_zero]
  · intro f g hf hm hg h2
    rcases h2 with h2 | ⟨f2, h2, hm2⟩
    · rw [check1_recheck_no_frame c u k t f g hf hm hg h2]
      refine ⟨rfl, ?_⟩
      simp only [scroll_ups_append, scroll_ups_check1_events, scroll_ups_retry_events,
        scroll_ups_wait_no_frame]
    · rw [check1_recheck c u k t f g f2 hf hm hg h2, hm2]
      refine ⟨rfl, ?_⟩
      simp only [scroll_ups_append, scroll_ups_check1_events, scroll_ups_retry_events]
  · intro f g hf hm hg h2
    rcases h2 with h2 | ⟨f2, h2, hm2⟩
    · rw [check2_recheck_no_frame c u k t f g hf hm hg h2]
      refine ⟨rfl, ?_⟩
      simp only [scroll_ups_append, scroll_ups_check2_events, scroll_ups_retry_events,
        scroll_ups_wait_no_frame]
    · rw [check2_recheck c u k t f g f2 hf hm hg h2, hm2]
      refine ⟨rfl, ?_⟩
      simp only [scroll_ups_append, scroll_ups_check2_events, scroll_ups_retry_events,
        scroll_ups_recheck2_events]
  · intro f g f2 hf hm hg h2 hm2
    rw [check4_recheck c u k t f g f2 hf hm hg h2, hm2]
    refine ⟨rfl, ?_⟩
    simp only [scroll_ups_append, scroll_ups_check4_events, scroll_ups_check4_recovery_events,
      scroll_ups_ocr]

/-- Witness for C11: Check 1 reads "time zone", the recovery finds a frame and
the re-verification gets no frame. -/
theorem retry_budget_is_one_witness :
    (console_of [some zone_frame, some blank_frame, none] 0).video 0 = some zone_frame ∧
    title_matches (read_box_text_ocr zone_frame menu_title_box) = false ∧
    (console_of [some zone_frame, some blank_frame, none] 0).video (0 + 1) =
      some blank_frame ∧
    (console_of [some zone_frame, some blank_frame, none] 0).video (0 + 2) = none ∧
    (check1_menu_title (console_of [some zone_frame, some blank_frame, none] 0) 100
        ⟨0, []⟩).1 = false ∧
    scroll_ups (check1_menu_title (console_of [some zone_frame, some blank_frame, none] 0) 100
        ⟨0, []⟩).2.trace = scroll_ups [] + 18 :=
  ⟨rfl, by rw [read_zone_frame]; decide, rfl, rfl,
    (retry_budget_is_one (console_of [some zone_frame, some blank_frame, none] 0) 100 0
      []).2.2.2.2.2.2.1 zone_frame blank_frame rfl (by rw [read_zone_frame]; decide) rfl
      (Or.inl rfl)⟩

/-! ## Claim on unsupported consoles -/

/-- C12: when the detected console type is none of Switch1, Switch2_Unknown,
Switch2_FW19_International, Switch2_FW19_JapanLocked, Switch2_FW20_International
and Switch2_FW20_JapanLocked, `home_to_settings_only` throws `UserSetupError`
for that type; the only event is the capture made for the detection, so no
controller action and no wait is dispatched. -/
theorem unsupported_console_throws (console : Console)
    (detect_only : Option VideoSnapshot → ConsoleType) (w : World)
    (h1 : detect_only (console.video w.next) ≠ ConsoleType.Switch1)
    (h2 : detect_only (console.video w.next) ≠ ConsoleType.Switch2_Unknown)
    (h3 : detect_only (console.video w.next) ≠ ConsoleType.Switch2_FW19_International)
    (h4 : detect_only (console.video w.next) ≠ ConsoleType.Switch2_FW19_JapanLocked)
    (h5 : detect_only (console.video w.next) ≠ ConsoleType.Switch2_FW20_International)
    (h6 : detect_only (console.video w.next) ≠ ConsoleType.Switch2_FW20_JapanLocked) :
    home_to_settings_only console detect_only w =
      (Except.error ⟨detect_only (console.video w.next)⟩,
        ⟨w.next + 1, w.trace ++ [Event.snapshot (console.video w.next).isSome]⟩) ∧
    actions (home_to_settings_only console detect_only w).2.trace = actions w.trace := by
  have hrun : home_to_settings_only console detect_only w =
      (Except.error ⟨detect_only (console.video w.next)⟩,
        ⟨w.next + 1, w.trace ++ [Event.snapshot (console.video w.next).isSome]⟩) := by
    unfold home_to_settings_only
    simp only [video_snapshot, after_snapshot]
    cases hct : detect_only (console.video w.next) with
    | Switch1 => exact absurd hct h1
    | Switch2_Unknown => exact absurd hct h2
    | Switch2_FW19_International => exact absurd hct h3
    | Switch2_FW19_JapanLocked => exact absurd hct h4
    | Switch2_FW20_International => exact absurd hct h5
    | Switch2_FW20_JapanLocked => exact absurd hct h6
    | other code => rfl
  refine ⟨hrun, ?_⟩
  rw [hrun]
  simp [actions, Event.is_action]

/-- Witness for C12: a detector that answers an unlisted console type. -/
theorem unsupported_console_throws_witness :
    (fun _ => ConsoleType.other 0) ((console_of [some menu_frame] 0).video 0) ≠
      ConsoleType.Switch1 ∧
    actions (home_to_settings_only (console_of [some menu_frame] 0)
      (fun _ => ConsoleType.other 0) ⟨0, []⟩).2.trace = actions [] :=
  ⟨by decide,
    (unsupported_console_throws (console_of [some menu_frame] 0)
      (fun _ => ConsoleType.other 0) ⟨0, []⟩
      (by decide) (by decide) (by decide) (by decide) (by decide) (by decide)).2⟩

/-! ## A presses of the menu verification -/

theorem a_presses_append (a b : List Event) :
    a_presses (a ++ b) = a_presses a + a_presses b := by
  simp only [a_presses, List.filter_append, List.length_append]

theorem repeat_n_keeps (n : Nat) (body : World → World)
    (hn : ∀ w, (body w).next = w.next)
    (ha : ∀ w, a_presses (body w).trace = a_presses w.trace) (w : World) :
    (repeat_n n body w).next = w.next ∧
      a_presses (repeat_n n body w).trace = a_presses w.trace := by
  induction n generalizing w with
  | zero => exact ⟨rfl, rfl⟩
  | succ n ih =>
    rw [repeat_n]
    obtain ⟨h1, h2⟩ := ih (body w)
    exact ⟨h1.trans (hn w), h2.trans (ha w)⟩

theorem scroll_down_keeps (u d : Nat) (w : World) :
    (wait_for d (wait_for_all_requests (pbf_move_joystick 128 255 u u w))).next = w.next ∧
      a_presses (wait_for d (wait_for_all_requests (pbf_move_joystick 128 255 u u w))).trace =
        a_presses w.trace := by
  simp [wait_for, wait_for_all_requests, pbf_move_joystick, emit, a_presses_append, a_presses,
    is_press_a]

/-- The loop body: one more capture, no A press; it returns from the function
only at step 1, on a frame whose label does not look like the sync option. -/
theorem scroll_up_step_spec (c : Console) (u step : Nat) (w : World) :
    (scroll_up_step c u step w).2.next = w.next + 1 ∧
    a_presses (scroll_up_step c u step w).2.trace = a_presses w.trace ∧
    ((scroll_up_step c u step w).1 = true ↔
      step = 1 ∧ ∃ f, c.video w.next = some f ∧
        looks_like_sync_option (normalize (f.extract_box_reference menu_label_box).ocr_raw) =
          false) := by
  unfold scroll_up_step
  simp only [video_snapshot, after_snapshot, wait_for, wait_for_all_requests,
    pbf_move_joystick, emit]
  cases h : c.video w.next with
  | none => simp [a_presses_append, a_presses, is_press_a]
  | some f =>
    by_cases hs : step = 1
    · cases hl : looks_like_sync_option
          (normalize (f.extract_box_reference menu_label_box).ocr_raw) <;>
        simp [hs, hl, a_presses_append, a_presses, is_press_a]
    · simp [hs, a_presses_append, a_presses, is_press_a]

/-- The scroll to the bottom and the final reading dispatch no A press. -/
theorem ensure_date_time_selected_keeps (c : Console) (u : Nat) (w : World) :
    a_presses (ensure_date_time_selected c u w).trace = a_presses w.trace := by
  obtain ⟨_, ha⟩ := repeat_n_keeps 5
    (fun w => wait_for 150 (wait_for_all_requests (pbf_move_joystick 128 255 u u w)))
    (fun w => (scroll_down_keeps u 150 w).1) (fun w => (scroll_down_keeps u 150 w).2) w
  unfold ensure_date_time_selected
  generalize repeat_n 5
    (fun w => wait_for 150 (wait_for_all_requests (pbf_move_joystick 128 255 u u w))) w = w5
    at ha
  simp only [video_snapshot, after_snapshot, wait_for, wait_for_all_requests, emit]
  cases h : c.video w5.next with
  | none =>
    simp [a_presses_append, a_presses, is_press_a]
    exact ha
  | some f =>
    by_cases hd : (!found (normalize (f.extract_box_reference date_time_label_box).ocr_raw)
        "date" || !found (normalize (f.extract_box_reference date_time_label_box).ocr_raw)
        "time") = true
    · simp only [hd, if_true]
      simp [a_presses_append, a_presses, is_press_a]
      exact ha
    · simp only [hd, if_false, menu_check_boxes, List.foldl, emit]
      simp [a_presses_append, a_presses, is_press_a]
      exact ha

/-- The branch taken when the sync clock appears on: it presses A once unless
the frame captured after the second scroll-up shows a label that does not look
like the sync option, in which case it presses nothing and returns. -/
theorem disable_sync_clock_spec (c : Console) (u : Nat) (w : World) :
    ((∃ f, c.video (w.next + 1) = some f ∧
        looks_like_sync_option (normalize (f.extract_box_reference menu_label_box).ocr_raw) =
          false) →
      (disable_sync_clock c u w).1 = true ∧
        a_presses (disable_sync_clock c u w).2.trace = a_presses w.trace) ∧
    (¬ (∃ f, c.video (w.next + 1) = some f ∧
        looks_like_sync_option (normalize (f.extract_box_reference menu_label_box).ocr_raw) =
          false) →
      (disable_sync_clock c u w).1 = false ∧
        a_presses (disable_sync_clock c u w).2.trace = a_presses w.trace + 1) := by
  obtain ⟨hn, ha⟩ := repeat_n_keeps 5
    (fun w => wait_for 100 (wait_for_all_requests (pbf_move_joystick 128 255 u u w)))
    (fun w => (scroll_down_keeps u 100 w).1) (fun w => (scroll_down_keeps u 100 w).2) w
  unfold disable_sync_clock
  dsimp only
  generalize repeat_n 5
    (fun w => wait_for 100 (wait_for_all_requests (pbf_move_joystick 128 255 u u w))) w = w5
    at hn ha ⊢
  obtain ⟨hn0, ha0, hr0⟩ := scroll_up_step_spec c u 0 w5
  generalize scroll_up_step c u 0 w5 = r0 at hn0 ha0 hr0 ⊢
  have hfalse0 : r0.1 = false := by
    cases hb : r0.1 with
    | false => rfl
    | true => exact absurd (hr0.mp hb).1 (by decide)
  obtain ⟨hn1, ha1, hr1⟩ := scroll_up_step_spec c u 1 r0.2
  rw [hn0, hn] at hr1
  generalize scroll_up_step c u 1 r0.2 = r1 at hn1 ha1 hr1 ⊢
  simp only [hfalse0, Bool.false_eq_true, if_false]
  constructor
  · intro hex
    have hb : r1.1 = true := hr1.mpr ⟨rfl, hex⟩
    simp only [hb, if_true, true_and]
    rw [ha1, ha0, ha]
  · intro hex
    have hb : r1.1 = false := by
      cases hb : r1.1 with
      | false => rfl
      | true => exact absurd (hr1.mp hb).2 hex
    simp only [hb, Bool.false_eq_true, if_false, true_and]
    simp only [wait_for, wait_for_all_requests, pbf_move_joystick, pbf_press_button, emit,
      a_presses_append, ha1, ha0, ha]
    simp [a_presses, is_press_a]

/-- The number of A presses of the menu verification: one when the first frame
shows "system" and the sync clock on and no frame captured after the second
scroll-up shows a label unlike the sync option, none otherwise. -/
theorem verify_a_presses (c : Console) (k : Nat) (t : List Event) :
    ((∃ f0, c.video k = some f0 ∧
        found (normalize (f0.extract_box_reference system_label_box).ocr_raw) "system" = true ∧
        sync_appears_on (f0.extract_box_reference sync_status_box1).average = true ∧
        ¬ (∃ f2, c.video (k + 2) = some f2 ∧
          looks_like_sync_option
            (normalize (f2.extract_box_reference menu_label_box).ocr_raw) = false)) →
      a_presses (verify_date_time_menu_selected c ⟨k, t⟩).trace = a_presses t + 1) ∧
    (¬ (∃ f0, c.video k = some f0 ∧
        found (normalize (f0.extract_box_reference system_label_box).ocr_raw) "system" = true ∧
        sync_appears_on (f0.extract_box_reference sync_status_box1).average = true ∧
        ¬ (∃ f2, c.video (k + 2) = some f2 ∧
          looks_like_sync_option
            (normalize (f2.extract_box_reference menu_label_box).ocr_raw) = false)) →
      a_presses (verify_date_time_menu_selected c ⟨k, t⟩).trace = a_presses t) := by
  unfold verify_date_time_menu_selected
  simp only [video_snapshot, after_snapshot, wait_for, wait_for_all_requests, emit]
  cases h0 : c.video k with
  | none =>
    constructor
    · rintro ⟨f0, hf0, _⟩
      exact absurd hf0 (by simp)
    · intro _
      simp [a_presses_append, a_presses, is_press_a]
  | some f0 =>
    cases hsys : found (normalize (f0.extract_box_reference system_label_box).ocr_raw)
        "system" with
    | false =>
      simp only [hsys, Bool.not_false, if_true, List.append_assoc]
      constructor
      · rintro ⟨f, hf, hs, _⟩
        cases Option.some.inj hf
        rw [hsys] at hs
        exact absurd hs (by decide)
      · intro _
        simp [a_presses_append, a_presses, is_press_a]
    | true =>
      simp only [hsys, Bool.not_true, Bool.false_eq_true, if_false, List.append_assoc]
      cases hon : sync_appears_on (f0.extract_box_reference sync_status_box1).average with
      | false =>
        simp only [hon, Bool.false_eq_true, if_false]
        rw [ensure_date_time_selected_keeps]
        constructor
        · rintro ⟨f, hf, _, ho, _⟩
          cases Option.some.inj hf
          rw [hon] at ho
          exact absurd ho (by decide)
        · intro _
          simp [a_presses_append, a_presses, is_press_a]
      | true =>
        simp only [hon, if_true]
        obtain ⟨hret, hgo⟩ := disable_sync_clock_spec c (100 + c.timing_variation)
          ⟨k + 1, t ++ ([Event.wait_for_all_requests] ++ ([Event.wait_for 400] ++
            ([Event.snapshot (some f0).isSome] ++
              ([Event.ocr system_label_box
                  (normalize (f0.extract_box_reference system_label_box).ocr_raw)] ++
                [Event.image_stats sync_status_box1
                  (f0.extract_box_reference sync_status_box1).average]))))⟩
        have hzero : a_presses (t ++ ([Event.wait_for_all_requests] ++ ([Event.wait_for 400] ++
            ([Event.snapshot (some f0).isSome] ++
              ([Event.ocr system_label_box
                  (normalize (f0.extract_box_reference system_label_box).ocr_raw)] ++
                [Event.image_stats sync_status_box1
                  (f0.extract_box_reference sync_status_box1).average]))))) = a_presses t := by
          simp [a_presses_append, a_presses, is_press_a]
        by_cases hex : ∃ f2, c.video (k + 2) = some f2 ∧
            looks_like_sync_option
              (normalize (f2.extract_box_reference menu_label_box).ocr_raw) = false
        · obtain ⟨hb, ha⟩ := hret hex
          constructor
          · rintro ⟨_, _, _, _, hno⟩
            exact absurd hex hno
          · intro _
            simp only [hb, if_true]
            rw [ha, hzero]
        · obtain ⟨hb, ha⟩ := hgo hex
          constructor
          · intro _
            simp only [hb, Bool.false_eq_true, if_false]
            rw [ensure_date_time_selected_keeps, ha, hzero]
          · intro hno
            exact absurd ⟨f0, rfl, hsys, hon, hex⟩ hno

theorem sync_on_cyan : sync_appears_on ⟨43, 56, 53⟩ = true := by
  norm_num [sync_appears_on, abs_lt]

theorem blind_toggle_run :
    a_presses (verify_date_time_menu_selected blind_toggle_console ⟨0, []⟩).trace = 1 := by
  have h := (verify_a_presses blind_toggle_console 0 []).1
    ⟨sync_on_frame, rfl, by decide, sync_on_cyan, by
      rintro ⟨f2, hf2, _⟩
      have hnone : blind_toggle_console.video (0 + 2) = none := rfl
      rw [hnone] at hf2
      exact Option.noConfusion hf2⟩
  rw [h]
  rfl

/-! ## Claim on the toggle press of the menu verification -/

/-- C17 (counterexample): the first frame shows "System" and the sync clock on,
and the captures made after the two scroll-ups yield no frame; the A press is
dispatched although no frame with a matching menu label was ever captured. -/
theorem blind_toggle_presses_a :
    blind_toggle_console.video 1 = none ∧ blind_toggle_console.video 2 = none ∧
    a_presses (verify_date_time_menu_selected blind_toggle_console ⟨0, []⟩).trace = 1 :=
  ⟨rfl, rfl, blind_toggle_run⟩

/-- C17 (amended): `verify_date_time_menu_selected` presses A at most once, and it
does so exactly when the first capture yields a frame whose system label holds
"system" and whose sync status appears on, and the capture made after the
second scroll-up either yields no frame or yields a frame whose lowercased
menu label holds "synchron", "sync" or "internet". A frame captured there with
no such word prevents the press. -/
theorem toggle_press_condition (c : Console) (k : Nat) :
    (a_presses (verify_date_time_menu_selected c ⟨k, []⟩).trace = 1 ↔
      ∃ f0, c.video k = some f0 ∧
        found (normalize (f0.extract_box_reference system_label_box).ocr_raw) "system" = true ∧
        sync_appears_on (f0.extract_box_reference sync_status_box1).average = true ∧
        (c.video (k + 2) = none ∨ ∃ f2, c.video (k + 2) = some f2 ∧
          looks_like_sync_option
            (normalize (f2.extract_box_reference menu_label_box).ocr_raw) = true)) ∧
    (a_presses (verify_date_time_menu_selected c ⟨k, []⟩).trace = 0 ∨
      a_presses (verify_date_time_menu_selected c ⟨k, []⟩).trace = 1) ∧
    (∀ f2, c.video (k + 2) = some f2 →
      looks_like_sync_option
        (normalize (f2.extract_box_reference menu_label_box).ocr_raw) = false →
      a_presses (verify_date_time_menu_selected c ⟨k, []⟩).trace = 0) := by
  obtain ⟨hyes, hno⟩ := verify_a_presses c k []
  have hz : a_presses ([] : List Event) = 0 := rfl
  rw [hz] at hyes hno
  have hequiv : (c.video (k + 2) = none ∨ ∃ f2, c.video (k + 2) = some f2 ∧
        looks_like_sync_option
          (normalize (f2.extract_box_reference menu_label_box).ocr_raw) = true) ↔
      ¬ (∃ f2, c.video (k + 2) = some f2 ∧
        looks_like_sync_option
          (normalize (f2.extract_box_reference menu_label_box).ocr_raw) = false) := by
    constructor
    · rintro (hn | ⟨f2, hf2, hl⟩) ⟨g, hg, hgl⟩
      · rw [hn] at hg
        exact absurd hg (by simp)
      · rw [hf2] at hg
        cases Option.some.inj hg
        rw [hl] at hgl
        exact absurd hgl (by decide)
    · intro hne
      cases h2 : c.video (k + 2) with
      | none => exact Or.inl rfl
      | some f2 =>
        right
        refine ⟨f2, rfl, ?_⟩
        cases hl : looks_like_sync_option
            (normalize (f2.extract_box_reference menu_label_box).ocr_raw) with
        | true => rfl
        | false => exact absurd ⟨f2, h2, hl⟩ hne
  refine ⟨?_, ?_, ?_⟩
  · constructor
    · intro h1
      by_contra hc
      have hnot : ¬ (∃ f0, c.video k = some f0 ∧
          found (normalize (f0.extract_box_reference system_label_box).ocr_raw)
            "system" = true ∧
          sync_appears_on (f0.extract_box_reference sync_status_box1).average = true ∧
          ¬ (∃ f2, c.video (k + 2) = some f2 ∧
            looks_like_sync_option
              (normalize (f2.extract_box_reference menu_label_box).ocr_raw) = false)) := by
        rintro ⟨f0, hf0, hs, ho, hx⟩
        exact hc ⟨f0, hf0, hs, ho, hequiv.mpr hx⟩
      rw [hno hnot] at h1
      exact absurd h1 (by decide)
    · rintro ⟨f0, hf0, hs, ho, hx⟩
      exact hyes ⟨f0, hf0, hs, ho, hequiv.mp hx⟩
  · by_cases hcond : ∃ f0, c.video k = some f0 ∧
        found (normalize (f0.extract_box_reference system_label_box).ocr_raw)
          "system" = true ∧
        sync_appears_on (f0.extract_box_reference sync_status_box1).average = true ∧
        ¬ (∃ f2, c.video (k + 2) = some f2 ∧
          looks_like_sync_option
            (normalize (f2.extract_box_reference menu_label_box).ocr_raw) = false)
    · exact Or.inr (hyes hcond)
    · exact Or.inl (hno hcond)
  · intro f2 hf2 hl
    apply hno
    rintro ⟨_, _, _, _, hx⟩
    exact hx ⟨f2, hf2, hl⟩

/-- Witness for C17 (amended): a frame captured after the second scroll-up
whose label reads "Time Zone" prevents the press. -/
theorem toggle_press_condition_witness :
    (console_of [some sync_on_frame, none, some zone_frame] 0).video (0 + 2) =
      some zone_frame ∧
    looks_like_sync_option
      (normalize (zone_frame.extract_box_reference menu_label_box).ocr_raw) = false ∧
    a_presses (verify_date_time_menu_selected
      (console_of [some sync_on_frame, none, some zone_frame] 0) ⟨0, []⟩).trace = 0 :=
  ⟨rfl, by decide,
    (toggle_press_condition (console_of [some sync_on_frame, none, some zone_frame] 0) 0).2.2
      zone_frame rfl (by decide)⟩

/-! ## Claims on the Rare Candy program and on item names -/

theorem a_presses_repeat_press (n : Nat) (hold release : Nat) (w : World) :
    a_presses (repeat_n n (pbf_press_button Button.A hold release) w).trace =
      a_presses w.trace + n := by
  induction n generalizing w with
  | zero => rfl
  | succ n ih =>
    rw [repeat_n, ih]
    simp only [pbf_press_button, emit, a_presses_append]
    simp [a_presses, is_press_a]
    omega

/-- C18 (evaluation at the failing input): every iteration of the main loop of
the Rare Candy program dispatches exactly three A presses, not four; with
`REPEAT_COUNT = 1` the program runs two iterations and dispatches six A
presses in all. -/
theorem rare_candy_presses_three_times :
    (∀ w : World, a_presses (rare_candy_iteration w).trace = a_presses w.trace + 3) ∧
    RareCandy_program 1 ⟨0, []⟩ =
      ⟨0, [ Event.press_button Button.A 300 300, Event.press_button Button.A 300 300,
            Event.press_button Button.A 300 300, Event.pbf_wait 300,
            Event.press_button Button.A 300 300, Event.press_button Button.A 300 300,
            Event.press_button Button.A 300 300, Event.pbf_wait 300 ]⟩ ∧
    a_presses (RareCandy_program 1 ⟨0, []⟩).trace = 6 := by
  refine ⟨?_, rfl, by decide⟩
  intro w
  unfold rare_candy_iteration
  simp only [pbf_wait, emit, a_presses_append, a_presses_repeat_press]
  simp [a_presses, is_press_a]

theorem normalize_empty : normalize "" = "" := by decide

/-- C21: the empty text fails every text check: the title, sync, final and
sentinel tests all reject it. A region on which no filter survives and raw
recognition returns nothing is read as the empty text, and a frame read as the
empty text sends Check 1, Check 2 and Check 4 into the recovery routine. -/
theorem empty_text_mismatches (c : Console) (u k : Nat) (t : List Event) (f : VideoSnapshot)
    (h : c.video k = some f) :
    (title_matches "" = false ∧ sync_matches "" = false ∧ final_matches "" = false ∧
      sentinel_matches "" = false) ∧
    (∀ box,
      (∀ flt ∈ filters,
        filter_skipped ((f.extract_box_reference box).text_pixels flt.1 flt.2)
          (f.extract_box_reference box).width (f.extract_box_reference box).height = true) →
      (f.extract_box_reference box).ocr_raw = "" → read_box_text_ocr f box = "") ∧
    (read_box_text_ocr f menu_title_box = "" →
      (t ++ (check1_events "" ++ retry_head_events u)) <+:
        (check1_menu_title c u ⟨k, t⟩).2.trace) ∧
    (read_box_text_ocr f sync_text_box = "" →
      (t ++ (check2_events "" ++ retry_head_events u)) <+:
        (check2_sync_text c u ⟨k, t⟩).2.trace) ∧
    (read_box_text_ocr f current_dt_box = "" →
      (t ++ (check4_events u "" ++
        ([Event.press_button Button.B u 500, Event.wait_for_all_requests] ++
          retry_head_events u))) <+: (check4_date_change c u ⟨k, t⟩).2.trace) := by
  refine ⟨⟨by decide, by decide, by decide, by decide⟩, ?_, ?_, ?_, ?_⟩
  · intro box hall hraw
    unfold read_box_text_ocr
    rw [best_text_of_no_survivor _ hall, hraw]
    exact normalize_empty
  · intro htext
    have hm : title_matches (read_box_text_ocr f menu_title_box) = false := by
      rw [htext]; decide
    cases h1 : c.video (k + 1) with
    | none =>
      rw [check1_retry_no_frame c u k t f h hm h1, htext]
      exact ⟨[Event.snapshot false], by simp only [List.append_assoc]⟩
    | some g =>
      cases h2 : c.video (k + 2) with
      | none =>
        rw [check1_recheck_no_frame c u k t f g h hm h1 h2, htext]
        exact ⟨_, by simp only [retry_events, List.append_assoc]; rfl⟩
      | some f2 =>
        rw [check1_recheck c u k t f g f2 h hm h1 h2, htext]
        exact ⟨_, by simp only [retry_events, List.append_assoc]; rfl⟩
  · intro htext
    have hm : sync_matches (read_box_text_ocr f sync_text_box) = false := by
      rw [htext]; decide
    cases h1 : c.video (k + 1) with
    | none =>
      rw [check2_retry_no_frame c u k t f h hm h1, htext]
      exact ⟨[Event.snapshot false], by simp only [List.append_assoc]⟩
    | some g =>
      cases h2 : c.video (k + 2) with
      | none =>
        rw [check2_recheck_no_frame c u k t f g h hm h1 h2, htext]
        exact ⟨_, by simp only [retry_events, List.append_assoc]; rfl⟩
      | some f2 =>
        rw [check2_recheck c u k t f g f2 h hm h1 h2, htext]
        exact ⟨_, by simp only [retry_events, List.append_assoc]; rfl⟩
  · intro htext
    have hm : final_matches (read_box_text_ocr f current_dt_box) = false := by
      rw [htext]; decide
    cases h1 : c.video (k + 1) with
    | none =>
      rw [check4_retry_no_frame c u k t f h hm h1, htext]
      exact ⟨[Event.snapshot false], by simp only [List.append_assoc]⟩
    | some g =>
      cases h2 : c.video (k + 2) with
      | none =>
        rw [check4_recheck_no_frame c u k t f g h hm h1 h2, htext]
        exact ⟨_, by simp only [check4_recovery_events, retry_events, List.append_assoc]; rfl⟩
      | some f2 =>
        rw [check4_recheck c u k t f g f2 h hm h1 h2, htext]
        exact ⟨_, by simp only [check4_recovery_events, retry_events, List.append_assoc]; rfl⟩

/-- Witness for C21: a frame on which nothing is recognised. -/
theorem empty_text_mismatches_witness :
    (console_of [some blank_frame] 0).video 0 = some blank_frame ∧
    read_box_text_ocr blank_frame menu_title_box = "" ∧
    ([] ++ (check1_events "" ++ retry_head_events 100)) <+:
      (check1_menu_title (console_of [some blank_frame] 0) 100 ⟨0, []⟩).2.trace :=
  ⟨rfl, read_blank_frame menu_title_box,
    (empty_text_mismatches (console_of [some blank_frame] 0) 100 0 [] blank_frame rfl).2.2.1
      (read_blank_frame menu_title_box)⟩

/-- C23 (counterexample): the text "date and time" passes the final check of the
navigation and fails the final check of the Overlay Text Tester, which also
asks for "current". -/
theorem final_checks_differ :
    final_matches "date and time" = true ∧ tester_final_matches "date and time" = false := by
  exact ⟨by decide, by decide⟩

/-- C23 (amended): Check 4 of the navigation accepts a text exactly when it holds
"date" and "time" and does not hold "zone"; the final check of the Overlay
Text Tester accepts exactly when the text moreover holds "current". Every text
accepted by the tester is accepted by Check 4, and the two agree on every text
that holds "current". -/
theorem final_check_accepts (text : String) :
    (final_matches text = true ↔
      "date".data <:+: text.data ∧ "time".data <:+: text.data ∧
        ¬ "zone".data <:+: text.data) ∧
    (tester_final_matches text = true ↔
      "current".data <:+: text.data ∧ "date".data <:+: text.data ∧
        "time".data <:+: text.data ∧ ¬ "zone".data <:+: text.data) ∧
    (tester_final_matches text = true → final_matches text = true) ∧
    ("current".data <:+: text.data → tester_final_matches text = final_matches text) := by
  have hf : final_matches text = true ↔
      "date".data <:+: text.data ∧ "time".data <:+: text.data ∧
        ¬ "zone".data <:+: text.data := by
    rw [← found_iff, ← found_iff, ← found_iff]
    simp [final_matches, and_assoc]
  have ht : tester_final_matches text = true ↔
      "current".data <:+: text.data ∧ "date".data <:+: text.data ∧
        "time".data <:+: text.data ∧ ¬ "zone".data <:+: text.data := by
    rw [← found_iff, ← found_iff, ← found_iff, ← found_iff]
    simp [tester_final_matches, and_assoc]
  refine ⟨hf, ht, ?_, ?_⟩
  · intro h
    exact hf.mpr (ht.mp h).2
  · intro hc
    have hcur : found text "current" = true := (found_iff text "current").mpr hc
    simp only [tester_final_matches, final_matches, hcur, Bool.true_and]

/-- C24: the toggle colour rule of Check 3 of the navigation, the one of Step 1
of `verify_date_time_menu_selected` and the one of Check 3 of the Overlay Text
Tester give the same answer on every triple of mean channel values. -/
theorem toggle_rules_agree (average : FloatPixel) :
    toggle_appears_on average = sync_appears_on average ∧
    toggle_appears_on average = tester_toggle_appears_on average ∧
    sync_appears_on average = tester_toggle_appears_on average :=
  ⟨rfl, rfl, rfl⟩

/-- Witness for C23 (amended): the title "current date and time" is accepted by
both checks. -/
theorem final_check_accepts_witness :
    "current".data <:+: "current date and time".data ∧
    tester_final_matches "current date and time" = final_matches "current date and time" :=
  ⟨by decide, (final_check_accepts "current date and time").2.2.2 (by decide)⟩

/-! ## Claims on `home_to_settings_only` and on the filter fallback -/

theorem settings_moves_eq (hold release k : Nat) (t : List Event) :
    settings_moves hold release ⟨k, t⟩ =
      ⟨k, t ++ (settings_actions hold release ++ [Event.wait_for_all_requests])⟩ := by
  simp only [settings_moves, settings_actions, pbf_move_joystick, pbf_press_button,
    wait_for_all_requests, emit, List.append_assoc, List.cons_append, List.nil_append]

theorem actions_settings_actions (hold release : Nat) :
    actions (settings_actions hold release) = settings_actions hold release := by
  simp [actions, settings_actions, Event.is_action]

/-- C25: on a console detected as Switch1 the function dispatches the nine
actions right, right, right, down, down, left, A, A, A with hold and release
`100 + tv`; on each of the five Switch2 types it dispatches the same nine
directions and buttons with hold `2 * (24 + tv)` and release `24 + tv`. In
both cases nothing is thrown, and the directions and buttons do not depend on
the durations. -/
theorem settings_actions_per_console (console : Console)
    (detect_only : Option VideoSnapshot → ConsoleType) (k : Nat) (t : List Event) :
    (detect_only (console.video k) = ConsoleType.Switch1 →
      (home_to_settings_only console detect_only ⟨k, t⟩).1 = Except.ok () ∧
      actions (home_to_settings_only console detect_only ⟨k, t⟩).2.trace =
        actions t ++ settings_actions (100 + console.timing_variation)
          (100 + console.timing_variation)) ∧
    (detect_only (console.video k) = ConsoleType.Switch2_Unknown ∨
      detect_only (console.video k) = ConsoleType.Switch2_FW19_International ∨
      detect_only (console.video k) = ConsoleType.Switch2_FW19_JapanLocked ∨
      detect_only (console.video k) = ConsoleType.Switch2_FW20_International ∨
      detect_only (console.video k) = ConsoleType.Switch2_FW20_JapanLocked →
      (home_to_settings_only console detect_only ⟨k, t⟩).1 = Except.ok () ∧
      actions (home_to_settings_only console detect_only ⟨k, t⟩).2.trace =
        actions t ++ settings_actions (2 * (24 + console.timing_variation))
          (24 + console.timing_variation)) ∧
    (∀ hold release, (settings_actions hold release).length = 9 ∧
      (settings_actions hold release).map action_shape =
        [some (Sum.inl (255, 128)), some (Sum.inl (255, 128)), some (Sum.inl (255, 128)),
          some (Sum.inl (128, 255)), some (Sum.inl (128, 255)), some (Sum.inl (0, 128)),
          some (Sum.inr Button.A), some (Sum.inr Button.A), some (Sum.inr Button.A)]) := by
  have hsnap : actions [Event.snapshot (console.video k).isSome] = [] := by
    simp [actions, Event.is_action]
  have hwait : actions [Event.wait_for_all_requests] = [] := by
    simp [actions, Event.is_action]
  have hok : ∀ hold release,
      actions (settings_moves hold release
        ⟨k + 1, t ++ [Event.snapshot (console.video k).isSome]⟩).trace =
      actions t ++ settings_actions hold release := by
    intro hold release
    rw [settings_moves_eq]
    simp only [actions_append, hsnap, hwait, actions_settings_actions, List.append_nil]
  refine ⟨?_, ?_, ?_⟩
  · intro h
    have hrun : home_to_settings_only console detect_only ⟨k, t⟩ =
        (Except.ok (), settings_moves (100 + console.timing_variation)
          (100 + console.timing_variation)
          ⟨k + 1, t ++ [Event.snapshot (console.video k).isSome]⟩) := by
      unfold home_to_settings_only
      simp only [video_snapshot, after_snapshot, h]
    rw [hrun]
    exact ⟨rfl, hok _ _⟩
  · intro h
    have hrun : home_to_settings_only console detect_only ⟨k, t⟩ =
        (Except.ok (), settings_moves (2 * (24 + console.timing_variation))
          (24 + console.timing_variation)
          ⟨k + 1, t ++ [Event.snapshot (console.video k).isSome]⟩) := by
      unfold home_to_settings_only
      simp only [video_snapshot, after_snapshot]
      rcases h with h | h | h | h | h <;> rw [h]
    rw [hrun]
    exact ⟨rfl, hok _ _⟩
  · intro hold release
    exact ⟨rfl, rfl⟩

/-- Witness for C25: a detector that answers Switch1. -/
theorem settings_actions_per_console_witness :
    (fun _ => ConsoleType.Switch1) ((console_of [some menu_frame] 0).video 0) =
      ConsoleType.Switch1 ∧
    actions (home_to_settings_only (console_of [some menu_frame] 0)
      (fun _ => ConsoleType.Switch1) ⟨0, []⟩).2.trace =
        actions [] ++ settings_actions (100 + 0) (100 + 0) :=
  ⟨rfl,
    ((settings_actions_per_console (console_of [some menu_frame] 0)
      (fun _ => ConsoleType.Switch1) 0 []).1 rfl).2⟩

theorem raw_ocr_is_run_iff (region : ImageViewRGB32) :
    raw_ocr_is_run region = true ↔ ∀ x ∈ surviving_texts region filters, x = "" := by
  unfold raw_ocr_is_run
  rw [String.isEmpty_iff]
  constructor
  · intro hempty x hx
    have hnil : surviving_texts region filters ≠ [] := List.ne_nil_of_mem hx
    obtain ⟨pre, post, he, hpre, hpost⟩ := loop_keeps_first_longest region filters hnil
    rw [hempty] at he hpre hpost
    rw [he] at hx
    rcases List.mem_append.mp hx with hx | hx
    · exact absurd (hpre x hx) (Nat.not_lt_zero _)
    · rcases List.mem_cons.mp hx with hx | hx
      · exact hx
      · exact string_eq_empty_of_length x (hpost x hx)
  · intro hall
    by_cases hnil : surviving_texts region filters = []
    · rw [foldl_filter_step, hnil]
      rfl
    · obtain ⟨pre, post, he, _, _⟩ := loop_keeps_first_longest region filters hnil
      apply hall
      rw [he]
      simp

/-- C28: recognition on the unfiltered region is run (the kept text is empty on
line 75) exactly when every surviving filter read the empty text, which
includes the case where no filter survives; its result is then the text that
is normalized and returned. When some surviving filter read a non-empty text,
it is not run, and the text returned is the normalization of a non-empty
surviving text. -/
theorem raw_fallback_condition (snapshot : VideoSnapshot) (box : ImageFloatBox) :
    (raw_ocr_is_run (snapshot.extract_box_reference box) = true ↔
      ∀ x ∈ surviving_texts (snapshot.extract_box_reference box) filters, x = "") ∧
    (raw_ocr_is_run (snapshot.extract_box_reference box) = false ↔
      ∃ x ∈ surviving_texts (snapshot.extract_box_reference box) filters, x ≠ "") ∧
    ((∀ x ∈ surviving_texts (snapshot.extract_box_reference box) filters, x = "") →
      read_box_text_ocr snapshot box =
        normalize (snapshot.extract_box_reference box).ocr_raw) ∧
    ((∃ x ∈ surviving_texts (snapshot.extract_box_reference box) filters, x ≠ "") →
      ∃ y ∈ surviving_texts (snapshot.extract_box_reference box) filters,
        y ≠ "" ∧ read_box_text_ocr snapshot box = normalize y) := by
  have hrun := raw_ocr_is_run_iff (snapshot.extract_box_reference box)
  have hnot : raw_ocr_is_run (snapshot.extract_box_reference box) = false ↔
      ∃ x ∈ surviving_texts (snapshot.extract_box_reference box) filters, x ≠ "" := by
    rw [← Bool.not_eq_true, hrun]
    push_neg
    rfl
  refine ⟨hrun, hnot, ?_, ?_⟩
  · intro hall
    have hr := hrun.mpr hall
    unfold raw_ocr_is_run at hr
    unfold read_box_text_ocr best_text
    simp only [hr, if_true]
  · intro hex
    have hr := hnot.mpr hex
    unfold raw_ocr_is_run at hr
    have hnil : surviving_texts (snapshot.extract_box_reference box) filters ≠ [] := by
      obtain ⟨x, hx, _⟩ := hex
      exact List.ne_nil_of_mem hx
    obtain ⟨pre, post, he, _, _⟩ :=
      loop_keeps_first_longest (snapshot.extract_box_reference box) filters hnil
    refine ⟨(filters.foldl (filter_step (snapshot.extract_box_reference box)) ("", 0)).1,
      ?_, ?_, ?_⟩
    · rw [he]
      simp
    · intro hemp
      rw [hemp] at hr
      exact absurd hr (by decide)
    · unfold read_box_text_ocr best_text
      simp only [hr, Bool.false_eq_true, if_false]

/-- Witness for C28: four surviving filters that read nothing; the raw text is
returned. -/
theorem raw_fallback_condition_witness :
    (∀ x ∈ surviving_texts
        ((VideoSnapshot.mk (fun _ => silent_filters_region)).extract_box_reference
          menu_title_box) filters, x = "") ∧
    read_box_text_ocr (VideoSnapshot.mk (fun _ => silent_filters_region)) menu_title_box =
      normalize ((VideoSnapshot.mk (fun _ => silent_filters_region)).extract_box_reference
        menu_title_box).ocr_raw :=
  have hall : ∀ x ∈ surviving_texts
      ((VideoSnapshot.mk (fun _ => silent_filters_region)).extract_box_reference
        menu_title_box) filters, x = "" := by
    intro x hx
    unfold surviving_texts at hx
    obtain ⟨flt, _, hflt⟩ := List.mem_map.mp hx
    exact hflt.symm
  ⟨hall,
    (raw_fallback_condition (VideoSnapshot.mk (fun _ => silent_filters_region))
      menu_title_box).2.2.1 hall⟩

/-! ## Bounds on one call of the navigation -/

theorem actions_check3_events_le (u : Nat) (average : FloatPixel) :
    (actions (check3_events u average)).length ≤ 1 := by
  cases h : toggle_appears_on average <;>
    simp [actions, check3_events, Event.is_action, h]

theorem actions_check4_recovery_events (u : Nat) (text : String) :
    actions (check4_recovery_events u text) =
      Event.press_button Button.B u 500 :: (retry_actions u ++ enter_date_change_actions u) := by
  simp only [check4_recovery_events, actions_append, actions_retry_events,
    actions_enter_date_change_events]
  simp [actions, Event.is_action]

theorem length_retry_head_actions (u : Nat) : (retry_head_actions u).length = 19 := by
  simp [retry_head_actions]

theorem length_retry_actions (u : Nat) : (retry_actions u).length = 24 := by
  simp [retry_actions, retry_head_actions, forward_actions]

theorem length_step_actions (u : Nat) : (step_actions u).length = 7 := rfl

theorem length_enter_date_change_actions (u : Nat) :
    (enter_date_change_actions u).length = 3 := rfl

/-- Check 4 dispatches at most 31 actions. -/
theorem check4_actions_le (c : Console) (u k : Nat) (t : List Event) :
    ∃ b j evs, check4_date_change c u ⟨k, t⟩ = (b, ⟨k + j, t ++ evs⟩) ∧
      (actions evs).length ≤ 31 := by
  cases h : c.video k with
  | none =>
    refine ⟨_, 1, _, check4_no_frame c u k t h, ?_⟩
    simp only [actions_append, actions_enter_date_change_events, actions_no_frame,
      List.append_nil, length_enter_date_change_actions]
    omega
  | some f =>
    cases hm : final_matches (read_box_text_ocr f current_dt_box) with
    | true =>
      refine ⟨_, 1, _, check4_match c u k t f h hm, ?_⟩
      simp only [actions_check4_events, length_enter_date_change_actions]
      omega
    | false =>
      cases h1 : c.video (k + 1) with
      | none =>
        refine ⟨_, 2, _, check4_retry_no_frame c u k t f h hm h1, ?_⟩
        simp only [actions_append, actions_check4_events, actions_retry_head_events,
          actions_no_frame, List.append_nil, List.length_append,
          length_enter_date_change_actions, length_retry_head_actions]
        simp [actions, Event.is_action]
      | some g =>
        cases h2 : c.video (k + 2) with
        | none =>
          refine ⟨_, 3, _, check4_recheck_no_frame c u k t f g h hm h1 h2, ?_⟩
          simp only [actions_append, actions_check4_events, actions_check4_recovery_events,
            actions_no_frame, List.append_nil, List.length_append, List.length_cons,
            length_enter_date_change_actions, length_retry_actions]
          omega
        | some f2 =>
          refine ⟨_, 3, _, check4_recheck c u k t f g f2 h hm h1 h2, ?_⟩
          simp only [actions_append, actions_check4_events, actions_check4_recovery_events,
            List.length_append, List.length_cons, length_enter_date_change_actions,
            length_retry_actions]
          simp [actions, Event.is_action]

theorem outcome_actions_le (u : Nat) (evs : List Event)
    (h : actions evs = [] ∨ actions evs = retry_head_actions u ∨
      actions evs = retry_actions u) :
    (actions evs).length ≤ 24 := by
  rcases h with h | h | h <;> rw [h]
  · exact Nat.zero_le _
  · rw [length_retry_head_actions]; omega
  · rw [length_retry_actions]

/-- One call of the navigation dispatches at most 87 actions. -/
theorem navigate_actions_le (c : Console) (k : Nat) :
    (actions (navigate_to_date_change_with_ocr c ⟨k, []⟩).2.trace).length ≤ 87 := by
  cases h0 : c.video k with
  | none =>
    rw [navigate_no_frame c k [] h0]
    simp [actions, Event.is_action]
  | some f0 =>
    rw [navigate_frame c k [] f0 h0]
    obtain ⟨b1, j1, evs1, he1, hc1⟩ :=
      check1_outcome c (100 + c.timing_variation) (k + 1)
        ([] ++ start_events (100 + c.timing_variation))
    have hl1 : (actions evs1).length ≤ 24 := by
      rcases hc1 with ⟨_, _, ha⟩ | ⟨_, _, ha⟩
      · exact outcome_actions_le _ _ ha
      · exact outcome_actions_le _ _ (ha.elim Or.inl (fun h => Or.inr (Or.inr h)))
    rw [he1]
    cases b1 with
    | false =>
      simp only [Bool.false_eq_true, if_false, List.nil_append, actions_append,
        actions_start_events, List.length_append, length_step_actions]
      omega
    | true =>
      simp only [if_true]
      obtain ⟨b2, j2, evs2, he2, hc2⟩ :=
        check2_outcome c (100 + c.timing_variation) (k + 1 + j1)
          ([] ++ start_events (100 + c.timing_variation) ++ evs1)
      have hl2 : (actions evs2).length ≤ 24 := by
        rcases hc2 with ⟨_, _, ha⟩ | ⟨_, _, ha⟩
        · exact outcome_actions_le _ _ ha
        · exact outcome_actions_le _ _ (ha.elim Or.inl (fun h => Or.inr (Or.inr h)))
      rw [he2]
      cases b2 with
      | false =>
        simp only [Bool.false_eq_true, if_false, List.nil_append, actions_append,
          actions_start_events, List.length_append, length_step_actions]
        omega
      | true =>
        simp only [if_true]
        cases h3 : c.video (k + 1 + j1 + j2) with
        | none =>
          rw [check34_no_frame c _ _ _ h3]
          simp only [List.nil_append, actions_append, actions_start_events, actions_no_frame,
            List.append_nil, List.length_append, length_step_actions]
          omega
        | some f3 =>
          rw [check34_frame c _ _ _ f3 h3]
          obtain ⟨b4, j4, evs4, he4, hl4⟩ :=
            check4_actions_le c (100 + c.timing_variation) (k + 1 + j1 + j2 + 1)
              ([] ++ start_events (100 + c.timing_variation) ++ evs1 ++ evs2 ++
                check3_events (100 + c.timing_variation)
                  (f3.extract_box_reference toggle_box).average)
          have hl3 := actions_check3_events_le (100 + c.timing_variation)
            (f3.extract_box_reference toggle_box).average
          rw [he4]
          simp only [List.nil_append, actions_append, actions_start_events,
            List.length_append, length_step_actions]
          omega

/-- The run in which every capture yields a frame and every text check matches
at its first verification. -/
theorem navigate_all_match (c : Console) (n : Nat) (t : List Event)
    (f0 f1 f2 f3 f4 : VideoSnapshot)
    (h0 : c.video n = some f0) (h1 : c.video (n + 1) = some f1)
    (h2 : c.video (n + 2) = some f2) (h3 : c.video (n + 3) = some f3)
    (h4 : c.video (n + 4) = some f4)
    (htm : title_matches (read_box_text_ocr f1 menu_title_box) = true)
    (hsm : sync_matches (read_box_text_ocr f2 sync_text_box) = true)
    (hfm : final_matches (read_box_text_ocr f4 current_dt_box) = true) :
    navigate_to_date_change_with_ocr c ⟨n, t⟩ =
      (true, ⟨n + 5,
        t ++ (start_events (100 + c.timing_variation) ++
          (check1_events (read_box_text_ocr f1 menu_title_box) ++
            (check2_events (read_box_text_ocr f2 sync_text_box) ++
              (check3_events (100 + c.timing_variation)
                  (f3.extract_box_reference toggle_box).average ++
                check4_events (100 + c.timing_variation)
                  (read_box_text_ocr f4 current_dt_box)))))⟩) := by
  rw [navigate_frame c n t f0 h0]
  rw [check1_match c _ (n + 1) _ f1 h1 htm]
  simp only [if_true]
  rw [check2_match c _ (n + 1 + 1) _ f2 h2 hsm]
  simp only [if_true]
  rw [check34_frame c _ (n + 1 + 1 + 1) _ f3 h3]
  rw [check4_match c _ (n + 1 + 1 + 1 + 1) _ f4 h4 hfm]
  simp only [List.append_assoc]

/-! ## Claim on the resources of one call -/

/-- C26: the navigation is a total function of the captures, so every call
returns. It enters the recovery routine at most three times (18 scroll-ups per
entry, at most one entry in each of Checks 1, 2 and 4) and dispatches at most
87 button presses and joystick moves. A run in which the five captures yield
frames, the three text checks match at once and the toggle is classified off
dispatches exactly 10. -/
theorem navigation_resources (c : Console) (n : Nat) :
    (∃ result, navigate_to_date_change_with_ocr c ⟨n, []⟩ = result) ∧
    (∃ r, r ≤ 3 ∧
      scroll_ups (navigate_to_date_change_with_ocr c ⟨n, []⟩).2.trace = 18 * r) ∧
    (∀ u k t, ∃ r, r ≤ 1 ∧
      scroll_ups (check1_menu_title c u ⟨k, t⟩).2.trace = scroll_ups t + 18 * r) ∧
    (∀ u k t, ∃ r, r ≤ 1 ∧
      scroll_ups (check2_sync_text c u ⟨k, t⟩).2.trace = scroll_ups t + 18 * r) ∧
    (∀ u k t, ∃ r, r ≤ 1 ∧
      scroll_ups (check4_date_change c u ⟨k, t⟩).2.trace = scroll_ups t + 18 * r) ∧
    (actions (navigate_to_date_change_with_ocr c ⟨n, []⟩).2.trace).length ≤ 87 ∧
    (∀ f0 f1 f2 f3 f4, c.video n = some f0 → c.video (n + 1) = some f1 →
      c.video (n + 2) = some f2 → c.video (n + 3) = some f3 → c.video (n + 4) = some f4 →
      title_matches (read_box_text_ocr f1 menu_title_box) = true →
      sync_matches (read_box_text_ocr f2 sync_text_box) = true →
      final_matches (read_box_text_ocr f4 current_dt_box) = true →
      toggle_appears_on (f3.extract_box_reference toggle_box).average = false →
      (navigate_to_date_change_with_ocr c ⟨n, []⟩).1 = true ∧
      (actions (navigate_to_date_change_with_ocr c ⟨n, []⟩).2.trace).length = 10) := by
  refine ⟨⟨_, rfl⟩, ?_, ?_, ?_, ?_, navigate_actions_le c n, ?_⟩
  · obtain ⟨r, hr, hs⟩ := navigate_recoveries c n []
    refine ⟨r, hr, ?_⟩
    rw [hs]
    have hz : scroll_ups [] = 0 := rfl
    omega
  · intro u k t
    obtain ⟨b, j, evs, r, he, hr, hs, _⟩ := check1_recoveries c u k t
    rw [he]
    exact ⟨r, hr, by simp only [scroll_ups_append, hs]⟩
  · intro u k t
    obtain ⟨b, j, evs, r, he, hr, hs, _⟩ := check2_recoveries c u k t
    rw [he]
    exact ⟨r, hr, by simp only [scroll_ups_append, hs]⟩
  · intro u k t
    obtain ⟨b, j, evs, r, he, hr, hs, _⟩ := check4_recoveries c u k t
    rw [he]
    exact ⟨r, hr, by simp only [scroll_ups_append, hs]⟩
  · intro f0 f1 f2 f3 f4 h0 h1 h2 h3 h4 htm hsm hfm hoff
    rw [navigate_all_match c n [] f0 f1 f2 f3 f4 h0 h1 h2 h3 h4 htm hsm hfm]
    refine ⟨rfl, ?_⟩
    simp only [actions_append, actions_start_events, actions_check1_events,
      actions_check2_events, actions_check4_events, List.nil_append, List.length_append,
      length_step_actions, length_enter_date_change_actions]
    simp [actions, check3_events, hoff, Event.is_action]

/-- Witness for C26: five captures of the "Date and Time" menu with the toggle
shown white. -/
theorem navigation_resources_witness :
    (console_of [some menu_frame, some menu_frame, some menu_frame, some menu_frame,
        some menu_frame] 0).video 0 = some menu_frame ∧
    toggle_appears_on (menu_frame.extract_box_reference toggle_box).average = false ∧
    (actions (navigate_to_date_change_with_ocr
      (console_of [some menu_frame, some menu_frame, some menu_frame, some menu_frame,
        some menu_frame] 0) ⟨0, []⟩).2.trace).length = 10 :=
  ⟨rfl, toggle_white_off,
    ((navigation_resources
      (console_of [some menu_frame, some menu_frame, some menu_frame, some menu_frame,
        some menu_frame] 0) 0).2.2.2.2.2.2 menu_frame menu_frame menu_frame menu_frame
        menu_frame rfl rfl rfl rfl rfl (by rw [read_menu_frame]; decide)
        (by rw [read_menu_frame]; decide) (by rw [read_menu_frame]; decide)
        toggle_white_off).2⟩

/-! ## The backward roll -/

/-- With a bound below 256 the 8-bit counter never wraps, and the loop runs its
body once per value of the counter below the bound. -/
theorem for_uint8_eq (body : World → World) (n : Nat) (hn : n < 256) :
    ∀ (fuel c : Nat) (w : World), c ≤ n → n - c < fuel →
      for_uint8 (n : Int) body fuel c w = some (repeat_n (n - c) body w) := by
  intro fuel
  induction fuel with
  | zero => intro c w _ hf; omega
  | succ fuel ih =>
    intro c w hc hf
    unfold for_uint8
    by_cases hlt : c < n
    · have hcast : (c : Int) < (n : Int) := by exact_mod_cast hlt
      rw [if_pos hcast]
      have hmod : (c + 1) % 256 = c + 1 := Nat.mod_eq_of_lt (by omega)
      rw [hmod, ih (c + 1) (body w) (by omega) (by omega)]
      have hsub : n - c = (n - (c + 1)) + 1 := by omega
      rw [hsub, repeat_n]
    · have hcast : ¬ (c : Int) < (n : Int) := by
        intro h
        exact hlt (by exact_mod_cast h)
      rw [if_neg hcast]
      have hsub : n - c = 0 := by omega
      rw [hsub, repeat_n]

theorem for_uint8_skips (x y h r : Nat) (skips fuel k : Nat) (t : List Event)
    (h1 : 1 ≤ skips) (h8 : skips < 256) (hf : skips ≤ fuel) :
    for_uint8 ((skips : Int) - 1) (pbf_move_joystick x y h r) fuel 0 ⟨k, t⟩ =
      some ⟨k, t ++ List.replicate (skips - 1) (Event.move_joystick x y h r)⟩ := by
  have hb : ((skips : Int) - 1) = ((skips - 1 : Nat) : Int) := by omega
  rw [hb, for_uint8_eq _ (skips - 1) (by omega) fuel 0 _ (Nat.zero_le _) (by omega),
    Nat.sub_zero, repeat_n_move]

theorem roll_date_backward_N_run (console : Console) (skips fuel k : Nat) (t : List Event)
    (h1 : 1 ≤ skips) (h8 : skips < 256) (hf : skips ≤ fuel) :
    roll_date_backward_N console skips fuel ⟨k, t⟩ =
      some ⟨k, t ++ roll_backward_actions (40 + console.timing_variation) skips⟩ := by
  unfold roll_date_backward_N
  rw [if_neg (by omega)]
  simp only [for_uint8_skips _ _ _ _ skips fuel _ _ h1 h8 hf, pbf_press_button,
    pbf_move_joystick, emit, roll_backward_actions, List.append_assoc, List.cons_append,
    List.nil_append]

theorem actions_replicate_move (n x y h r : Nat) :
    actions (List.replicate n (Event.move_joystick x y h r)) =
      List.replicate n (Event.move_joystick x y h r) := by
  unfold actions
  rw [List.filter_eq_self]
  intro e he
  rw [List.eq_of_mem_replicate he]
  rfl

theorem actions_roll_backward_actions (u skips : Nat) :
    actions (roll_backward_actions u skips) = roll_backward_actions u skips := by
  simp only [roll_backward_actions, actions_append, actions_replicate_move]
  rfl

theorem length_roll_backward_actions (u skips : Nat) :
    (roll_backward_actions u skips).length = 2 * (skips - 1) + 7 := by
  simp only [roll_backward_actions, List.length_append, List.length_replicate,
    List.length_cons, List.length_nil]
  omega

theorem roll_date_backward_N_total (console : Console) (skips : Nat) (w : World)
    (h8 : skips < 256) :
    ∃ w2, roll_date_backward_N console skips 256 w = some w2 ∧ w2.next = w.next := by
  by_cases h0 : skips = 0
  · refine ⟨w, ?_, rfl⟩
    unfold roll_date_backward_N
    rw [if_pos h0]
  · obtain ⟨k, t⟩ := w
    exact ⟨_, roll_date_backward_N_run console skips 256 k t (by omega) h8 (by omega), rfl⟩

/-! ## Claim on the backward roll -/

/-- C27: for an 8-bit value `skips`, `roll_date_backward_N` returns once each
loop has fuel for `skips` evaluations of its condition. For `skips = 0` it
leaves the trace as it was; for `skips >= 1` it appends exactly
`2*(skips-1) + 7` events, all of them actions, in the order: `skips-1` moves
down, A, right, `skips-1` moves down, A, right, right, A, A. -/
theorem roll_date_backward_N_actions (console : Console) (skips fuel k : Nat)
    (t : List Event) (h8 : skips < 256) (hf : skips ≤ fuel) :
    (skips = 0 → roll_date_backward_N console skips fuel ⟨k, t⟩ = some ⟨k, t⟩) ∧
    (1 ≤ skips →
      ∃ evs, roll_date_backward_N console skips fuel ⟨k, t⟩ = some ⟨k, t ++ evs⟩ ∧
        actions evs = evs ∧
        evs.length = 2 * (skips - 1) + 7 ∧
        evs =
          List.replicate (skips - 1)
              (Event.move_joystick 128 255 (2 * (40 + console.timing_variation))
                (40 + console.timing_variation)) ++
            [ Event.press_button Button.A (2 * (40 + console.timing_variation))
                (40 + console.timing_variation),
              Event.move_joystick 255 128 (2 * (40 + console.timing_variation))
                (40 + console.timing_variation) ] ++
            List.replicate (skips - 1)
              (Event.move_joystick 128 255 (2 * (40 + console.timing_variation))
                (40 + console.timing_variation)) ++
            [ Event.press_button Button.A (2 * (40 + console.timing_variation))
                (40 + console.timing_variation),
              Event.move_joystick 255 128 (2 * (40 + console.timing_variation))
                (40 + console.timing_variation),
              Event.move_joystick 255 128 (2 * (40 + console.timing_variation))
                (40 + console.timing_variation),
              Event.press_button Button.A (2 * (40 + console.timing_variation))
                (40 + console.timing_variation),
              Event.press_button Button.A (2 * (40 + console.timing_variation))
                (40 + console.timing_variation) ]) := by
  constructor
  · intro h0
    unfold roll_date_backward_N
    rw [if_pos h0]
  · intro h1
    exact ⟨_, roll_date_backward_N_run console skips fuel k t h1 h8 hf,
      actions_roll_backward_actions _ _, length_roll_backward_actions _ _, rfl⟩

/-- Witness for C27: a roll by three with no timing variation dispatches eleven
actions. -/
theorem roll_date_backward_N_actions_witness :
    (3 < 256 ∧ 3 ≤ 256) ∧
    ∃ evs, roll_date_backward_N ⟨fun _ => none, 0⟩ 3 256 ⟨0, []⟩ = some ⟨0, [] ++ evs⟩ ∧
      actions evs = evs ∧ evs.length = 2 * (3 - 1) + 7 :=
  ⟨⟨by decide, by decide⟩,
    match (roll_date_backward_N_actions ⟨fun _ => none, 0⟩ 3 256 0 [] (by decide)
      (by decide)).2 (by decide) with
    | ⟨evs, hrun, hact, hlen, _⟩ => ⟨evs, hrun, hact, hlen⟩⟩

/-! ## The pickup loop of the daily item farmer -/

theorem read_picked_item_keeps (console : Console) (st : FarmerState) :
    (read_picked_item console st).year = st.year ∧
      (read_picked_item console st).skips = st.skips := by
  unfold read_picked_item
  dsimp only
  cases video_snapshot console (wait_for 500 st.world) with
  | none => exact ⟨rfl, rfl⟩
  | some frame =>
    dsimp only
    split
    · split
      · exact ⟨rfl, rfl⟩
      · exact ⟨rfl, rfl⟩
    · exact ⟨rfl, rfl⟩

theorem pickup_until_navigation_keeps (self : DailyItemFarmer) (console : Console)
    (st st1 : FarmerState) (b : Bool)
    (h : pickup_until_navigation self console st = Except.ok (b, st1)) :
    st1.year = st.year ∧ st1.skips = st.skips := by
  unfold pickup_until_navigation at h
  dsimp only at h
  obtain ⟨hy, hs⟩ := read_picked_item_keeps console
    { st with world := wait_for_all_requests (pbf_mash_button Button.A 5000 st.world) }
  generalize read_picked_item console
    { st with world := wait_for_all_requests (pbf_mash_button Button.A 5000 st.world) } = sr
    at h hy hs
  cases htr : trade_then_settings self console sr.world with
  | mk r w =>
    rw [htr] at h
    cases r with
    | error e => cases h
    | ok u =>
      cases u
      dsimp only at h
      injection h with h
      injection h with _ h2
      subst h2
      exact ⟨hy, hs⟩

/-- The three ways in which one iteration of the pickup loop ends. -/
theorem pickup_iteration_cases (self : DailyItemFarmer) (console : Console)
    (st : FarmerState) :
    (∃ e, pickup_until_navigation self console st = Except.error e ∧
      pickup_iteration self console st = some (Except.error e)) ∨
    (∃ st1, pickup_until_navigation self console st = Except.ok (false, st1) ∧
      pickup_iteration self console st = some (Except.ok st1) ∧
      st1.year = st.year ∧ st1.skips = st.skips) ∨
    (∃ st1 w, pickup_until_navigation self console st = Except.ok (true, st1) ∧
      st1.year = st.year ∧ st1.skips = st.skips ∧
      ((self.MAX_YEAR ≤ st.year ∧
        roll_date_backward_N console (self.MAX_YEAR % 256) 256 st1.world = some w ∧
        pickup_iteration self console st = some (Except.ok
          { st1 with year := 0, skips := (st.skips + 1) % 2 ^ 64,
                     world := back_to_game self 2500 7000 w })) ∨
       (st.year < self.MAX_YEAR ∧ w = roll_date_forward_1 console st1.world ∧
        pickup_iteration self console st = some (Except.ok
          { st1 with year := (st.year + 1) % 256, skips := (st.skips + 1) % 2 ^ 64,
                     world := back_to_game self 2500 7000 w })))) := by
  cases hu : pickup_until_navigation self console st with
  | error e =>
    left
    refine ⟨e, rfl, ?_⟩
    unfold pickup_iteration
    rw [hu]
  | ok r =>
    obtain ⟨b, st1⟩ := r
    obtain ⟨hy, hs⟩ := pickup_until_navigation_keeps self console st st1 b hu
    cases b with
    | false =>
      right; left
      refine ⟨st1, rfl, ?_, hy, hs⟩
      unfold pickup_iteration
      rw [hu]
    | true =>
      right; right
      by_cases hge : self.MAX_YEAR ≤ st.year
      · obtain ⟨w, hw, _⟩ := roll_date_backward_N_total console (self.MAX_YEAR % 256)
          st1.world (Nat.mod_lt _ (by decide))
        refine ⟨st1, w, rfl, hy, hs, Or.inl ⟨hge, hw, ?_⟩⟩
        unfold pickup_iteration
        rw [hu]
        dsimp only
        rw [if_pos (by rw [hy]; exact hge), hw, hs]
      · refine ⟨st1, roll_date_forward_1 console st1.world, rfl, hy, hs,
          Or.inr ⟨by omega, rfl, ?_⟩⟩
        unfold pickup_iteration
        rw [hu]
        dsimp only
        rw [if_neg (by rw [hy]; exact hge), hs, hy]

/-- The year at the end of an iteration is at most `MAX_YEAR` when it was so at
the start. -/
theorem pickup_iteration_year (self : DailyItemFarmer) (console : Console)
    (st st2 : FarmerState) (hy : st.year ≤ self.MAX_YEAR)
    (h : pickup_iteration self console st = some (Except.ok st2)) :
    st2.year ≤ self.MAX_YEAR := by
  rcases pickup_iteration_cases self console st with
    ⟨e, _, hi⟩ | ⟨st1, _, hi, hy1, _⟩ | ⟨st1, w, _, _, _, ⟨_, _, hi⟩ | ⟨hlt, _, hi⟩⟩
  · rw [hi] at h; cases h
  · rw [hi] at h
    injection h with h
    injection h with h
    subst h
    omega
  · rw [hi] at h
    injection h with h
    injection h with h
    subst h
    exact Nat.zero_le _
  · rw [hi] at h
    injection h with h
    injection h with h
    subst h
    exact le_trans (Nat.mod_le _ _) hlt

theorem iteration_starts_year (self : DailyItemFarmer) (console : Console) :
    ∀ (n : Nat) (st0 : FarmerState), st0.year ≤ self.MAX_YEAR →
      ∀ st ∈ iteration_starts self console n st0, st.year ≤ self.MAX_YEAR := by
  intro n
  induction n with
  | zero => intro st0 _ st hst; cases hst
  | succ n ih =>
    intro st0 h0 st hst
    unfold iteration_starts at hst
    rcases List.mem_cons.mp hst with h | h
    · rw [h]; exact h0
    · cases hi : pickup_iteration self console st0 with
      | none => rw [hi] at h; cases h
      | some r =>
        cases r with
        | error e => rw [hi] at h; cases h
        | ok st2 =>
          rw [hi] at h
          exact ih st2 (pickup_iteration_year self console st0 st2 h0 hi) st h

theorem pickup_loop_returns (self : DailyItemFarmer) (console : Console) :
    ∀ (n : Nat) (st0 : FarmerState), pickup_loop self console n st0 ≠ none := by
  intro n
  induction n with
  | zero => intro st0 h; cases h
  | succ n ih =>
    intro st0
    unfold pickup_loop
    rcases pickup_iteration_cases self console st0 with
      ⟨e, _, hi⟩ | ⟨st1, _, hi, _, _⟩ | ⟨st1, w, _, _, _, ⟨_, _, hi⟩ | ⟨_, _, hi⟩⟩
    · rw [hi]; intro h; cases h
    · rw [hi]; exact ih _
    · rw [hi]; exact ih _
    · rw [hi]; exact ih _

theorem successful_navigations_succ (self : DailyItemFarmer) (console : Console)
    (n : Nat) (st st2 : FarmerState)
    (hi : pickup_iteration self console st = some (Except.ok st2)) :
    successful_navigations self console (n + 1) st =
      (if navigation_succeeds self console st = true then 1 else 0) +
        successful_navigations self console n st2 := by
  unfold successful_navigations
  rw [iteration_starts, hi]
  dsimp only
  rw [List.filter_cons]
  split
  · rw [List.length_cons, Nat.add_comm]
  · rw [Nat.zero_add]

theorem navigation_succeeds_of (self : DailyItemFarmer) (console : Console)
    (st st1 : FarmerState) (b : Bool)
    (hu : pickup_until_navigation self console st = Except.ok (b, st1)) :
    navigation_succeeds self console st = b := by
  unfold navigation_succeeds
  rw [hu]
  cases b <;> rfl

theorem pickup_loop_skips (self : DailyItemFarmer) (console : Console) :
    ∀ (n : Nat) (st0 stf : FarmerState), st0.skips + n < 2 ^ 64 →
      pickup_loop self console n st0 = some (Except.ok stf) →
      stf.skips = st0.skips + successful_navigations self console n st0 := by
  intro n
  induction n with
  | zero =>
    intro st0 stf _ h
    unfold pickup_loop at h
    injection h with h
    injection h with h
    subst h
    rfl
  | succ n ih =>
    intro st0 stf hb h
    unfold pickup_loop at h
    have hm : (st0.skips + 1) % 2 ^ 64 = st0.skips + 1 := Nat.mod_eq_of_lt (by omega)
    rcases pickup_iteration_cases self console st0 with
      ⟨e, _, hi⟩ | ⟨st1, hu, hi, _, hs⟩ | ⟨st1, w, hu, _, _, ⟨_, _, hi⟩ | ⟨_, _, hi⟩⟩
    · rw [hi] at h; cases h
    · rw [hi] at h
      dsimp only at h
      have h2 := ih st1 stf (by omega) h
      rw [successful_navigations_succ self console n st0 st1 hi,
        navigation_succeeds_of self console st0 st1 false hu, h2, hs]
      simp only [Bool.false_eq_true, if_false, Nat.zero_add]
    · rw [hi] at h
      dsimp only at h
      have h2 := ih _ stf (by dsimp only; omega) h
      dsimp only at h2
      rw [successful_navigations_succ self console n st0 _ hi,
        navigation_succeeds_of self console st0 st1 true hu, h2, hm]
      simp only [if_true]
      omega
    · rw [hi] at h
      dsimp only at h
      have h2 := ih _ stf (by dsimp only; omega) h
      dsimp only at h2
      rw [successful_navigations_succ self console n st0 _ hi,
        navigation_succeeds_of self console st0 st1 true hu, h2, hm]
      simp only [if_true]
      omega

theorem program_start_state (self : DailyItemFarmer) (console : Console) (skips : Nat)
    (w : World) (st0 : FarmerState)
    (h : program_start self console skips w = some (Except.ok st0)) :
    st0.year = 0 ∧ st0.skips = skips := by
  unfold program_start at h
  cases htr : trade_then_settings self console w with
  | mk r w1 =>
    rw [htr] at h
    cases r with
    | error e => cases h
    | ok u =>
      cases u
      dsimp only at h
      split at h
      · cases h
      · split at h
        · cases h
        · injection h with h
          injection h with h
          subst h
          exact ⟨rfl, rfl⟩

/-- On the steady console the navigation of every iteration succeeds. -/
theorem steady_navigation (st : FarmerState) :
    ∃ st1, pickup_until_navigation sample_farmer steady_console st = Except.ok (true, st1) := by
  unfold pickup_until_navigation
  dsimp only
  generalize read_picked_item steady_console
    { st with world := wait_for_all_requests (pbf_mash_button Button.A 5000 st.world) } = sr
  have htr : ∃ w, trade_then_settings sample_farmer steady_console sr.world =
      (Except.ok (), w) := ⟨_, rfl⟩
  obtain ⟨w, hw⟩ := htr
  rw [hw]
  dsimp only
  have hnav := navigate_all_match steady_console w.next w.trace menu_frame menu_frame
    menu_frame menu_frame menu_frame rfl rfl rfl rfl rfl
    (by rw [read_menu_frame]; decide) (by rw [read_menu_frame]; decide)
    (by rw [read_menu_frame]; decide)
  have hw2 : navigate_to_date_change_with_ocr steady_console w =
      navigate_to_date_change_with_ocr steady_console ⟨w.next, w.trace⟩ := rfl
  rw [hw2, hnav]
  exact ⟨_, rfl⟩

/-! ## Claim on the year counter and the skips statistic -/

/-- C29: with `MAX_YEAR` an 8-bit value, the pickup loop of
`DailyItemFarmer::program` starts with `year = 0` after the initial roll-back,
and `year <= MAX_YEAR` holds at the start of every iteration. An iteration
whose navigation succeeds rolls back by `MAX_YEAR` and sets `year` to 0 exactly
when `year >= MAX_YEAR`, and otherwise rolls forward by one and adds 1 to
`year`; in both cases it adds 1 to the skips statistic. An iteration whose
navigation fails leaves `year` and the skips statistic unchanged. The loop
always returns, and when it runs to its end the skips statistic has grown by
the number of iterations whose navigation succeeded. -/
theorem pickup_loop_year_and_skips (self : DailyItemFarmer) (console : Console)
    (hM : self.MAX_YEAR < 256) :
    (∀ skips w st0, program_start self console skips w = some (Except.ok st0) →
      st0.year = 0 ∧ st0.skips = skips) ∧
    (∀ n st0, st0.year ≤ self.MAX_YEAR →
      ∀ st ∈ iteration_starts self console n st0, st.year ≤ self.MAX_YEAR) ∧
    (∀ st st1, pickup_until_navigation self console st = Except.ok (true, st1) →
      self.MAX_YEAR ≤ st.year →
      ∃ w, roll_date_backward_N console self.MAX_YEAR 256 st1.world = some w ∧
        pickup_iteration self console st = some (Except.ok
          { st1 with year := 0, skips := (st.skips + 1) % 2 ^ 64,
                     world := back_to_game self 2500 7000 w })) ∧
    (∀ st st1, pickup_until_navigation self console st = Except.ok (true, st1) →
      st.year < self.MAX_YEAR →
      pickup_iteration self console st = some (Except.ok
        { st1 with year := st.year + 1, skips := (st.skips + 1) % 2 ^ 64,
                   world := back_to_game self 2500 7000
                     (roll_date_forward_1 console st1.world) })) ∧
    (∀ st st1, pickup_until_navigation self console st = Except.ok (false, st1) →
      pickup_iteration self console st = some (Except.ok st1) ∧
        st1.year = st.year ∧ st1.skips = st.skips) ∧
    (∀ n st0, pickup_loop self console n st0 ≠ none) ∧
    (∀ n st0 stf, st0.skips + n < 2 ^ 64 →
      pickup_loop self console n st0 = some (Except.ok stf) →
      stf.skips = st0.skips + successful_navigations self console n st0) := by
  have hmod : self.MAX_YEAR % 256 = self.MAX_YEAR := Nat.mod_eq_of_lt hM
  refine ⟨fun skips w st0 h => program_start_state self console skips w st0 h,
    iteration_starts_year self console, ?_, ?_, ?_, pickup_loop_returns self console,
    pickup_loop_skips self console⟩
  · intro st st1 hu hge
    rcases pickup_iteration_cases self console st with
      ⟨e, hu2, _⟩ | ⟨st2, hu2, _⟩ | ⟨st2, w, hu2, _, _, ⟨_, hw, hi⟩ | ⟨hlt, _, _⟩⟩
    · rw [hu] at hu2; cases hu2
    · rw [hu] at hu2; cases hu2
    · rw [hu] at hu2
      injection hu2 with hu2
      injection hu2 with _ hst
      subst hst
      rw [hmod] at hw
      exact ⟨w, hw, hi⟩
    · omega
  · intro st st1 hu hlt
    rcases pickup_iteration_cases self console st with
      ⟨e, hu2, _⟩ | ⟨st2, hu2, _⟩ | ⟨st2, w, hu2, _, _, ⟨hge, _, _⟩ | ⟨_, hw, hi⟩⟩
    · rw [hu] at hu2; cases hu2
    · rw [hu] at hu2; cases hu2
    · omega
    · rw [hu] at hu2
      injection hu2 with hu2
      injection hu2 with _ hst
      subst hst
      subst hw
      have hy : (st.year + 1) % 256 = st.year + 1 := Nat.mod_eq_of_lt (by omega)
      rw [hy] at hi
      exact hi
  · intro st st1 hu
    rcases pickup_iteration_cases self console st with
      ⟨e, hu2, _⟩ | ⟨st2, hu2, hi, hy, hs⟩ | ⟨st2, w, hu2, _⟩
    · rw [hu] at hu2; cases hu2
    · rw [hu] at hu2
      injection hu2 with hu2
      injection hu2 with _ hst
      subst hst
      exact ⟨hi, hy, hs⟩
    · rw [hu] at hu2
      injection hu2 with hu2
      injection hu2 with hb _
      cases hb

/-- Witness for C29: the sample farmer on the steady console. The year stays
within `MAX_YEAR = 1` over three iterations, and the first iteration, started
in year 0, navigates, rolls forward and counts one skip. -/
theorem pickup_loop_year_and_skips_witness :
    sample_farmer.MAX_YEAR < 256 ∧
    (∀ st ∈ iteration_starts sample_farmer steady_console 3 ⟨0, 0, [], ⟨0, []⟩⟩,
      st.year ≤ sample_farmer.MAX_YEAR) ∧
    (∃ st1 : FarmerState, pickup_iteration sample_farmer steady_console ⟨0, 0, [], ⟨0, []⟩⟩ =
      some (Except.ok
        { st1 with year := 0 + 1, skips := (0 + 1) % 2 ^ 64,
                   world := back_to_game sample_farmer 2500 7000
                     (roll_date_forward_1 steady_console st1.world) })) :=
  ⟨by decide,
    (pickup_loop_year_and_skips sample_farmer steady_console (by decide)).2.1 3
      ⟨0, 0, [], ⟨0, []⟩⟩ (by decide),
    match steady_navigation ⟨0, 0, [], ⟨0, []⟩⟩ with
    | ⟨st1, h1⟩ =>
      ⟨st1, (pickup_loop_year_and_skips sample_farmer steady_console (by decide)).2.2.2.1
        ⟨0, 0, [], ⟨0, []⟩⟩ st1 h1 (by decide)⟩⟩

end PokemonLGPE
